import Mathlib

/-!
Verification development for the laptop web-scrape ETL core.

The Python sources (src/etl.py, src/etl_old.py / src/uploaded_notebook_code.py)
are shallowly embedded below: pure functions become Lean functions, the
SQLite-backed SCD2 state becomes explicit state passing over lists of rows, and
regex-driven extractors are embedded via a small Python-style backtracking
regex engine over explicit pattern ASTs.  Character-level operations model the
ASCII fragment of Python's string functions (the data processed by the pipeline
is ASCII product text); machine integers are Nat with explicit `% 2^w`.
-/

namespace WS

/-- Python `\s` (ASCII fragment): space, tab, newline, carriage return,
vertical tab, form feed. -/
def isPySpace (c : Char) : Bool :=
  c = ' ' || c = '\t' || c = '\n' || c = '\x0d' || c = '\x0b' || c = '\x0c'

/-- Python `\w` (ASCII fragment): alphanumerics and underscore. -/
def isWordCh (c : Char) : Bool :=
  c.isAlphanum || c = '_'

/-- ASCII-case upper of a whole string (models `str.upper`). -/
def upStr (s : String) : String :=
  String.mk (s.data.map Char.toUpper)

/-- ASCII-case lower of a whole string (models `str.lower`). -/
def lowStr (s : String) : String :=
  String.mk (s.data.map Char.toLower)

/-- Python `str.strip()` (ASCII whitespace fragment). -/
def pyStripL (l : List Char) : List Char :=
  (l.dropWhile isPySpace).reverse.dropWhile isPySpace |>.reverse

def pyStrip (s : String) : String :=
  String.mk (pyStripL s.data)

/-- Collapse consecutive spaces to one (used after mapping every `\s` char to
a space, this models `re.sub(r'\s+', ' ', s)`). -/
def squeezeSp : List Char → List Char
  | [] => []
  | [a] => [a]
  | a :: b :: t =>
    if a = ' ' && b = ' ' then squeezeSp (b :: t) else a :: squeezeSp (b :: t)

/-- `re.sub(r'\s+', ' ', s)`: every maximal whitespace run becomes one space. -/
def collapseWs (l : List Char) : List Char :=
  squeezeSp (l.map (fun c => if isPySpace c then ' ' else c))

/-- Keep only `[0-9a-zA-Z\s]` characters: `re.sub(r'[^0-9a-zA-Z\s]', '', s)`. -/
def keepAlnumSp (l : List Char) : List Char :=
  l.filter (fun c => c.isAlphanum || isPySpace c)

/-- The name normalization inside `compute_product_hash` (src/etl.py:65-77):
lowercase, strip, collapse whitespace runs, then drop non-alphanumeric,
non-whitespace characters. -/
def normalizeName (s : String) : String :=
  String.mk (keepAlnumSp (collapseWs (pyStripL (lowStr s).data)))

/-- Digits of a decimal numeral to a Nat (used for `int(match.group(i))`). -/
def natOfDigits (l : List Char) : Nat :=
  l.foldl (fun acc c => acc * 10 + (c.toNat - '0'.toNat)) 0

/-! ### UTF-8 encoding and SHA-256 (for the business key) -/

/-- UTF-8 bytes of one code point. -/
def utf8Char (c : Char) : List Nat :=
  let n := c.toNat
  if n < 0x80 then [n]
  else if n < 0x800 then [0xC0 + n / 64, 0x80 + n % 64]
  else if n < 0x10000 then
    [0xE0 + n / 4096, 0x80 + (n / 64) % 64, 0x80 + n % 64]
  else
    [0xF0 + n / 262144, 0x80 + (n / 4096) % 64, 0x80 + (n / 64) % 64, 0x80 + n % 64]

def utf8Bytes (s : String) : List Nat :=
  s.data.flatMap utf8Char

def M32 : Nat := 4294967296

def add32 (a b : Nat) : Nat := (a + b) % M32

def rotr32 (n x : Nat) : Nat :=
  ((x >>> n) ||| (x <<< (32 - n))) % M32

def sha256K : List Nat :=
  [1116352408, 1899447441, 3049323471, 3921009573, 961987163, 1508970993,
   2453635748, 2870763221, 3624381080, 310598401, 607225278, 1426881987,
   1925078388, 2162078206, 2614888103, 3248222580, 3835390401, 4022224774,
   264347078, 604807628, 770255983, 1249150122, 1555081692, 1996064986,
   2554220882, 2821834349, 2952996808, 3210313671, 3336571891, 3584528711,
   113926993, 338241895, 666307205, 773529912, 1294757372, 1396182291,
   1695183700, 1986661051, 2177026350, 2456956037, 2730485921, 2820302411,
   3259730800, 3345764771, 3516065817, 3600352804, 4094571909, 275423344,
   430227734, 506948616, 659060556, 883997877, 958139571, 1322822218,
   1537002063, 1747873779, 1955562222, 2024104815, 2227730452, 2361852424,
   2428436474, 2756734187, 3204031479, 3329325298]

def sha256H0 : List Nat :=
  [1779033703, 3144134277, 1013904242, 2773480762, 1359893119, 2600822924,
   528734635, 1541459225]

/-- SHA-256 message padding. -/
def shaPad (msg : List Nat) : List Nat :=
  let len := msg.length
  let k := (119 - len % 64) % 64
  let bitLen := 8 * len
  msg ++ [0x80] ++ List.replicate k 0 ++
    [(bitLen >>> 56) % 256, (bitLen >>> 48) % 256, (bitLen >>> 40) % 256, (bitLen >>> 32) % 256,
     (bitLen >>> 24) % 256, (bitLen >>> 16) % 256, (bitLen >>> 8) % 256, bitLen % 256]

/-- Split a byte list into 64-byte chunks (input length is a multiple of 64);
the fuel argument only bounds the structural recursion. -/
def chunks64F : Nat → List Nat → List (List Nat)
  | 0, _ => []
  | _, [] => []
  | f + 1, c :: cs => (c :: cs).take 64 :: chunks64F f ((c :: cs).drop 64)

def chunks64 (l : List Nat) : List (List Nat) :=
  chunks64F l.length l

/-- 16 big-endian 32-bit words of one 64-byte chunk. -/
def chunkWords (c : List Nat) : List Nat :=
  (List.range 16).map (fun i =>
    c.getD (4 * i) 0 * 16777216 + c.getD (4 * i + 1) 0 * 65536 +
    c.getD (4 * i + 2) 0 * 256 + c.getD (4 * i + 3) 0)

/-- Extend 16 words to the 64-word message schedule. -/
def extendWords (w : List Nat) : Nat → List Nat
  | 0 => w
  | n + 1 =>
    let w := extendWords w n
    let i := w.length
    let w15 := w.getD (i - 15) 0
    let w2 := w.getD (i - 2) 0
    let s0 := (rotr32 7 w15 ^^^ rotr32 18 w15 ^^^ (w15 >>> 3)) % M32
    let s1 := (rotr32 17 w2 ^^^ rotr32 19 w2 ^^^ (w2 >>> 10)) % M32
    w ++ [(w.getD (i - 16) 0 + s0 + w.getD (i - 7) 0 + s1) % M32]

/-- One SHA-256 compression round. -/
def shaRound (st : List Nat) (kw : Nat × Nat) : List Nat :=
  match st with
  | [a, b, c, d, e, f, g, h] =>
    let s1 := (rotr32 6 e ^^^ rotr32 11 e ^^^ rotr32 25 e) % M32
    let ch := ((e &&& f) ^^^ ((M32 - 1 - e) &&& g)) % M32
    let t1 := (h + s1 + ch + kw.1 + kw.2) % M32
    let s0 := (rotr32 2 a ^^^ rotr32 13 a ^^^ rotr32 22 a) % M32
    let mj := ((a &&& b) ^^^ (a &&& c) ^^^ (b &&& c)) % M32
    let t2 := (s0 + mj) % M32
    [(t1 + t2) % M32, a, b, c, add32 d t1, e, f, g]
  | st => st

/-- Process one chunk against the running hash state. -/
def shaChunk (hs : List Nat) (c : List Nat) : List Nat :=
  let w := extendWords (chunkWords c) 48
  let st := (sha256K.zip w).foldl shaRound hs
  (hs.zip st).map (fun p => add32 p.1 p.2)

def hexDigit (n : Nat) : Char :=
  if n < 10 then Char.ofNat ('0'.toNat + n) else Char.ofNat ('a'.toNat + n - 10)

def hex8 (n : Nat) : List Char :=
  (List.range 8).map (fun i => hexDigit ((n >>> (28 - 4 * i)) % 16))

/-- Full SHA-256 hex digest of a byte list. -/
def sha256Hex (msg : List Nat) : String :=
  let hs := (chunks64 (shaPad msg)).foldl shaChunk sha256H0
  String.mk (hs.flatMap hex8)

/-- src/etl.py:65-77 `compute_product_hash`: the business key.  A missing
(`None`/NaN) name is treated as the empty string, then the name is normalized
and the full SHA-256 hex digest of its UTF-8 bytes is returned. -/
def compute_product_hash (product_name : Option String) : String :=
  let s := match product_name with
    | none => ""
    | some s => s
  sha256Hex (utf8Bytes (normalizeName s))

/-! ### A small Python-style backtracking regex engine

Patterns from the source are transcribed into this AST.  Semantics follow
Python's `re`: leftmost match, ordered alternation, greedy/lazy quantifiers
with full backtracking.  Quantifiers in the source only ever apply to
single-character classes, so the AST builds them in directly.  Matching is
fueled; the fuel passed by `reSearch`/`reFindIter` bounds the recursion depth,
which is linear in pattern size plus subject length. -/

inductive RE where
  | eps : RE
  | cls (neg : Bool) (rs : List (Char × Char)) : RE
  | seq (a b : RE) : RE
  | alt (a b : RE) : RE
  | starCls (lazy neg : Bool) (rs : List (Char × Char)) : RE
  | grp (i : Nat) (r : RE) : RE
  | look (r : RE) : RE
  | wb : RE
  | eos : RE
deriving Repr

def RE.size : RE → Nat
  | .eps => 1
  | .cls _ _ => 1
  | .seq a b => a.size + b.size + 1
  | .alt a b => a.size + b.size + 1
  | .starCls _ _ _ => 1
  | .grp _ r => r.size + 1
  | .look r => r.size + 1
  | .wb => 1
  | .eos => 1

def inRanges (c : Char) (rs : List (Char × Char)) : Bool :=
  rs.any (fun p => p.1 ≤ c && c ≤ p.2)

def swapCase (c : Char) : Char :=
  if c.isUpper then c.toLower else if c.isLower then c.toUpper else c

/-- Character-class test; `ci` adds ASCII case folding (re.IGNORECASE). -/
def clsHit (ci neg : Bool) (rs : List (Char × Char)) (c : Char) : Bool :=
  let hit := inRanges c rs || (ci && inRanges (swapCase c) rs)
  if neg then !hit else hit

structure MSt where
  rest : List Char
  pos : Nat
  prev : Option Char
  caps : List (Nat × Nat × Nat)

def atWordB (prev next : Option Char) : Bool :=
  (match prev with | some c => isWordCh c | none => false) !=
  (match next with | some c => isWordCh c | none => false)

def mtch (ci : Bool) : Nat → RE → MSt → (MSt → Option MSt) → Option MSt
  | 0, _, _, _ => none
  | fuel + 1, r, st, k =>
    match r with
    | .eps => k st
    | .cls neg rs =>
      match st.rest with
      | [] => none
      | c :: cs => if clsHit ci neg rs c then k ⟨cs, st.pos + 1, some c, st.caps⟩ else none
    | .seq a b => mtch ci fuel a st (fun st1 => mtch ci fuel b st1 k)
    | .alt a b =>
      match mtch ci fuel a st k with
      | some res => some res
      | none => mtch ci fuel b st k
    | .starCls lz neg rs =>
      let more : Unit → Option MSt := fun _ =>
        match st.rest with
        | [] => none
        | c :: cs =>
          if clsHit ci neg rs c then
            mtch ci fuel (.starCls lz neg rs) ⟨cs, st.pos + 1, some c, st.caps⟩ k
          else none
      if lz then
        match k st with
        | some res => some res
        | none => more ()
      else
        match more () with
        | some res => some res
        | none => k st
    | .grp i a =>
      mtch ci fuel a st (fun st1 => k { st1 with caps := (i, st.pos, st1.pos) :: st1.caps })
    | .look a =>
      match mtch ci fuel a st some with
      | some _ => k st
      | none => none
    | .wb => if atWordB st.prev st.rest.head? then k st else none
    | .eos => match st.rest with | [] => k st | _ => none

structure MRes where
  mstart : Nat
  mend : Nat
  caps : List (Nat × Nat × Nat)
deriving Repr

def fuelFor (r : RE) (n : Nat) : Nat :=
  (r.size + 2) * (n + 2)

/-- Try to match `r` anchored at successive positions (Python `re.search`). -/
def searchFromAux (ci : Bool) (r : RE) : Nat → Option Char → List Char → Option MRes
  | pos, prev, rest =>
    match mtch ci (fuelFor r rest.length) r ⟨rest, pos, prev, []⟩ some with
    | some st => some ⟨pos, st.pos, st.caps⟩
    | none =>
      match rest with
      | [] => none
      | c :: cs => searchFromAux ci r (pos + 1) (some c) cs

def reSearch (ci : Bool) (r : RE) (s : List Char) : Option MRes :=
  searchFromAux ci r 0 none s

/-- All non-overlapping matches from left to right (Python `re.finditer`). -/
def findIterAux (ci : Bool) (r : RE) (s : List Char) : Nat → Nat → List MRes
  | 0, _ => []
  | fuel + 1, pos =>
    let prev := if pos = 0 then none else (s.drop (pos - 1)).head?
    match searchFromAux ci r pos prev (s.drop pos) with
    | none => []
    | some m =>
      let next := if m.mend > m.mstart then m.mend else m.mend + 1
      m :: findIterAux ci r s fuel next

def reFindIter (ci : Bool) (r : RE) (s : List Char) : List MRes :=
  findIterAux ci r s (s.length + 2) 0

/-- Text of capture group `i` of a match against subject `s`. -/
def capText (s : List Char) (m : MRes) (i : Nat) : List Char :=
  match m.caps.find? (fun t => t.1 = i) with
  | some (_, a, b) => (s.drop a).take (b - a)
  | none => []

def capNat (s : List Char) (m : MRes) (i : Nat) : Nat :=
  natOfDigits (capText s m i)

/-! #### Pattern-building helpers -/

def rch (c : Char) : RE := .cls false [(c, c)]

/-- A literal string, one `cls` per character. -/
def rstr (s : String) : RE := (s.data.map rch).foldr .seq .eps

def seqL (l : List RE) : RE := l.foldr .seq .eps

def altL : List RE → RE
  | [] => .eps
  | [r] => r
  | r :: rs => .alt r (altL rs)

def digC : List (Char × Char) := [('0', '9')]

/-- `\d` -/
def rdig : RE := .cls false digC

/-- `\d+` -/
def rdig1 : RE := .seq rdig (.starCls false false digC)

def wsC : List (Char × Char) :=
  [(' ', ' '), ('\t', '\t'), ('\n', '\n'), ('\x0d', '\x0d'), ('\x0b', '\x0b'), ('\x0c', '\x0c')]

/-- `\s*` -/
def rws0 : RE := .starCls false false wsC

/-- `\s+` -/
def rws1 : RE := .seq (.cls false wsC) rws0

/-- `r?` (greedy option) -/
def ropt (r : RE) : RE := .alt r .eps

/-- Is `p` a (character-list) starting segment of `l`? -/
def subAt : List Char → List Char → Bool
  | [], _ => true
  | _ :: _, [] => false
  | a :: as, b :: bs => a = b && subAt as bs

/-- Python's `p in l` substring test. -/
def hasSub (p : List Char) : List Char → Bool
  | [] => subAt p []
  | b :: bs => subAt p (b :: bs) || hasSub p bs

/-! ### `extract_ram` (src/etl_old.py:1386-1456, identical copy in
src/uploaded_notebook_code.py:1006-1076) -/

def ramCommon : List Nat := [2, 4, 8, 16, 32, 64, 128]

/-- The twelve high-priority RAM patterns, with a flag marking the one pattern
(`(\d+)[X*]\s*(\d+)\s*GB\s*(?:DDR|RAM)`) that captures two groups. -/
def ramPatterns : List (RE × Bool) :=
  [ (seqL [.grp 1 rdig1, rws0, rstr "GB", rws0, rdig1,
      ropt (.cls false [('K', 'K'), ('M', 'M')]), rstr "HZ", rws0,
      .alt (rstr "LPDDR") (rstr "DDR"), .cls false [('3', '5')]], false),
    (seqL [.grp 1 rdig1, rws0, rstr "GB", rws0, rdig1,
      ropt (.cls false [('K', 'K'), ('M', 'M')]), rstr "HZ"], false),
    (seqL [rstr "RAM", rws0, .grp 1 rdig1, rws0, rstr "GB"], false),
    (seqL [rstr "MEMORI", rws0, .grp 1 rdig1, rws0, rstr "GB"], false),
    (seqL [rstr "MEMORY", rws0, ropt (rstr "RAM"), rws0, .grp 1 rdig1, rws0, rstr "GB"], false),
    (seqL [.grp 1 rdig1, .cls false [('X', 'X'), ('*', '*')], rws0, .grp 2 rdig1,
      rws0, rstr "GB", rws0, .alt (rstr "DDR") (rstr "RAM")], true),
    (seqL [.grp 1 rdig1, rws0, rstr "GB", rws0, rstr "DDR",
      ropt (.cls false [('3', '5')]), ropt (.cls false [('A', 'Z')])], false),
    (seqL [rstr "DDR", ropt (.cls false [('3', '5')]), ropt (.cls false [('A', 'Z')]),
      rws0, .grp 1 rdig1, rws0, rstr "GB"], false),
    (seqL [.grp 1 rdig1, rws0, rstr "GB", rws0, rstr "RAM"], false),
    (seqL [.grp 1 rdig1, rws0, rstr "GB", rws0, rstr "MEMORY"], false),
    (seqL [.grp 1 rdig1, rws0, rstr "GB", rws0,
      altL [rstr "DDR", rch ',', .seq rws1 (.cls false [('A', 'Z')]),
        .seq rws1 (rstr "SSD"), .seq rws1 (rstr "HDD"), .seq rws1 (rstr "INTEL"),
        .seq rws1 (rstr "AMD"), .seq rws1 (rstr "RYZEN"), .seq rws1 (rstr "CORE")]], false),
    (seqL [rch '(', .starCls true true [(')', ')')], .grp 1 rdig1, rws0, rstr "GB",
      rws0, .starCls true true [(')', ')')], rch ')'], false) ]

/-- Acceptance test of the strict tier (source lines 1433-1437): a common
size, or any total in 1..256; otherwise move on to the next pattern. -/
def ramAccept (total : Nat) : Option Nat :=
  if ramCommon.contains total then some total
  else if 1 ≤ total && total ≤ 256 then some total
  else none

/-- First strict-tier pattern whose match yields an accepted total
(source lines 1421-1437). -/
def ramTryStrict (u : List Char) : List (RE × Bool) → Option Nat
  | [] => none
  | (r, two) :: rest =>
    match reSearch false r u with
    | none => ramTryStrict u rest
    | some m =>
      match ramAccept (if two then capNat u m 1 * capNat u m 2 else capNat u m 1) with
      | some t => some t
      | none => ramTryStrict u rest

/-- `\b(\d+)\s*GB\b` -/
def ramFallbackRE : RE := seqL [.wb, .grp 1 rdig1, rws0, rstr "GB", .wb]

/-- Storage-context keywords that veto the fallback RAM match (the lambda at
source lines 1442-1445), with the matched digits `g` interpolated. -/
def ramFallbackKeywords (g : List Char) : List (List Char) :=
  ["SSD".data, "HDD".data, "STORAGE".data,
   "SSD".data ++ g ++ "GB".data, "HDD".data ++ g ++ "GB".data,
   "SSD ".data ++ g ++ "GB".data, "HDD ".data ++ g ++ "GB".data]

/-- The fallback tier of `extract_ram` (source lines 1439-1454). -/
def ramFallbackResult (u : List Char) : String :=
  match reSearch false ramFallbackRE u with
  | some m =>
    if (ramFallbackKeywords (capText u m 1)).any (fun kw => hasSub kw u) then "Unknown RAM"
    else if ramCommon.contains (natOfDigits (capText u m 1)) then
      toString (natOfDigits (capText u m 1)) ++ "GB"
    else "Unknown RAM"
  | none => "Unknown RAM"

def extractRamU (u : List Char) : String :=
  match ramTryStrict u ramPatterns with
  | some total => toString total ++ "GB"
  | none => ramFallbackResult u

def extract_ram (ram_size : String) : String :=
  extractRamU ((upStr ram_size).data)

/-! ### `extract_storage` (src/etl_old.py:1458-1560, identical copy in
src/uploaded_notebook_code.py:1080-1182) -/

structure StSpec where
  capacity : Nat
  unit : String
  capacity_gb : Nat
  stype : String
  patIdx : Nat
deriving Repr, DecidableEq

/-- `(\d+)\s*(GB|TB)` — the capacity-and-unit core shared by the patterns. -/
def capUnit : RE :=
  seqL [.grp 1 rdig1, rws0, .grp 2 (.alt (rstr "GB") (rstr "TB"))]

/-- The twelve explicit storage patterns with their device types. -/
def storagePatterns : List (RE × String) :=
  [ (seqL [capUnit, rws0, rstr "SSHD"], "SSHD"),
    (seqL [rstr "SSHD", rws0, .grp 1 rdig1, rws0, .grp 2 (.alt (rstr "GB") (rstr "TB"))], "SSHD"),
    (seqL [altL [rstr "EMMC", .seq (ropt (rch 'E')) (rstr "MMC")], rws0,
      .grp 1 rdig1, rws0, .grp 2 (.alt (rstr "GB") (rstr "TB"))], "eMMC"),
    (seqL [rstr "SSD", rws0, .grp 1 rdig1, rws0, .grp 2 (.alt (rstr "GB") (rstr "TB"))], "SSD"),
    (seqL [rstr "HDD", rws0, .grp 1 rdig1, rws0, .grp 2 (.alt (rstr "GB") (rstr "TB"))], "HDD"),
    (seqL [rstr "NVM", ropt (rch 'E'), rws0, .grp 1 rdig1, rws0,
      .grp 2 (.alt (rstr "GB") (rstr "TB"))], "NVMe"),
    (seqL [rstr "STORAGE", rws0, .grp 1 rdig1, rws0, .grp 2 (.alt (rstr "GB") (rstr "TB"))], "Storage"),
    (seqL [capUnit, rws0, rstr "SSD"], "SSD"),
    (seqL [capUnit, rws0, rstr "HDD"], "HDD"),
    (seqL [capUnit, rws0, altL [rstr "EMMC", .seq (ropt (rch 'E')) (rstr "MMC")]], "eMMC"),
    (seqL [capUnit, rws0, rstr "NVM", ropt (rch 'E')], "NVMe"),
    (seqL [capUnit, rws0, rstr "SSHD"], "SSHD") ]

/-- The three stricter fallback storage patterns. -/
def storageFallbackPatterns : List (RE × String) :=
  [ (seqL [.wb, capUnit, rws0,
      .look (altL [rstr "STORAGE", rstr "SSD", rstr "HDD", rstr "EMMC",
        rstr "NVME", rstr "SSHD", .eos, rch ',', rch ')'])], "Storage"),
    (seqL [rch ',', rws0, capUnit, rws0, altL [rch ',', rch ')', .eos]], "Storage"),
    (seqL [rch '(', rws0, capUnit, rws0, .starCls false true [(')', ')')], rch ')'], "Storage") ]

def mkStSpec (u : List Char) (m : MRes) (idx : Nat) (ty : String) : StSpec :=
  let c := capNat u m 1
  let unit := String.mk (capText u m 2)
  { capacity := c, unit := unit,
    capacity_gb := if unit = "TB" then c * 1024 else c,
    stype := ty, patIdx := idx }

/-- The fallback skip: a small capacity in a RAM context with no storage
keyword anywhere is likely RAM, not storage (source lines 1538-1542). -/
def fallbackLooksLikeRam (u : List Char) (gb : Nat) : Bool :=
  gb ≤ 128 &&
  (["RAM", "MEMORY", "MEMORI", "DDR"].any (fun kw => hasSub kw.data u)) &&
  !(["STORAGE", "SSD", "HDD", "EMMC", "SSHD"].any (fun kw => hasSub kw.data u))

/-- Every match of every explicit storage pattern, in pattern order. -/
def storageExplicitSpecs (u : List Char) : List StSpec :=
  (storagePatterns.enum).flatMap
    (fun p => (reFindIter false p.2.1 u).map (fun m => mkStSpec u m p.1 p.2.2))

/-- Fallback-tier specs with the RAM-context skip applied. -/
def storageFallbackSpecs (u : List Char) : List StSpec :=
  (storageFallbackPatterns.enum).flatMap
    (fun p => ((reFindIter false p.2.1 u).map (fun m => mkStSpec u m (p.1 + 12) p.2.2)).filter
      (fun sp => !fallbackLooksLikeRam u sp.capacity_gb))

/-- All storage specs collected from the subject: every match of every
explicit pattern; the fallback patterns only when the explicit tier is empty. -/
def storageSpecs (u : List Char) : List StSpec :=
  if (storageExplicitSpecs u).isEmpty then storageFallbackSpecs u
  else storageExplicitSpecs u

/-- Python's `max(specs, key=capacity_gb)`: the first spec attaining the
largest converted capacity. -/
def pickMain : StSpec → List StSpec → StSpec
  | best, [] => best
  | best, x :: xs => pickMain (if best.capacity_gb < x.capacity_gb then x else best) xs

def extractStorageU (u : List Char) : String :=
  match storageSpecs u with
  | [] => "Unknown Storage"
  | x :: xs => toString (pickMain x xs).capacity ++ (pickMain x xs).unit

def extract_storage (storage_size : String) : String :=
  extractStorageU ((upStr storage_size).data)

/-! ### `extract_display` (src/etl_old.py:1562-1842)

Three ranked tiers of IGNORECASE patterns; every match of every pattern
becomes a scored candidate and the best-scoring candidate wins. -/

/-- `([1-3][0-9](?:[\.,]\d{1,2})?)` — the captured display size. -/
def szGrp : RE :=
  .grp 1 (seqL [.cls false [('1', '3')], rdig,
    ropt (seqL [.cls false [('.', '.'), (',', ',')], rdig, ropt rdig])])

/-- `["\'′´`]` -/
def quoteC : List (Char × Char) :=
  [('"', '"'), ('\'', '\''), (Char.ofNat 0x2032, Char.ofNat 0x2032),
   (Char.ofNat 0xB4, Char.ofNat 0xB4), (Char.ofNat 96, Char.ofNat 96)]

def rquote : RE := .cls false quoteC

/-- `(?:WQHD|QHD\+|QHD|2\.2K|2\.8K|3K|FHD|UHD|OLED)` -/
def res1 : RE :=
  altL [rstr "WQHD", rstr "QHD+", rstr "QHD", rstr "2.2K", rstr "2.8K",
    rstr "3K", rstr "FHD", rstr "UHD", rstr "OLED"]

/-- `(?:\d{3}Hz)` -/
def hz3 : RE := seqL [rdig, rdig, rdig, rstr "Hz"]

/-- `(?:TRANSCEND|OMEN|YOGA|THINKPAD|IDEAPAD|SURFACE|MACBOOK)` -/
def modelBrands : RE :=
  altL [rstr "TRANSCEND", rstr "OMEN", rstr "YOGA", rstr "THINKPAD",
    rstr "IDEAPAD", rstr "SURFACE", rstr "MACBOOK"]

/-- `LED\s*(size)` followed by the given tail. -/
def led0 (tail : List RE) : RE := seqL ([rstr "LED", rws0, szGrp] ++ tail)

/-- `([1-3][0-9])` without the decimal part (a few patterns use this). -/
def szGrpInt : RE := .grp 1 (seqL [.cls false [('1', '3')], rdig])

/-- Tier 1: the 4 quote patterns followed by the 14 appended `new_patterns`
(source lines 1573-1615). -/
def quotePatterns : List RE :=
  [ led0 [rquote, rws0, res1],
    seqL [szGrp, rquote, rws0, res1],
    led0 [rquote],
    seqL [szGrp, rquote],
    led0 [rws1, altL [rstr "2.5K", rstr "2.8K"], rws1, altL [rstr "WQXGA", rstr "IPS", rstr "OLED"]],
    led0 [rws1, altL [rstr "WQXGA", rstr "2.5K", rstr "2.8K"]],
    seqL [.cls false (wsC ++ [(',', ','), ('(', '(')]), szGrp, rws1, altL [rstr "2.5K", rstr "2.8K"]],
    led0 [rws1, hz3],
    led0 [rws1, rstr "2K", rws1, altL [rstr "IPS", rstr "OLED"], rws0, ropt (rstr "Touchscreen")],
    led0 [rws1, rstr "2K", rws1, rstr "Touchscreen"],
    led0 [rws1, rstr "2K"],
    led0 [rws0, rch ','],
    led0 [rws0, rch ')'],
    led0 [rws1, rstr "WQUXGA"],
    led0 [rws1, rstr "WUXGA"],
    led0 [rws1, rstr "4K", rws1, rstr "WQUXGA"],
    led0 [rws1, rstr "4K", rws1, rstr "WUXGA"],
    led0 [rws1, rstr "4K", rws1, rstr "OLED"] ]

/-- Tier 2: the 36 `display_patterns` (source lines 1637-1710). -/
def displayPatterns : List RE :=
  [ led0 [rws0, altL [rstr "WQHD", rstr "QHD+", rstr "QHD", rstr "2.2K", rstr "2.8K",
      rstr "3K", rstr "FHD", rstr "UHD", rstr "IPS", rstr "OLED", rstr "WQXGA", rstr "2.5K"]],
    seqL [rstr "LED", rws0, szGrpInt, rws0, altL [rstr "WQHD", rstr "QHD+", rstr "QHD",
      rstr "2.2K", rstr "2.8K", rstr "3K", rstr "FHD", rstr "UHD", rstr "IPS", rstr "OLED",
      rstr "WQXGA", rstr "2.5K"]],
    led0 [rws0, altL [rstr "HD", rstr "WUXGA", rstr "WQXGA", rstr "Touch"]],
    seqL [rstr "LED", rws0, szGrpInt, rws0, altL [rstr "HD", rstr "WUXGA", rstr "WQXGA", rstr "Touch"]],
    seqL [szGrp, ropt (rch '-'), rstr "inch", rws0,
      altL [rstr "Liquid", rstr "Retina", rstr "IPS", rstr "Touch", rstr "HD", rstr "FHD"]],
    seqL [szGrpInt, ropt (rch '-'), rstr "inch", rws0,
      altL [rstr "Liquid", rstr "Retina", rstr "IPS", rstr "Touch", rstr "HD", rstr "FHD"]],
    led0 [rws1, rstr "Inch"],
    led0 [rws1, altL [hz3, rstr "IPS", rstr "Touch", rstr "OLED"]],
    seqL [szGrp, rws1, rstr "inch", rws1, altL [rstr "HD", rstr "FHD"]],
    led0 [rws1, rstr "inch", rws1, altL [rstr "HD", rstr "FHD"]],
    led0 [rws1, rstr "2K", rws1, rstr "IPS"],
    led0 [rws1, rstr "IPS", rws1, rstr "Touchscreen"],
    led0 [rws1, rstr "Touchscreen"],
    led0 [rws0, rch ','],
    led0 [rws0, rch ')'],
    seqL [szGrp, rws1, rstr "HD", rquote],
    seqL [szGrp, rws1, rstr "HD", rws0, .cls false [(')', ')'), (',', ',')]],
    led0 [rws1, rstr "WQUXGA", rws1, rstr "OLED"],
    led0 [rws1, rstr "WQUXGA"],
    led0 [rws1, rstr "WUXGA", rws1, rstr "OLED"],
    led0 [rws1, rstr "WUXGA"],
    led0 [rws1, rstr "4K", rws1, rstr "WQUXGA", rws1, rstr "OLED"],
    led0 [rws1, rstr "4K", rws1, rstr "WQUXGA"],
    led0 [rws1, rstr "4K", rws1, rstr "OLED", rws1, rstr "Touchscreen"],
    led0 [rws1, rstr "4K", rws1, rstr "OLED"],
    led0 [rws1, rstr "4K", rws1, rstr "Touchscreen"],
    led0 [rws1, rstr "4K"],
    seqL [szGrp, rws1, altL [rstr "FHD", rstr "QHD+", rstr "QHD"], rws1, hz3],
    seqL [szGrp, rws1, altL [rstr "FHD", rstr "QHD+", rstr "QHD"]],
    seqL [szGrp, rws1, hz3],
    seqL [modelBrands, rws0, szGrp, rws1, rstr "OLED"],
    seqL [modelBrands, rws0, szGrp, rws1, altL [rstr "IPS", rstr "Touch", rstr "Touchscreen"]],
    seqL [szGrp, rstr "FHD"],
    seqL [szGrpInt, rstr "FHD"],
    seqL [szGrp, rstr "OLED"],
    seqL [szGrpInt, rstr "OLED"] ]

/-- Tier 3: the 34 `fallback_patterns` (source lines 1734-1799). -/
def displayFallbackPatterns : List RE :=
  [ seqL [szGrp, rch '-', rstr "inch"],
    seqL [rstr "LCD", rws0, szGrp],
    seqL [rstr "Display", rws0, szGrp],
    seqL [.cls false (wsC ++ [(',', ','), ('(', '(')]), szGrp, rws1,
      altL [rstr "WQXGA", rstr "2.5K", rstr "2.8K"]],
    seqL [rstr "Vga", .cls true [(',', ',')], .starCls false true [(',', ',')],
      rstr "LED", rws0, szGrp],
    led0 [rws1, altL [rstr "HD", rstr "FHD"]],
    led0 [rws1, rstr "IPS"],
    led0 [rws1, rstr "2K"],
    led0 [rws0, rch ','],
    led0 [rws0, rch ')'],
    led0 [rws0, rch '.'],
    seqL [szGrp, rws1, rstr "inch", rws1, altL [rstr "UHD", rstr "4K", rstr "FHD", rstr "HD"]],
    seqL [szGrp, rws1, rstr "inch", rws1, altL [rstr "IPS", rstr "OLED", rstr "Touch"]],
    seqL [szGrp, rws1, rstr "inch"],
    seqL [rch ',', rws0, szGrp, rws1, rstr "inch"],
    seqL [rch ',', rws0, szGrp, rws1, rstr "HD"],
    seqL [rch ')', rws0, szGrp, rws1, rstr "HD"],
    seqL [rstr "Graphics", .cls false (wsC ++ [(',', ',')]),
      .starCls false false (wsC ++ [(',', ',')]), szGrp, rws1, rstr "HD"],
    led0 [rws1, altL [rstr "WQUXGA", rstr "WUXGA"]],
    seqL [szGrp, rws1, altL [rstr "WQUXGA", rstr "WUXGA"]],
    led0 [rws1, rstr "4K", rws1, altL [rstr "WQUXGA", rstr "WUXGA", rstr "OLED", rstr "Touchscreen"]],
    led0 [rws1, altL [rstr "4K", rstr "OLED", rstr "Touchscreen"]],
    seqL [szGrp, rws1, altL [rstr "FHD", rstr "QHD+", rstr "QHD", rstr "UHD"], rws1, hz3],
    seqL [szGrp, rws1, altL [rstr "FHD", rstr "QHD+", rstr "QHD", rstr "UHD"]],
    seqL [szGrp, rws1, hz3],
    seqL [rch ',', rws0, szGrp, rws1, altL [rstr "FHD", rstr "QHD+", rstr "QHD"]],
    seqL [modelBrands, rws0, szGrp, rws1, altL [rstr "OLED", rstr "IPS", rstr "Touchscreen"]],
    seqL [modelBrands, rws0, szGrp, rws1, .cls false [('A', 'Z')]],
    seqL [szGrp, rstr "FHD"],
    seqL [szGrpInt, rstr "FHD"],
    seqL [szGrp, rstr "OLED"],
    seqL [szGrpInt, rstr "OLED"],
    seqL [szGrp, rstr "IPS"],
    seqL [szGrpInt, rstr "IPS"] ]

structure Cand where
  size : List Char
  cstart : Nat
  score : Int
deriving Repr, DecidableEq

/-- `float(size)` for the captured size text (digits with at most one dot),
as an exact numerator/denominator pair; on texts produced by the size group
(`[1-3][0-9](?:[\.,]\d{1,2})?` with `,` already mapped to `.`) this agrees
with Python's parse, and failure models the `except: continue`. -/
def parseSizeN (l : List Char) : Option (Nat × Nat) :=
  if l.isEmpty || l.any (fun c => !(c.isDigit || c = '.')) then none
  else
    match l.dropWhile (· ≠ '.') with
    | [] =>
      if (l.takeWhile (· ≠ '.')).isEmpty then none
      else some (natOfDigits (l.takeWhile (· ≠ '.')), 1)
    | _ :: fp =>
      if fp.any (· = '.') then none
      else if (l.takeWhile (· ≠ '.')).isEmpty || fp.isEmpty then none
      else some (natOfDigits (l.takeWhile (· ≠ '.')) * 10 ^ fp.length + natOfDigits fp,
        10 ^ fp.length)

/-- `display[a:b].upper()` -/
def sliceUp (d : List Char) (a b : Nat) : List Char :=
  ((d.drop a).take (b - a)).map Char.toUpper

def anyCtx (c : List Char) (kws : List String) : Bool :=
  kws.any (fun k => hasSub k.data c)

def tier1Ctx : List String :=
  ["WQHD", "QHD+", "QHD", "2.2K", "2.8K", "3K", "OLED", "120HZ", "144HZ", "240HZ",
   "WQXGA", "2.5K", "2K", "WQUXGA", "WUXGA", "4K", "TOUCHSCREEN"]

def tier2Ctx : List String :=
  ["WQHD", "QHD+", "QHD", "2.2K", "2.8K", "3K", "IPS", "OLED", "WQXGA", "2.5K",
   "2K", "TOUCHSCREEN", "HD", "WQUXGA", "WUXGA", "4K", "FHD", "144HZ", "240HZ"]

def tier3CtxA : List String :=
  ["WQXGA", "2.5K", "2.8K", "IPS", "OLED", "HD", "FHD", "2K", "TOUCHSCREEN", "UHD",
   "4K", "WQUXGA", "WUXGA", "QHD+", "QHD", "144HZ", "240HZ"]

def tier3CtxB : List String :=
  ["UHD", "4K", "FHD", "HD", "WQUXGA", "WUXGA", "OLED", "TOUCHSCREEN", "QHD+", "QHD"]

def modelNames : List String :=
  ["TRANSCEND", "OMEN", "YOGA", "THINKPAD", "IDEAPAD", "SURFACE", "MACBOOK"]

def sizeOfMatch (d : List Char) (m : MRes) : List Char :=
  (capText d m 1).map (fun c => if c = ',' then '.' else c)

def quoteCands (d : List Char) : List Cand :=
  (quotePatterns.enum).flatMap (fun p =>
    (reFindIter true p.2 d).filterMap (fun m =>
      let size := sizeOfMatch d m
      match parseSizeN size with
      | none => none
      | some qn =>
        if 10 * qn.2 ≤ qn.1 && qn.1 ≤ 39 * qn.2 then
          let ctx := sliceUp d m.mstart (m.mend + 20)
          some ⟨size, m.mstart,
            (100 : Int) - 5 * (p.1 : Int) + (if anyCtx ctx tier1Ctx then 10 else 0) +
            (if size.contains '.' then 3 else 0)⟩
        else none))

def displayCands (d : List Char) : List Cand :=
  (displayPatterns.enum).flatMap (fun p =>
    (reFindIter true p.2 d).filterMap (fun m =>
      let size := sizeOfMatch d m
      match parseSizeN size with
      | none => none
      | some qn =>
        if 10 * qn.2 ≤ qn.1 && qn.1 ≤ 39 * qn.2 then
          let ctx := sliceUp d m.mstart (m.mend + 20)
          let modelCtx := sliceUp d (m.mstart - 20) m.mstart
          some ⟨size, m.mstart,
            (80 : Int) - 5 * (p.1 : Int) + (if anyCtx ctx tier2Ctx then 8 else 0) +
            (if size.contains '.' then 3 else 0) +
            (if anyCtx modelCtx modelNames then 10 else 0)⟩
        else none))

def fallbackCands (d : List Char) : List Cand :=
  displayFallbackPatterns.flatMap (fun r =>
    (reFindIter true r d).filterMap (fun m =>
      let size := sizeOfMatch d m
      match parseSizeN size with
      | none => none
      | some qn =>
        if 10 * qn.2 ≤ qn.1 && qn.1 ≤ 39 * qn.2 then
          let ctx := sliceUp d m.mstart (m.mend + 20)
          let modelCtx := sliceUp d (m.mstart - 20) m.mstart
          let gfxCtx := sliceUp d (m.mstart - 30) m.mstart
          some ⟨size, m.mstart,
            (50 : Int) + (if size.contains '.' then 3 else 0) +
            (if anyCtx ctx tier3CtxA then 5 else 0) +
            (if anyCtx ctx tier3CtxB then 3 else 0) +
            (if anyCtx ctx ["144HZ", "240HZ", "120HZ"] then 4 else 0) +
            (if anyCtx modelCtx modelNames then 8 else 0) +
            (if hasSub "GRAPHICS".data gfxCtx then 5 else 0)⟩
        else none))

/-- `max(candidates, key=lambda x: (x[2], '.' in x[0], -x[1]))` — strict key
comparison so the first best candidate wins. -/
def candBetter (x best : Cand) : Bool :=
  best.score < x.score ||
  (best.score == x.score &&
    ((x.size.contains '.' && !best.size.contains '.') ||
     (x.size.contains '.' == best.size.contains '.' && x.cstart < best.cstart)))

def pickBest : Cand → List Cand → Cand
  | best, [] => best
  | best, x :: xs => pickBest (if candBetter x best then x else best) xs

/-- Python `str.replace` (all non-overlapping occurrences, left to right) for
a non-empty pattern, over character lists (fueled structural recursion). -/
def pyReplaceF (pat rep : List Char) : Nat → List Char → List Char
  | 0, l => l
  | _, [] => []
  | f + 1, c :: cs =>
    if pat ≠ [] && subAt pat (c :: cs) then
      rep ++ pyReplaceF pat rep f (cs.drop (pat.length - 1))
    else c :: pyReplaceF pat rep f cs

def pyReplace (pat rep : List Char) (l : List Char) : List Char :=
  pyReplaceF pat rep l.length l

/-- Special quote-mark normalization at the start of `extract_display`
(the chain of `.replace` calls at source line 1568). -/
def dispNorm (s : String) : List Char :=
  pyReplace [Char.ofNat 96] ['\'']
    (pyReplace [Char.ofNat 0xB4] ['\'']
      (pyReplace [Char.ofNat 0x93] ['"']
        (pyReplace [Char.ofNat 0x94] ['"']
          (pyReplace [Char.ofNat 0xFF0E] ['.']
            (pyReplace [Char.ofNat 0x2032] ['\'']
              (pyReplace [Char.ofNat 0x2033] ['"'] s.data))))))

def dispCands (d : List Char) : List Cand :=
  quoteCands d ++ displayCands d ++ fallbackCands d

/-- `size[:-2] if size.endswith('.0') else size`. -/
def stripDot0 (sz : List Char) : List Char :=
  if sz.drop (sz.length - 2) = ['.', '0'] && 2 ≤ sz.length then sz.take (sz.length - 2)
  else sz

/-- Final candidate selection and `.0`-stripping formatting. -/
def dispOfCands : List Cand → String
  | [] => "Unknown"
  | c :: cs => String.mk (stripDot0 (pickBest c cs).size) ++ "\""

def extract_display (display_size : String) : String :=
  dispOfCands (dispCands (dispNorm display_size))

/-! ### `extract_brand` and `get_brands` (src/etl_old.py:46-74) -/

def get_brands : List String :=
  ["Acer", "Apple", "Asus", "Dell", "HP", "Lenovo", "MSI", "Samsung", "Toshiba",
   "Microsoft", "Sony", "ADVAN", "Zyrex", "Axioo", "Advan", "Xiaomi", "Avita", "Tecno",
   "Huawei", "Infinix", "Jumper", "SPC"]

/-- `\bLegion\s*\d` -/
def legionRE : RE := seqL [.wb, rstr "Legion", rws0, rdig]

/-- `\b<brand>\b` (brand names are alphanumeric, so `re.escape` is identity). -/
def brandRE (b : String) : RE := seqL [.wb, rstr b, .wb]

def brandOf (t : List Char) (brand_list : List String) : String :=
  if (reSearch true legionRE t).isSome then "Lenovo"
  else
    match brand_list.find? (fun b => (reSearch true (brandRE b) t).isSome) with
    | some b => b
    | none => "Other"

def extract_brand (product_name : String) (brand_list : List String) : String :=
  brandOf (pyStrip product_name).data brand_list

/-! ### A stable insertion sort (models the `ORDER BY` / `sort_values` steps) -/

def insertLe {α : Type} (le : α → α → Bool) (x : α) : List α → List α
  | [] => [x]
  | y :: ys => if le x y then x :: y :: ys else y :: insertLe le x ys

def insSort {α : Type} (le : α → α → Bool) : List α → List α
  | [] => []
  | x :: xs => insertLe le x (insSort le xs)

/-! ### Shared pattern helpers for the remaining extractors -/

/-- `re.search(r, l) is not None` (no flags). -/
def rsrch (r : RE) (l : List Char) : Bool := (reSearch false r l).isSome

/-- `re.search(r, l, re.IGNORECASE) is not None`. -/
def rsrchI (r : RE) (l : List Char) : Bool := (reSearch true r l).isSome

/-- `\w` as a class (ASCII, as the engine's word-boundary test). -/
def wordC : List (Char × Char) := [('0', '9'), ('A', 'Z'), ('_', '_'), ('a', 'z')]

/-- `.` (any character but newline). -/
def rdot : RE := .cls true [('\n', '\n')]

/-- `.*` -/
def rdotStar : RE := .starCls false true [('\n', '\n')]

/-- `c+` over a class. -/
def rplusC (rs : List (Char × Char)) : RE := .seq (.cls false rs) (.starCls false false rs)

/-- `c{lo}` then `c?` `hi - lo` times, i.e. `c{lo,hi}` over a class. -/
def repC (rs : List (Char × Char)) (lo hi : Nat) : RE :=
  seqL (List.replicate lo (.cls false rs) ++ List.replicate (hi - lo) (ropt (.cls false rs)))

/-- `c{lo,}` over a class. -/
def repLoC (rs : List (Char × Char)) (lo : Nat) : RE :=
  seqL (List.replicate lo (.cls false rs) ++ [.starCls false false rs])

/-- A class of single characters, e.g. `[aeq]`. -/
def chcls (s : String) : RE := .cls false (s.data.map (fun c => (c, c)))

/-- A literal from a character list (`re.escape`d text). -/
def rstrL (l : List Char) : RE := (l.map rch).foldr .seq .eps

/-- `m.group(0)`: the whole matched slice of the subject. -/
def grp0 (s : List Char) (m : MRes) : List Char :=
  (s.drop m.mstart).take (m.mend - m.mstart)

/-- `int(re.search(r'\d+', l).group())`: the first maximal digit run. -/
def firstNatIn (l : List Char) : Nat :=
  natOfDigits ((l.dropWhile (fun c => !c.isDigit)).takeWhile (fun c => c.isDigit))

/-- `l.find(p)`: position of the first occurrence of `p`, if any. -/
def subPos (p : List Char) : List Char → Option Nat
  | [] => if subAt p [] then some 0 else none
  | b :: bs => if subAt p (b :: bs) then some 0 else (subPos p bs).map (· + 1)

/-- Conservative syntactic test that every match of a pattern consumes at
least one subject character (used to show `group(0)` slices are non-empty). -/
def consumes : RE → Bool
  | .eps => false
  | .cls _ _ => true
  | .seq a b => consumes a || consumes b
  | .alt a b => consumes a && consumes b
  | .starCls _ _ _ => false
  | .grp _ r => consumes r
  | .look _ => false
  | .wb => false
  | .eos => false

/-! ### `extract_series` (src/etl_old.py:76-561) -/

def seriesBrands : List String :=
  ["advan", "acer", "asus", "apple", "avita", "axioo", "dell", "hp",
   "huawei", "infinix", "lenovo", "msi", "microsoft", "samsung",
   "spc", "tecno", "toshiba", "xiaomi", "zyrex", "jumper"]

/-- The brand whose first occurrence in the name is earliest; the strict `<`
update keeps the earlier list entry on ties. -/
def detectBrandBase (nl : List Char) : Option String :=
  (seriesBrands.foldl (fun acc b =>
    match subPos b.data nl with
    | none => acc
    | some pos =>
      match acc with
      | none => some (b, pos)
      | some pr => if pos < pr.2 then some (b, pos) else acc) none).map (·.1)

def lenovoKeywords : List String :=
  ["legion", "thinkpad", "thinkbook", "yoga", "ideapad", "flex", "v series", "v14",
   "v15", "loq"]

/-- Brand detection with the exclusive-Lenovo-keyword fallback. -/
def detectBrand (nl : List Char) : Option String :=
  match detectBrandBase nl with
  | some b => some b
  | none =>
    match lenovoKeywords.find? (fun kw => hasSub kw.data nl) with
    | some _ =>
      if seriesBrands.any (fun b => b ≠ "lenovo" && hasSub b.data nl) then none
      else some "lenovo"
    | none => none

/-- The ASUS branch; the two `advantage edition` sub-blocks fall through when
their inner conditions miss, written here as flattened `&&` conditions. -/
def asusSeries (nl : List Char) : String :=
  if hasSub "chromebook".data nl then "Chromebook"
  else if hasSub "zenbook".data nl then "Zenbook"
  else if hasSub "asus gaming".data nl then "Asus Gaming"
  else if hasSub "vivobook s".data nl
      || rsrch (altL [seqL [.wb, rch 's', rdig, rdig, rdig],
          seqL [rstr "um", rdig, rdig, rdig]]) nl
      || rsrch (altL [.seq (rstr "k413f") (chcls "aeq"), rstr "k413eq"]) nl then
    "Vivobook S"
  else if hasSub "advantage edition".data nl &&
      (hasSub "tuf".data nl || rsrch (rstr "fa617") nl) then "TUF Gaming"
  else if hasSub "advantage edition".data nl &&
      (hasSub "rog".data nl || rsrch (rstr "g513qy") nl) then "ROG Strix"
  else if rsrch (seqL [.wb, rstr "rog", .wb]) nl || hasSub "zephyrus".data nl
      || rsrch (altL [seqL [.wb, rstr "g5", rdig, rdig], seqL [rstr "g7", rdig, rdig],
          seqL [rstr "gx", rdig, rdig, rdig], seqL [rstr "gz", rdig, rdig, rdig]]) nl then
    "ROG Strix"
  else if rsrch (seqL [.wb, rstr "tuf", .wb]) nl || rsrch (seqL [.wb, rstr "tu", .wb]) nl
      || rsrch (altL [seqL [rstr "fx", rdig, rdig, rdig], seqL [rstr "fa", rdig, rdig, rdig],
          seqL [rstr "fx6", rdig, rdig], seqL [rstr "fa6", rdig, rdig]]) nl then
    "TUF Gaming"
  else if hasSub "creator".data nl || hasSub "proart".data nl || hasSub "pz".data nl then
    "ProArt Studiobook"
  else if rsrch (altL [seqL [.wb, rstr "p1", rdig, rdig, rdig], rstr "expertbook p"]) nl then
    "ExpertBook P"
  else if rsrch (altL [seqL [.wb, rstr "bu", rdig, rdig, rdig], rstr "b9",
      rstr "expertbook b"]) nl then "ExpertBook B"
  else if rsrch (altL [rstr "asus pro", seqL [rstr "pro y", rdig, rdig, rdig],
      seqL [rstr "pro p", rdig, rdig, rdig]]) nl then "Pro Series"
  else if hasSub "vivobook pro".data nl
      || rsrch (seqL [.wb, rch 'v', rdig, rdig, rdig, rdig]) nl then "Vivobook Pro"
  else if hasSub "vivobook go".data nl
      || rsrch (altL [seqL [.wb, rch 'l', repC digC 3 4], seqL [rch 'e', repC digC 3 4]]) nl then
    "Vivobook Go"
  else if hasSub "vivobook flip".data nl
      || rsrch (seqL [.wb, rstr "tp", rdig, rdig, rdig]) nl then "Vivobook Flip"
  else if hasSub "vivobook".data nl then "Vivobook"
  else if rsrch (seqL [.wb, rch 'a', repC digC 3 4]) nl then "Vivobook (A-Series)"
  else if rsrch (seqL [.wb, rch 'x', repC digC 3 4]) nl then "X Series"
  else if rsrch (seqL [.wb, rch 'm', repC digC 3 4]) nl then "Vivobook (M-Series)"
  else if rsrch (seqL [.wb, rch 'e', repC digC 3 4]) nl then "Vivobook (E-Series)"
  else if rsrch (seqL [.wb, rstr "br", rdig, rdig, rdig]) nl then "BR Series"
  else if hasSub "advantage edition".data nl &&
      (rsrch (rstr "fa617") nl || hasSub "a16".data nl) then "TUF Gaming"
  else if hasSub "advantage edition".data nl &&
      (rsrch (rstr "g513qy") nl || hasSub "g15".data nl) then "ROG Strix"
  else if rsrch (rstr "fa617") nl then "TUF Gaming"
  else if rsrch (rstr "g513qy") nl then "ROG Strix"
  else if hasSub "expertbook".data nl then "ExpertBook"
  else if hasSub "proart".data nl then "ProArt Studiobook"
  else if rsrch (altL [rstr "advantage", rstr "fa617ns", rstr "r7x2j6s", rstr "r7x2j6t",
      rstr "r7x2c6t"]) nl then "TUF Gaming"
  else if rsrch (altL [rstr "g513qy", rstr "advantage edition"]) nl then "ROG Strix"
  else "Unknown"

def acerSeries (nl : List Char) : String :=
  if hasSub "aspire".data nl then "Aspire"
  else if hasSub "swift".data nl then "Swift"
  else if hasSub "nitro".data nl then "Nitro"
  else if hasSub "predator".data nl then "Predator"
  else if hasSub "spin".data nl then "Spin"
  else if hasSub "concept".data nl then "Concept"
  else if hasSub "switch".data nl then "Switch"
  else if hasSub "travelmate".data nl then "TravelMate"
  else if hasSub "one".data nl then "One"
  else if hasSub "mate".data nl then "Mate"
  else if hasSub "chromebook".data nl then "Chromebook"
  else "Unknown"

/-- The Lenovo branch's `name_clean`: punctuation classes to spaces, then
non-`[a-z0-9\s-]` to spaces, whitespace runs to one space, strip. -/
def lenovoClean (product_name : String) : List Char :=
  let nl := (lowStr product_name).data
  let s1 := nl.map (fun c => if "_/\\()[].,:\"".data.contains c then ' ' else c)
  let s2 := s1.map (fun c =>
    if (('a' ≤ c && c ≤ 'z') || c.isDigit || isPySpace c || c = '-') then c else ' ')
  pyStripL (collapseWs s2)

def lenovoPatterns : List (RE × String) :=
  [ (seqL [.wb, rstr "yoga", rws1, rstr "pro", .wb], "Yoga Pro"),
    (seqL [.wb, rstr "yoga", .wb], "Yoga"),
    (seqL [.wb, rstr "legion", rws1, rstr "pro", .wb], "Legion Pro"),
    (seqL [.wb, rstr "legion", rws1, rstr "slim", .wb], "Legion Slim"),
    (seqL [.wb, rstr "legion", .wb], "Legion"),
    (seqL [.wb, rstr "thinkbook", .wb], "ThinkBook"),
    (seqL [.wb, rstr "thinkpad", .wb], "ThinkPad"),
    (seqL [.wb, rstr "ideapad", rws1, rstr "pro", .wb], "IdeaPad Pro"),
    (seqL [.wb, rstr "ideapad", rws1, rch '5', rws1, rstr "2in1", .wb], "IdeaPad Slim"),
    (seqL [.wb, rstr "ideapad", rws1, rstr "d330", .wb], "IdeaPad"),
    (seqL [.wb, rstr "ideapad", rws1, rstr "slim", rws1, rch '5', .wb], "IdeaPad Slim"),
    (seqL [.wb, rstr "ideapad", rws1, rstr "slim", rws1, rch '3', .wb], "IdeaPad Slim"),
    (seqL [.wb, rstr "ideapad", rws1, rstr "slim", rws1, rch '7', .wb], "IdeaPad Slim"),
    (seqL [.wb, rstr "ideapad", rws1, rstr "slim", rws1, rch '1', .wb], "IdeaPad Slim"),
    (seqL [.wb, rstr "ideapad", rws1, rstr "slim", rws1, rdig], "IdeaPad Slim"),
    (seqL [.wb, rstr "ideapad", rws1, rstr "slim", .wb], "IdeaPad Slim"),
    (seqL [.wb, rstr "ideapad", rws1, rstr "slim", rws1, rdig1, rch 'i', .wb],
      "IdeaPad Slim"),
    (seqL [.wb, rstr "slim", rws1, rch '1', .wb], "IdeaPad Slim"),
    (seqL [.wb, rstr "slim", rws1, rch '3', .wb], "IdeaPad Slim"),
    (seqL [.wb, rstr "slim", rws1, rch '5', .wb], "IdeaPad Slim"),
    (seqL [.wb, rstr "slim", rws1, rch '7', .wb], "IdeaPad Slim"),
    (seqL [.wb, rstr "slim", rws1, rdig1, rch 'i', .wb], "IdeaPad Slim"),
    (seqL [.wb, rstr "ip", rws1, rdig1, rch 'i', .wb], "IdeaPad"),
    (seqL [.wb, rstr "flex", rws1, rch '5', .wb], "IdeaPad Flex"),
    (seqL [.wb, rstr "flex", rws1, rch '7', .wb], "IdeaPad Flex"),
    (seqL [.wb, rstr "ideapad", rws1, rch '1', .wb], "IdeaPad"),
    (seqL [.wb, rstr "ideapad", rws1, rch '3', .wb], "IdeaPad"),
    (seqL [.wb, rstr "ideapad", rws1, rstr "flex", .wb], "IdeaPad Flex"),
    (seqL [.wb, rstr "ideapad", .wb], "IdeaPad"),
    (seqL [.wb, rstr "loq", .wb], "LOQ"),
    (seqL [.wb, rstr "chromebook", .wb], "Chromebook"),
    (seqL [.wb, rstr "v14", rws1, rstr "g2", .wb], "V Series"),
    (seqL [.wb, rstr "v15", rws1, rstr "g2", .wb], "V Series"),
    (seqL [.wb, rstr "v16", rws1, rstr "g2", .wb], "V Series"),
    (seqL [.wb, rch 'v', rdig, rdig, .wb], "V Series"),
    (seqL [.wb, repLoC digC 2, repLoC [('a', 'z')] 2, rdig1, .wb], "IdeaPad") ]

def lenovoSeries (product_name : String) : String :=
  match lenovoPatterns.find? (fun p => rsrchI p.1 (lenovoClean product_name)) with
  | some p => p.2
  | none => "Unknown"

def hpSeries (nl : List Char) : String :=
  if hasSub "chromebook".data nl then "Chromebook"
  else if hasSub "elite dragonfly".data nl then "Elite Series"
  else if hasSub "elite folio".data nl then "Elite Series"
  else if hasSub "dragonfly folio".data nl then "Elite Series"
  else if hasSub "elitebook".data nl then "EliteBook"
  else if hasSub "probook".data nl then "ProBook"
  else if hasSub "zbook".data nl then "ZBook"
  else if hasSub "omen".data nl then "OMEN"
  else if hasSub "victus".data nl then "Victus"
  else if hasSub "pav gaming".data nl
      || rsrch (seqL [rstr "pav", rdotStar, rstr "gaming"]) nl then "Pavilion Gaming"
  else if hasSub "spectre".data nl then "Spectre"
  else if hasSub "envy".data nl then "Envy"
  else if hasSub "pavilion".data nl then "Pavilion"
  else if rsrch (seqL [.wb, altL [rstr "240r", rstr "250", rstr "255"], rws1, rch 'g',
      rdig]) nl then "HP 200 Series"
  else if hasSub "240r g9".data nl then "HP 200 Series"
  else if hasSub "250 g8".data nl then "HP 200 Series"
  else if hasSub "255 g8".data nl then "HP 200 Series"
  else if rsrch (seqL [rstr "hp", rws1, rstr "15s"]) nl then "HP Laptop"
  else if rsrch (seqL [rstr "hp", rws1, rstr "15", rws1, altL [rstr "core", rstr "fd1"]]) nl
    then "HP Laptop"
  else if rsrch (seqL [rstr "hp", rws1, rstr "14", rch '-', .cls false wordC,
      .cls false wordC, rdig1]) nl then "HP Laptop"
  else if rsrch (seqL [rstr "hp", rws1, rstr "14", rch '-',
      altL [rstr "ep", rstr "em", rstr "cf", rstr "fq"]]) nl then "HP Laptop"
  else if hasSub "14-ep".data nl then "HP Laptop"
  else if hasSub "14-em".data nl then "HP Laptop"
  else if hasSub "14-cf".data nl then "HP Laptop"
  else if hasSub "14-fq".data nl then "HP Laptop"
  else if rsrch (altL [seqL [rstr "hp", ropt (.cls false wsC), rstr "14s"],
      seqL [rstr "240 g", rdig], seqL [rstr "245 g", rdig]]) nl then "Essential Series"
  else if rsrch (seqL [rstr "hp", rws1, rstr "14", rws1, .cls false [('a', 'z')]]) nl then
    "Essential Series"
  else if hasSub "omnibook".data nl then "OmniBook"
  else "Unknown"

def msiSeries (nl : List Char) : String :=
  if hasSub "katana".data nl then "Katana"
  else if hasSub "cyborg".data nl then "Cyborg"
  else if hasSub "bravo".data nl then "Bravo"
  else if hasSub "thin".data nl then "Thin"
  else if hasSub "pulse".data nl then "Pulse"
  else if hasSub "crosshair".data nl then "Crosshair"
  else if hasSub "sword".data nl then "Sword"
  else if hasSub "leopard".data nl then "Leopard"
  else if hasSub "raider".data nl then "Raider"
  else if hasSub "vector".data nl then "Vector"
  else if hasSub "stealth".data nl then "Stealth"
  else if hasSub "titan".data nl then "Titan"
  else if hasSub "creator".data nl then "Creator"
  else if hasSub "workstation".data nl then "Workstation"
  else if hasSub "commercial".data nl then "Commercial"
  else if hasSub "modern".data nl then "Modern"
  else if hasSub "prestige".data nl then "Prestige"
  else if hasSub "summit".data nl then "Summit"
  else if rsrch (seqL [.wb, rstr "gf", rdig, rdig]) nl then "Katana"
  else if rsrch (seqL [.wb, rstr "gl", rdig, rdig]) nl then "Pulse"
  else if rsrch (seqL [.wb, rstr "gp", rdig, rdig]) nl then "Leopard"
  else if rsrch (seqL [.wb, rstr "ge", rdig, rdig]) nl then "Raider"
  else if rsrch (seqL [.wb, rstr "gs", rdig, rdig]) nl then "Stealth"
  else if rsrch (seqL [.wb, rstr "gt", rdig, rdig]) nl then "Titan"
  else if rsrch (seqL [rstr "ws", rdig, rdig]) nl then "Workstation"
  else if rsrch (seqL [rstr "wf", rdig, rdig]) nl then "Workstation"
  else if rsrch (altL [rstr "b13v", rstr "b14v", rstr "a13v"]) nl then "Pulse"
  else if rsrch (altL [rstr "b12u", rstr "a12u"]) nl then "Crosshair"
  else if rsrch (altL [rstr "d7w", rstr "d2x"]) nl then "Crosshair"
  else if rsrch (rstr "c1v") nl then "Pulse"
  else "Unknown"

def axiooSeries (nl : List Char) : String :=
  if hasSub "mybook".data nl then "MyBook"
  else if hasSub "hype".data nl then "Hype"
  else if hasSub "pongo".data nl then "Pongo"
  else if hasSub "slimbook".data nl then "SlimBook"
  else if hasSub "neon".data nl then "Neon"
  else "Unknown"

def advanSeries (nl : List Char) : String :=
  if hasSub "ai gen".data nl then "AI Gen"
  else if hasSub "pixwar".data nl then "Pixwar"
  else if hasSub "360".data nl then "360 Stylus"
  else if hasSub "2in1 evo-x".data nl || hasSub "evo-x".data nl then "2in1 Evo-X"
  else if hasSub "soulmate".data nl then "Soulmate"
  else if hasSub "chromebook".data nl then "Chromebook"
  else if hasSub "workmate".data nl then "Workmate"
  else if hasSub "tbook".data nl then "Tbook"
  else if hasSub "workpro".data nl then "Workpro"
  else if hasSub "workplus".data nl then "Workplus"
  else "Unknown"

def avitaSeries (nl : List Char) : String :=
  if hasSub "magus".data nl then "Magus"
  else if hasSub "essential".data nl then "Essential"
  else if hasSub "liber".data nl then "Liber"
  else if hasSub "admiror".data nl then "Admiror"
  else "Unknown"

def zyrexSeries (nl : List Char) : String :=
  if hasSub "confidante".data nl then "Confidante"
  else if hasSub "bunaken".data nl then "Bunaken"
  else if hasSub "sky".data nl then "Sky"
  else if hasSub "kintamani".data nl then "Kintamani"
  else if hasSub "lifebook".data nl then "Lifebook"
  else if hasSub "ultra".data nl then "Ultra"
  else if rsrch (seqL [rch 'd', ropt rdot, rstr "tech"]) nl then "D-Tech"
  else if hasSub "blaze".data nl then "Blaze"
  else "Unknown"

def dellSeries (nl : List Char) : String :=
  if hasSub "alienware".data nl then "Alienware"
  else if hasSub "g15".data nl || hasSub "g series".data nl then "G Series"
  else if hasSub "g16".data nl then "G Series"
  else if hasSub "inspiron".data nl then "Inspiron"
  else if hasSub "vostro".data nl then "Vostro"
  else if hasSub "xps".data nl then "XPS"
  else if hasSub "precision".data nl then "Precision"
  else if hasSub "latitude".data nl then "Latitude"
  else if hasSub "chromebook".data nl then "Chromebook"
  else if rsrch (seqL [rstr "dell", rws1, rplusC [('a', 'z')], rws1, rdig]) nl then
    "Inspiron"
  else "Unknown"

def appleSeries (nl : List Char) : String :=
  if hasSub "macbook air".data nl then "Macbook Air"
  else if hasSub "macbook pro".data nl then "Macbook Pro"
  else if hasSub "macbook".data nl then "Macbook"
  else if rsrch (seqL [rstr "mgn", repC digC 2 3]) nl then "Macbook Air"
  else "Unknown"

def extract_series (product_name : String) : String :=
  if pyStrip product_name = "" then "Unknown"
  else
    let nl := (lowStr product_name).data
    match detectBrand nl with
    | none => "Unknown"
    | some b =>
      if b = "asus" then asusSeries nl
      else if b = "acer" then acerSeries nl
      else if b = "lenovo" then lenovoSeries product_name
      else if b = "hp" then hpSeries nl
      else if b = "msi" then msiSeries nl
      else if b = "axioo" then axiooSeries nl
      else if b = "advan" then advanSeries nl
      else if b = "avita" then avitaSeries nl
      else if b = "huawei" then
        if hasSub "matebook".data nl then "MateBook" else "Unknown"
      else if b = "infinix" then
        if hasSub "xbook".data nl then "Xbook"
        else if hasSub "inbook".data nl then "INbook"
        else if hasSub "gtbook".data nl then "GTbook"
        else "Unknown"
      else if b = "microsoft" then
        if hasSub "surface".data nl then "Surface" else "Unknown"
      else if b = "spc" then
        if hasSub "style".data nl then "Style"
        else if hasSub "life".data nl then "Life"
        else "Unknown"
      else if b = "tecno" then
        if hasSub "megabook".data nl then "Megabook" else "Unknown"
      else if b = "toshiba" then
        if hasSub "dynabook".data nl then "Dynabook"
        else if hasSub "satellite".data nl then "Satellite"
        else if hasSub "tecra".data nl then "Tecra"
        else "Unknown"
      else if b = "xiaomi" then
        if hasSub "redmibook".data nl then "RedmiBook" else "Unknown"
      else if b = "zyrex" then zyrexSeries nl
      else if b = "jumper" then
        if hasSub "ezbook".data nl then "Ezbook" else "Unknown"
      else if b = "samsung" then
        if hasSub "galaxy book".data nl then "Galaxy Book"
        else if hasSub "chromebook".data nl then "Chromebook"
        else "Unknown"
      else if b = "dell" then dellSeries nl
      else if b = "apple" then appleSeries nl
      else "Unknown"

/-! ### `extract_processor` (src/etl_old.py:564-844) -/

/-- `[A-Z]` -/
def ucC : List (Char × Char) := [('A', 'Z')]

/-- A priority-tagged pattern entry's formatter: the subject (name_upper) and
the match. `none` models a formatter returning None. -/
abbrev PFmt := List Char → MRes → Option String

/-- The `processor_patterns` table; the loop runs in list order (the priority
field is carried but never used for sorting in the source). -/
def processor_patterns : List (RE × Nat × PFmt) :=
  [ (seqL [rstr "SNAPDRAGON", rws1, rch 'X', rws1, rstr "ELITE", rws1, ropt (rch 'X'),
      rch '1', ropt (rch 'E'), ropt (rch '-'), rdig, rdig, ropt (rch '-'), repC digC 2 3],
      1, fun _ _ => some "Snapdragon X Elite"),
    (seqL [rstr "SNAPDRAGON", rws1, rch 'X', rws1, rstr "ELITE"], 1,
      fun _ _ => some "Snapdragon X Elite"),
    (seqL [rstr "SNAPDRAGON", rws1, rch 'X', rws1, rstr "PLUS", rws1, ropt (rch 'X'),
      rch '1', ropt (rch 'P'), ropt (rch '-'), rdig, rdig, ropt (rch '-'), repC digC 2 3],
      1, fun _ _ => some "Snapdragon X Plus"),
    (seqL [rstr "SNAPDRAGON", rws1, rch 'X', rws1, rstr "PLUS"], 1,
      fun _ _ => some "Snapdragon X Plus"),
    (seqL [rstr "SNAPDRAGON", rws1, rch 'X', rws1, rstr "X1", chcls "EP"], 1,
      fun _ _ => some "Snapdragon X Series"),
    (seqL [rstr "SNAPDRAGON", rws1, rch 'X'], 1, fun _ _ => some "Snapdragon X"),
    (seqL [rstr "SNAPDRAGON", rws1, .grp 1 (seqL [rdig, rdig, rdig, ropt (.cls false ucC)])],
      1, fun d m => some ("Snapdragon " ++ String.mk (capText d m 1))),
    (seqL [rstr "SNAPDRAGON", rws1, .grp 1 (seqL [rdig, rdig, rdig]), rws1, rstr "CORE"],
      1, fun d m => some ("Snapdragon " ++ String.mk (capText d m 1))),
    (seqL [rstr "MICROSOFT", rws1, rstr "SQ", chcls "12"], 1,
      fun d m => some ("Microsoft " ++
        String.mk (pyReplace "MICROSOFT ".data "".data (grp0 d m)))),
    (seqL [.wb, rstr "SQ", chcls "12", .wb], 1,
      fun d m => some ("Microsoft " ++ String.mk (grp0 d m))),
    (seqL [ropt (.grp 1 (seqL [rstr "AMD", rws1])), rstr "RYZEN", rws1, rstr "AI", rws1,
      rstr "MAX", rws0, ropt (rch '+'), rws0, .grp 2 (seqL [rdig, rdig, rdig])], 1,
      fun d m => some ("AMD Ryzen AI MAX+ " ++ String.mk (capText d m 2))),
    (seqL [ropt (.grp 1 (seqL [rstr "AMD", rws1])), rstr "RYZEN", rws1, rstr "AI", rws1,
      rstr "MAX", ropt (rch '+'), rws0, .grp 2 (seqL [rdig, rdig, rdig])], 1,
      fun d m => some ("AMD Ryzen AI MAX+ " ++ String.mk (capText d m 2))),
    (seqL [rstr "RYZEN", rws1, rstr "AI", rws1, rstr "MAX", ropt (rch '+'), rws0,
      .grp 1 (seqL [rdig, rdig, rdig])], 1,
      fun d m => some ("AMD Ryzen AI MAX+ " ++ String.mk (capText d m 1))),
    (seqL [ropt (.grp 1 (seqL [rstr "AMD", rws1])), rstr "RYZEN", rws1, rstr "AI", rws1,
      .grp 2 (chcls "579"), rws1, .grp 3 (seqL [rdig, rdig, rdig])], 1,
      fun d m => some ("AMD Ryzen AI " ++ String.mk (capText d m 2) ++ " " ++
        String.mk (capText d m 3))),
    (seqL [ropt (.grp 1 (seqL [rstr "AMD", rws1])), rstr "RYZEN", rws1, rstr "AI", rws1,
      .grp 2 (chcls "579"), rws0, ropt (rch '-'), .grp 3 (seqL [rdig, rdig, rdig])], 1,
      fun d m => some ("AMD Ryzen AI " ++ String.mk (capText d m 2) ++ "-" ++
        String.mk (capText d m 3))),
    (seqL [rstr "AMD", rws1, rstr "RYZEN", rws1, rch 'R', .grp 1 (chcls "579"), rws0,
      ropt (rch '-'), .grp 2 (seqL [rdig, rdig, rdig, rdig, .starCls false false ucC])], 1,
      fun d m => some ("AMD Ryzen " ++ String.mk (capText d m 1) ++ " " ++
        String.mk (capText d m 2))),
    (seqL [rstr "RYZEN", rws1, rch 'R', .grp 1 (chcls "579"), rws0, ropt (rch '-'),
      .grp 2 (seqL [rdig, rdig, rdig, rdig, .starCls false false ucC])], 1,
      fun d m => some ("AMD Ryzen " ++ String.mk (capText d m 1) ++ " " ++
        String.mk (capText d m 2))),
    (seqL [rstr "AMD", rws1, rstr "RYZEN", rws1, rch 'R', .grp 1 (chcls "579"), rch '-',
      .grp 2 (seqL [rdig, rdig, rdig, rdig, .starCls false false ucC])], 1,
      fun d m => some ("AMD Ryzen " ++ String.mk (capText d m 1) ++ " " ++
        String.mk (capText d m 2))),
    (seqL [rstr "AMD", rws1, .grp 1 (seqL [rstr "FX", rws0, ropt (rch '-'), rws0,
      .grp 2 (seqL [rdig, rdig, rdig, rdig, ropt (.cls false ucC)])])], 1,
      fun d m => some ("AMD " ++ String.mk (capText d m 1))),
    (seqL [rstr "AMD", rws1, rstr "QUAD", rws1, rstr "CORE", rws1,
      .grp 1 (seqL [rstr "FX", rws0, ropt (rch '-'), rws0, rdig, rdig, rdig, rdig,
        ropt (.cls false ucC)])], 1,
      fun d m => some ("AMD " ++ String.mk (capText d m 1))),
    (seqL [.wb, .grp 1 (seqL [rstr "FX", ropt (rch '-'), rdig, rdig, rdig, rdig,
      ropt (.cls false ucC)]), .wb], 1,
      fun d m => if hasSub "AMD".data d then
        some ("AMD " ++ String.mk (capText d m 1)) else none),
    (.grp 1 (seqL [rstr "MEDIATEK", rws1,
      .grp 2 (seqL [rdig, rdig, rdig, rdig, ropt (.cls false ucC)])]), 1,
      fun d m => some ("MediaTek " ++ String.mk (capText d m 2))),
    (.grp 1 (seqL [rstr "MEDIATEK", rws1,
      .grp 2 (seqL [ropt (.cls false ucC), rdig1])]), 1,
      fun d m => some ("MediaTek " ++ String.mk (capText d m 2))),
    (seqL [.wb, ropt (.grp 1 (seqL [rstr "APPLE", rws1])),
      .grp 2 (seqL [rch 'M', .cls false [('1', '9')], rws0,
        ropt (altL [rstr "PRO", rstr "MAX", rstr "ULTRA"])]), .wb], 1,
      fun d m => some ("Apple " ++ String.mk (capText d m 2))),
    (seqL [rstr "AMD", rws1, rstr "RYZEN", rws1, .grp 1 (chcls "3579"), rws1,
      .grp 2 (seqL [rdig, rdig, rdig]), .wb], 1,
      fun d m => some ("AMD Ryzen " ++ String.mk (capText d m 1) ++ " " ++
        String.mk (capText d m 2))),
    (seqL [rstr "RYZEN", rws1, .grp 1 (chcls "3579"), rws1,
      .grp 2 (seqL [rdig, rdig, rdig]), .wb], 1,
      fun d m => some ("AMD Ryzen " ++ String.mk (capText d m 1) ++ " " ++
        String.mk (capText d m 2))),
    (.grp 1 (seqL [rstr "SNAPDRAGON", rws1, rch 'X', rws1,
      ropt (.grp 2 (seqL [rstr "ELITE", rws1])), ropt (rch 'X'), .cls false [('1', '9')],
      ropt (rch 'E'), ropt (rch '-'), repC digC 2 3, ropt (.cls false ucC)]), 1,
      fun d m => if hasSub "ELITE".data (grp0 d m) then some "Snapdragon X Elite"
        else some "Snapdragon X Series"),
    (.grp 1 (seqL [rstr "SNAPDRAGON", rws1, rch 'X', rws1, rstr "PLUS", rws1,
      ropt (rch 'X'), rstr "1P", ropt (rch '-'), rdig, rdig, ropt (rch '-'),
      repC digC 2 3]), 1, fun _ _ => some "Snapdragon X Plus"),
    (seqL [rstr "AMD", rws1, .grp 1 (altL [.seq (rch 'A') (chcls "4689"), rstr "A10",
      rstr "A12"]), rws0, ropt (rch '-'),
      .grp 2 (seqL [rdig, rdig, rdig, rdig, ropt (.cls false ucC)])], 1,
      fun d m => some ("AMD " ++ String.mk (capText d m 1) ++ "-" ++
        String.mk (capText d m 2))),
    (seqL [rstr "AMD", rws1, .grp 1 (altL [.seq (rch 'A') (chcls "4689"), rstr "A10",
      rstr "A12"]), rws0,
      .grp 2 (seqL [rdig, rdig, rdig, rdig, ropt (.cls false ucC)])], 1,
      fun d m => some ("AMD " ++ String.mk (capText d m 1) ++ "-" ++
        String.mk (capText d m 2))),
    (seqL [.wb, .grp 1 (altL [.seq (rch 'A') (chcls "4689"), rstr "A10", rstr "A12"]),
      ropt (rch '-'), .grp 2 (seqL [rdig, rdig, rdig, rdig, ropt (.cls false ucC)]), .wb],
      1, fun d m => if hasSub "AMD".data d then
        some ("AMD " ++ String.mk (capText d m 1) ++ "-" ++ String.mk (capText d m 2))
      else none),
    (seqL [rstr "AMD", rws1, rstr "DUAL", rws1, rstr "CORE", rws1,
      .grp 1 (seqL [rch 'A', chcls "4689", ropt (rch '-'), rdig, rdig, rdig, rdig,
        ropt (.cls false ucC)])], 1,
      fun d m => some ("AMD " ++ String.mk (capText d m 1))),
    (seqL [rstr "AMD", rws1, rstr "RYZEN", rws1, .grp 1 (chcls "3579"), rws1,
      .grp 2 (seqL [rdig, rdig, rdig, rdig, repC ucC 1 2])], 1,
      fun d m => some ("AMD Ryzen " ++ String.mk (capText d m 1) ++ " " ++
        String.mk (capText d m 2))),
    (seqL [rstr "AMD", rws1, rstr "RYZEN", rws1, .grp 1 (chcls "3579"), rws0,
      ropt (rch '-'), .grp 2 (seqL [rdig, rdig, rdig, rdig, repC ucC 1 2])], 1,
      fun d m => some ("AMD Ryzen " ++ String.mk (capText d m 1) ++ " " ++
        String.mk (capText d m 2))),
    (seqL [rstr "RYZEN", rws1, .grp 1 (chcls "3579"), rws1,
      .grp 2 (seqL [rdig, rdig, rdig, rdig, repC ucC 1 2])], 1,
      fun d m => some ("AMD Ryzen " ++ String.mk (capText d m 1) ++ " " ++
        String.mk (capText d m 2))),
    (seqL [rstr "AMD", rws1, rstr "RYZEN", rws1, .grp 1 (chcls "3579"), rws1,
      .grp 2 (seqL [rdig, rdig, rdig, rdig, ropt (.cls false ucC)])], 1,
      fun d m => some ("AMD Ryzen " ++ String.mk (capText d m 1) ++ " " ++
        String.mk (capText d m 2))),
    (seqL [rstr "AMD", rws1, rstr "RYZEN", rws1, .grp 1 (chcls "3579"), rws0,
      ropt (rch '-'), .grp 2 (seqL [rdig, rdig, rdig, rdig, ropt (.cls false ucC)])], 1,
      fun d m => some ("AMD Ryzen " ++ String.mk (capText d m 1) ++ " " ++
        String.mk (capText d m 2))),
    (seqL [rstr "RYZEN", rws1, .grp 1 (chcls "3579"), rws1,
      .grp 2 (seqL [rdig, rdig, rdig, rdig, ropt (.cls false ucC)])], 1,
      fun d m => some ("AMD Ryzen " ++ String.mk (capText d m 1) ++ " " ++
        String.mk (capText d m 2))),
    (seqL [rstr "INTEL", rws1, rstr "CORE", rws1, rstr "ULTRA", rws1, .grp 1 (chcls "579"),
      rws1, .grp 2 (seqL [rdig, rdig, rdig, repC ucC 1 2])], 1,
      fun d m => some ("Intel Core Ultra " ++ String.mk (capText d m 1) ++ " " ++
        String.mk (capText d m 2))),
    (seqL [rstr "CORE", rws1, rstr "ULTRA", rws1, .grp 1 (chcls "579"), rws1,
      .grp 2 (seqL [rdig, rdig, rdig, repC ucC 1 2])], 1,
      fun d m => some ("Intel Core Ultra " ++ String.mk (capText d m 1) ++ " " ++
        String.mk (capText d m 2))),
    (seqL [.wb, .grp 1 (seqL [rstr "ULTRA", rws1, chcls "579", rws1, rdig, rdig, rdig,
      repC ucC 1 2]), .wb], 1,
      fun d m => some ("Intel Core " ++ String.mk (capText d m 1))),
    (seqL [rstr "INTEL", rws1, rstr "CORE", rws1, .grp 1 (.seq (rch 'I') (chcls "3579")),
      rws1, .grp 2 (seqL [repC digC 4 5, repC ucC 1 2])], 1,
      fun d m => some ("Intel Core " ++ String.mk (capText d m 1) ++ "-" ++
        String.mk (capText d m 2))),
    (seqL [rstr "CORE", rws1, .grp 1 (.seq (rch 'I') (chcls "3579")), rws1,
      .grp 2 (seqL [repC digC 4 5, repC ucC 1 2])], 1,
      fun d m => some ("Intel Core " ++ String.mk (capText d m 1) ++ "-" ++
        String.mk (capText d m 2))),
    (seqL [.wb, .grp 1 (seqL [rch 'I', chcls "3579", rch '-', repC digC 4 5,
      repC ucC 1 2]), .wb], 1,
      fun d m => some ("Intel Core " ++ String.mk (capText d m 1))),
    (seqL [rstr "INTEL", rws1, rstr "CORE", rws1, .grp 1 (.seq (rch 'I') (chcls "3579")),
      rws1, .grp 2 (seqL [rdig, rdig, rdig, rdig, rdig, repC ucC 1 2])], 1,
      fun d m => some ("Intel Core " ++ String.mk (capText d m 1) ++ "-" ++
        String.mk (capText d m 2))),
    (seqL [rstr "CORE", rws1, .grp 1 (.seq (rch 'I') (chcls "3579")), rws1,
      .grp 2 (seqL [rdig, rdig, rdig, rdig, rdig, repC ucC 1 2])], 1,
      fun d m => some ("Intel Core " ++ String.mk (capText d m 1) ++ "-" ++
        String.mk (capText d m 2))),
    (seqL [.wb, .grp 1 (seqL [rch 'I', chcls "3579", rch '-', rdig, rdig, rdig, rdig,
      rdig, repC ucC 1 2]), .wb], 1,
      fun d m => some ("Intel Core " ++ String.mk (capText d m 1))),
    (seqL [rstr "AMD", rws1, rstr "ATHLON", rws1,
      .grp 1 (seqL [rdig, rdig, rdig, rdig, ropt (.cls false ucC)])], 1,
      fun d m => some ("AMD Athlon " ++ String.mk (capText d m 1))),
    (seqL [rstr "AMD", rws1, rstr "ATHLON", rws1, .grp 1 (altL [rstr "GOLD",
      rstr "SILVER"]), rws1, .grp 2 (seqL [rdig, rdig, rdig, rdig,
      ropt (.cls false ucC)])], 1,
      fun d m => some ("AMD Athlon " ++ String.mk (capText d m 1) ++ " " ++
        String.mk (capText d m 2))),
    (.grp 1 (seqL [rstr "XEON", rws1, .grp 2 (seqL [rstr "W-", .cls false [('1', '9')],
      rdig, rdig, rdig, rdig, ropt (.cls false ucC)])]), 1,
      fun d m => some ("Intel Xeon " ++ String.mk (capText d m 2))),
    (.grp 1 (seqL [rstr "RYZEN", rws1, rstr "AI", rws1, .grp 2 (chcls "579"), rws0,
      ropt (.grp 3 (seqL [rstr "HX", rws1])), .grp 4 (seqL [rdig, rdig, rdig])]), 1,
      fun d m => if capText d m 3 = [] then
        some ("AMD Ryzen AI " ++ String.mk (capText d m 2) ++ " " ++
          String.mk (capText d m 4))
      else
        some ("AMD Ryzen AI " ++ String.mk (capText d m 2) ++ " HX " ++
          String.mk (capText d m 4))),
    (.grp 1 (seqL [rstr "CORE", rws1, rstr "ULTRA", rws1, .grp 2 (chcls "579"), rws1,
      .grp 3 (seqL [rdig, rdig, rdig, .cls false ucC])]), 2,
      fun d m => some ("Intel Core Ultra " ++ String.mk (capText d m 2) ++ " " ++
        String.mk (capText d m 3))),
    (.grp 1 (seqL [rstr "CORE", rws1, .grp 2 (.seq (rch 'I') (chcls "3579")), rws0,
      ropt (rch '-'), .grp 3 (seqL [rdig, rdig, rdig, rdig, ropt (.cls false ucC)])]), 2,
      fun d m => some ("Intel Core " ++ String.mk (capText d m 2) ++ "-" ++
        String.mk (capText d m 3))),
    (.grp 1 (seqL [rstr "CORE", rws1, .grp 2 (.seq (rch 'I') (chcls "3579")), rws1,
      .grp 3 (seqL [rdig, rdig, rdig, rdig, ropt (.cls false ucC)])]), 2,
      fun d m => some ("Intel Core " ++ String.mk (capText d m 2) ++ " " ++
        String.mk (capText d m 3))),
    (seqL [.wb, .grp 1 (seqL [rch 'I', chcls "3579", rch '-', rdig, rdig, rdig, rdig,
      ropt (.cls false ucC)]), .wb], 2,
      fun d m => some ("Intel Core " ++ String.mk (capText d m 1))),
    (seqL [rstr "AMD", rws1, .grp 1 (seqL [rdig, rdig, rdig, rdig, repC ucC 1 2]), .wb],
      2, fun d m => some ("AMD " ++ String.mk (capText d m 1))),
    (.grp 1 (seqL [rstr "CORE", rws1, .grp 2 (chcls "3579"), rws1,
      .grp 3 (seqL [rdig, rdig, rdig, rdig, ropt (.cls false ucC)])]), 2,
      fun d m => some ("Intel Core " ++ String.mk (capText d m 2) ++ " " ++
        String.mk (capText d m 3))),
    (seqL [rstr "INTEL", rws1, .grp 1 (seqL [rdig, rdig, rdig, rdig, .cls false ucC]),
      .wb], 2, fun d m => some ("Intel " ++ String.mk (capText d m 1))),
    (seqL [.wb, rstr "AMD", rws1, .grp 1 (seqL [rdig, rdig, rdig, rdig, repC ucC 1 2]),
      .wb], 2, fun d m => some ("AMD " ++ String.mk (capText d m 1))),
    (seqL [.wb, ropt (.grp 1 (seqL [rstr "INTEL", rws1])),
      .grp 2 (.seq (rch 'N') (repC digC 3 4)), .wb], 3,
      fun d m => some ("Intel " ++ String.mk (capText d m 2))),
    (.grp 1 (seqL [rstr "CELERON", rws1, .grp 2 (seqL [ropt (chcls "NJ"), rdig, rdig,
      rdig, rdig, ropt (.cls false ucC)])]), 3,
      fun d m => some ("Intel Celeron " ++ String.mk (capText d m 2))),
    (.grp 1 (seqL [rstr "PENTIUM", rws1, .grp 2 (altL [rstr "SILVER", rstr "GOLD"]),
      rws1, .grp 3 (seqL [ropt (.cls false ucC), rdig, rdig, rdig, rdig])]), 3,
      fun d m => some ("Intel Pentium " ++ String.mk (capText d m 2) ++ " " ++
        String.mk (capText d m 3))),
    (.grp 1 (seqL [rstr "XEON", rws1, .grp 2 (seqL [rch 'E', ropt rdig, rch '-', rdig,
      rdig, rdig, rdig, ropt (.cls false ucC)]), rws0,
      ropt (.grp 3 (.seq (rch 'V') rdig1))]), 3,
      fun d m => if capText d m 3 = [] then
        some ("Intel Xeon " ++ String.mk (capText d m 2))
      else
        some ("Intel Xeon " ++ String.mk (capText d m 2) ++ " " ++
          String.mk (capText d m 3))),
    (.grp 1 (seqL [rstr "XEON", rws1, .grp 2 (seqL [ropt (.cls false ucC),
      .cls false [('1', '9')], repC digC 0 4, ropt (.cls false ucC)])]), 3,
      fun d m => some ("Intel Xeon " ++ String.mk (capText d m 2))) ]

/-- The main loop: first pattern that matches with a truthy formatted result
(`if result: return result` skips both None and empty results). -/
def procFirst (d : List Char) : List (RE × Nat × PFmt) → Option String
  | [] => none
  | (r, _, f) :: rest =>
    match reSearch false r d with
    | none => procFirst d rest
    | some m =>
      match f d m with
      | some res => if res = "" then procFirst d rest else some res
      | none => procFirst d rest

/-- The vendor-keyword fallback table (src/etl_old.py:775-816). -/
def procVendors : List (String × String) :=
  [ ("SNAPDRAGON X ELITE", "Snapdragon X Elite"),
    ("SNAPDRAGON X PLUS", "Snapdragon X Plus"),
    ("SNAPDRAGON X", "Snapdragon X"),
    ("SNAPDRAGON 8", "Snapdragon 8 Series"),
    ("SNAPDRAGON 7", "Snapdragon 7 Series"),
    ("SNAPDRAGON 6", "Snapdragon 6 Series"),
    ("SNAPDRAGON 4", "Snapdragon 4 Series"),
    ("MICROSOFT SQ1", "Microsoft SQ1"),
    ("MICROSOFT SQ2", "Microsoft SQ2"),
    ("AMD RYZEN R5", "AMD Ryzen 5"),
    ("AMD RYZEN R7", "AMD Ryzen 7"),
    ("AMD RYZEN R9", "AMD Ryzen 9"),
    ("AMD FX", "AMD FX Series"),
    ("AMD RYZEN AI MAX", "AMD Ryzen AI MAX+ Series"),
    ("AMD RYZEN AI", "AMD Ryzen AI Series"),
    ("MEDIATEK", "MediaTek"),
    ("AMD RYZEN 9", "AMD Ryzen 9"),
    ("AMD RYZEN 7", "AMD Ryzen 7"),
    ("AMD RYZEN 5", "AMD Ryzen 5"),
    ("AMD RYZEN 3", "AMD Ryzen 3"),
    ("AMD A4", "AMD A4 Series"),
    ("AMD A6", "AMD A6 Series"),
    ("AMD A8", "AMD A8 Series"),
    ("AMD A9", "AMD A9 Series"),
    ("AMD A10", "AMD A10 Series"),
    ("AMD DUAL CORE", "AMD Dual Core"),
    ("AMD ATHLON", "AMD Athlon Series"),
    ("SNAPDRAGON", "Snapdragon Series"),
    ("APPLE M1", "Apple M1"),
    ("APPLE M2", "Apple M2"),
    ("APPLE M3", "Apple M3"),
    ("INTEL XEON", "Intel Xeon"),
    ("INTEL CORE I7", "Intel Core i7"),
    ("INTEL CORE I5", "Intel Core i5"),
    ("INTEL CORE I3", "Intel Core i3"),
    ("INTEL CORE", "Intel Core Series"),
    ("INTEL CELERON", "Intel Celeron"),
    ("INTEL PENTIUM", "Intel Pentium"),
    ("INTEL ATOM", "Intel Atom") ]

/-- The guard of the final fallback: `(RAM|GB|SSD|HDD|VGA|RADEON|VEGA)\s*`
followed by the `re.escape`d text of the candidate match. -/
def procGuardRE (matched : List Char) : RE :=
  seqL [.grp 1 (altL [rstr "RAM", rstr "GB", rstr "SSD", rstr "HDD", rstr "VGA",
    rstr "RADEON", rstr "VEGA"]), rws0, rstrL matched]

/-- The `final_patterns` table (src/etl_old.py:819-831). -/
def procFinals : List (RE × PFmt) :=
  [ (seqL [.wb, .grp 1 (seqL [rstr "MEDIATEK", rws1, rplusC wordC])],
      fun d m => some (String.mk (capText d m 1))),
    (seqL [.wb, .grp 1 (seqL [rstr "FX", ropt (rch '-'), rdig, rdig, rdig, rdig,
      ropt (.cls false ucC)]), .wb],
      fun d m => some ("AMD " ++ String.mk (capText d m 1))),
    (seqL [.wb, .grp 1 (seqL [rch 'R', chcls "579", rch '-', rdig, rdig, rdig, rdig,
      ropt (.cls false ucC)]), .wb],
      fun d m => some ("AMD Ryzen " ++ String.mk (capText d m 1))),
    (seqL [.wb, .grp 1 (seqL [rch 'A', chcls "4689", ropt (rch '-'), rdig, rdig, rdig,
      rdig, ropt (.cls false ucC)]), .wb],
      fun d m => some ("AMD " ++ String.mk (capText d m 1))),
    (seqL [.wb, .grp 1 (seqL [rch 'I', chcls "3579", rch '-', repC digC 4 5,
      repC ucC 1 2]), .wb],
      fun d m => some ("Intel Core " ++ String.mk (capText d m 1))),
    (seqL [.wb, .grp 1 (seqL [repC digC 4 5, repC ucC 1 2]), .wb],
      fun d m => if hasSub "AMD".data d && !hasSub "RADEON".data d then
        some ("AMD " ++ String.mk (capText d m 1)) else none),
    (seqL [.wb, .grp 1 (seqL [rstr "RYZEN", rws1, chcls "3579", rws1, repC digC 3 4,
      repC ucC 0 2]), .wb],
      fun d m => some ("AMD " ++ String.mk (capText d m 1))),
    (seqL [.wb, .grp 1 (seqL [rstr "CORE", rws1, chcls "I3579", rws1, repC digC 4 5,
      repC ucC 0 2]), .wb],
      fun d m => some ("Intel " ++ String.mk (capText d m 1))),
    (seqL [.wb, .grp 1 (.seq (rch 'I') (chcls "3579")), rws1,
      .grp 2 (seqL [repC digC 4 5, repC ucC 1 2]), .wb],
      fun d m => some ("Intel Core " ++ String.mk (capText d m 1) ++ "-" ++
        String.mk (capText d m 2))),
    (seqL [.wb, .grp 1 (seqL [rstr "SNAPDRAGON", rws1, rdig, rdig, rdig])],
      fun d m => some ("Snapdragon " ++
        String.mk (pyReplace "SNAPDRAGON ".data "".data (capText d m 1)))),
    (seqL [.wb, .grp 1 (seqL [rstr "ULTRA", rws1, chcls "579", rws1, rdig, rdig, rdig,
      repC ucC 1 2]), .wb],
      fun d m => some ("Intel Core " ++ String.mk (capText d m 1))) ]

/-- The final-pattern loop with its RADEON/spec guard:
`if result and not re.search(guard, name_upper): return result`. -/
def procFinalFirst (d : List Char) : List (RE × PFmt) → Option String
  | [] => none
  | (r, f) :: rest =>
    match reSearch false r d with
    | none => procFinalFirst d rest
    | some m =>
      match f d m with
      | some res =>
        if res ≠ "" && !(rsrch (procGuardRE (grp0 d m)) d) then some res
        else procFinalFirst d rest
      | none => procFinalFirst d rest

def extract_processor (product_name : String) : String :=
  let nu := (upStr product_name).data
  match procFirst nu processor_patterns with
  | some r => r
  | none =>
    match procVendors.find? (fun kv => hasSub kv.1.data nu) with
    | some kv => kv.2
    | none =>
      match procFinalFirst nu procFinals with
      | some r => r
      | none => "Unknown Processor"

/-! ### `standardize_processor` (src/etl_old.py:844-1014) -/

def nSeriesModels : List String :=
  [" N100", " N150", " N200", " N300", " N305", " N355",
   " N3350", " N3450", " N4000", " N4020", " N4120", " N4500",
   " N5000", " N5030", " N5100", " N5105", " N6000", " N6210",
   " N6211", " N6230", " N6410", " N6420"]

def pentiumModels : List String :=
  ["6405", "4415", "4410", "5405", "4425", "G6500", "G6400", "7505"]

def celeronModels : List String :=
  ["5205", "5305", "N5100", "N4500", "N4020", "N4000", "N3350", "N3450"]

def ryz9Models : List String :=
  [" 6900", " 6980", " 7945", " 7845", " 8940", " 8945", " 9955"]

def ryz7Models : List String :=
  [" 5800", " 5700", " 6800", " 7735", " 8840", " 7840", " 7745", " 8845H", " 8845HS"]

def ryz5Models : List String :=
  [" 3500", " 4500", " 5500", " 5600", " 6600", " 7520", " 7530", " 7535", " 7640",
   " 8645"]

def ryz3Models : List String :=
  [" 3200", " 3250", " 3300", " 4300", " 5300", " 7320", " 7330", " 7425"]

def anySubIn (l : List String) (u : List Char) : Bool :=
  l.any (fun mo => hasSub mo.data u)

/-- `\b(\d{4})[A-Z]\b` (block 10's model probe; its ungrouped guard regex
matches exactly when this one does). -/
def stdIntelModelRE : RE :=
  seqL [.wb, .grp 1 (seqL [rdig, rdig, rdig, rdig]), .cls false ucC, .wb]

/-- The classification cascade over `processor_upper`; nested sub-blocks that
fall through in the source are flattened into `&&` conditions. -/
def standardizeProcU (u : List Char) : String :=
  if hasSub "XEON".data u then "Intel Xeon"
  else if hasSub "MICROSOFT SQ".data u || hasSub " SQ1".data u || hasSub " SQ2".data u then
    "Qualcomm Snapdragon"
  else if hasSub "RYZEN AI MAX+".data u || hasSub "RYZEN AI MAX".data u then
    (if anySubIn [" 395", " MAX+ 395", " MAX 395"] u then "AMD Ryzen 9"
     else if anySubIn [" 390", " MAX+ 390", " MAX 390"] u then "AMD Ryzen 9"
     else if anySubIn [" 385", " MAX+ 385", " MAX 385"] u then "AMD Ryzen 7"
     else "AMD Ryzen 9")
  else if hasSub "RYZEN AI".data u then
    (if hasSub "RYZEN AI 9".data u || anySubIn [" AI 9", "365", "370", "375"] u then
      "AMD Ryzen 9"
     else if hasSub "RYZEN AI 7".data u || anySubIn [" AI 7", "350"] u then "AMD Ryzen 7"
     else if hasSub "RYZEN AI 5".data u || anySubIn [" AI 5", "340"] u then "AMD Ryzen 5"
     else "AMD Ryzen Series")
  else if anySubIn nSeriesModels u then "Intel N-Series"
  else if anySubIn pentiumModels u then "Intel Pentium"
  else if anySubIn celeronModels u then "Intel Celeron"
  else if hasSub "INTEL CORE ULTRA".data u then "Intel Core Ultra"
  else if hasSub "INTEL CORE".data u then
    (if hasSub "I9".data u then "Intel Core i9"
     else if hasSub "I7".data u then "Intel Core i7"
     else if hasSub "I5".data u then "Intel Core i5"
     else if hasSub "I3".data u then "Intel Core i3"
     else if anySubIn ["-N100", "-N200", "-N300", "-N305", "-N355"] u then "Intel Core i3"
     else "Intel Core Series")
  else if hasSub "RYZEN".data u then
    (if hasSub "RYZEN AI".data u && anySubIn [" AI 9", "365", "370", "375", "395"] u then
      "AMD Ryzen 9"
     else if hasSub "RYZEN AI".data u && anySubIn [" AI 7", "350", "385"] u then
      "AMD Ryzen 7"
     else if hasSub "RYZEN AI".data u && anySubIn [" AI 5", "340"] u then "AMD Ryzen 5"
     else if hasSub "RYZEN 9".data u || anySubIn ryz9Models u then "AMD Ryzen 9"
     else if hasSub "RYZEN 7".data u || anySubIn ryz7Models u then "AMD Ryzen 7"
     else if hasSub "RYZEN 5".data u || anySubIn ryz5Models u then "AMD Ryzen 5"
     else if hasSub "RYZEN 3".data u || anySubIn ryz3Models u then "AMD Ryzen 3"
     else "AMD Ryzen Series")
  else if subAt "AMD ".data u && u.any (fun c => c.isDigit) then
    (if anySubIn [" 395", " 390"] u then "AMD Ryzen 9"
     else if anySubIn [" 385"] u then "AMD Ryzen 7"
     else if anySubIn ryz9Models u then "AMD Ryzen 9"
     else if anySubIn ryz7Models u then "AMD Ryzen 7"
     else if anySubIn ryz5Models u then "AMD Ryzen 5"
     else if anySubIn ryz3Models u then "AMD Ryzen 3"
     else "AMD Entry-Level")
  else
    match (if subAt "INTEL ".data u then reSearch false stdIntelModelRE u else none) with
    | some mm =>
      if ["4305", "6305", "6405"].contains (String.mk (capText u mm 1)) then
        "Intel Pentium"
      else if ["5205", "5305"].contains (String.mk (capText u mm 1)) then "Intel Celeron"
      else "Intel Other"
    | none =>
      if hasSub "PENTIUM".data u then "Intel Pentium"
      else if hasSub "CELERON".data u then "Intel Celeron"
      else if hasSub "ATOM".data u then "Intel Atom"
      else if hasSub "ATHLON".data u then "AMD Entry-Level"
      else if hasSub "DUAL CORE".data u then "AMD Entry-Level"
      else if hasSub "APPLE".data u || anySubIn [" M1", " M2", " M3", " M4"] u then
        "Apple Silicon"
      else if hasSub "SNAPDRAGON".data u then "Qualcomm Snapdragon"
      else if hasSub "MEDIATEK".data u then "MediaTek"
      else if hasSub "INTEL".data u then "Intel Other"
      else if hasSub "AMD".data u then "AMD Other"
      else "Unknown Category"

def standardize_processor (processor : Option String) : String :=
  match processor with
  | none => "Unknown Category"
  | some p =>
    if p = "Unknown Processor" then "Unknown Category"
    else standardizeProcU (upStr p).data

/-! ### `extract_gpu` (src/etl_old.py:1014-1284) -/

def apple_m_patterns : List RE :=
  [ seqL [rstr "APPLE", rws1, rch 'M', .cls false [('1', '4')], rws0,
      ropt (altL [rstr "PRO", rstr "MAX", rstr "ULTRA"]), rws0,
      ropt (seqL [rdig1, rstr "-CORE", rws0, rstr "CPU"]), rws0,
      rdig1, rstr "-CORE", rws0, rstr "GPU"],
    seqL [rstr "MACBOOK", rws1, altL [rstr "AIR", rstr "PRO"], rws1, rch 'M',
      .cls false [('1', '4')]],
    seqL [rstr "APPLE", rws1, rch 'M', .cls false [('1', '4')],
      .starCls false true [('.', '.')], altL [rstr "CPU", rstr "GPU"]],
    seqL [rstr "MACBOOK", .starCls false true [('.', '.')], rch 'M',
      .cls false [('1', '4')]] ]

def appleKeywords : List String :=
  ["MACBOOK", "IMAC", "MAC MINI", "MAC PRO", "MAC STUDIO", "APPLE M1", "APPLE M2",
   "APPLE M3", "APPLE M4", "MAC OS"]

/-- `VEGA\s?[2-9]|VEGA\s?10` -/
def vegaAlt : RE :=
  altL [seqL [rstr "VEGA", ropt (.cls false wsC), .cls false [('2', '9')]],
    seqL [rstr "VEGA", ropt (.cls false wsC), rstr "10"]]

/-- The `gpu_patterns` table in source order; `extract_gpu` stable-sorts it by
the priority field before the loop, as the source's `sorted(..., key=...)`. -/
def gpu_patterns : List (RE × Nat × PFmt) :=
  [ (seqL [rstr "RADEON", rws1, rstr "PRO", rws1, .grp 1 (seqL [rdig, rdig, rdig, ropt rdig,
      ropt (.cls false ucC)]), .wb], 1,
      fun d m => some ("Radeon Pro " ++ String.mk (capText d m 1))),
    (seqL [rstr "RADEON", rws1, .grp 1 (seqL [rch '8', chcls "89", rdig, rch 'M']), .wb],
      1, fun d m => some ("Radeon " ++ String.mk (capText d m 1))),
    (seqL [rstr "RADEON", rws1, .grp 1 (seqL [rch '7', .cls false [('4', '8')], rdig,
      rch 'M']), .wb], 1, fun d m => some ("Radeon " ++ String.mk (capText d m 1))),
    (seqL [rstr "RADEON", rws1, .grp 1 (seqL [rch '6', .cls false [('1', '8')], rdig,
      rch 'M']), .wb], 1, fun d m => some ("Radeon " ++ String.mk (capText d m 1))),
    (seqL [ropt (seqL [rstr "ATI", .cls false wsC]), rstr "RADEON", rws1,
      .grp 1 vegaAlt, .wb], 1, fun d m => some ("Radeon " ++ String.mk (capText d m 1))),
    (seqL [rstr "RADEON", rws1, .grp 1 (seqL [rch 'R', .cls false [('5', '9')]]), rws1,
      .cls false ucC, rdig1, rplusC ucC, .wb], 1,
      fun d m => some ("Radeon " ++ String.mk (capText d m 1))),
    (seqL [rstr "RADEON", rws1, .grp 1 (seqL [rch 'R', .cls false [('5', '9')]]), .wb],
      1, fun d m => some ("Radeon " ++ String.mk (capText d m 1))),
    (seqL [.grp 1 (rstr "RTX"), rws0, .grp 2 (seqL [rdig, rdig, rdig, rdig]), .wb], 1,
      fun d m => some (String.mk (capText d m 1) ++ " " ++ String.mk (capText d m 2))),
    (seqL [.grp 1 (rstr "RTX"), rws0, .grp 2 (seqL [rdig, rdig, rdig, rdig]), .wb], 1,
      fun d m => some (String.mk (capText d m 1) ++ " " ++ String.mk (capText d m 2))),
    (seqL [.grp 1 (rstr "RTX"), rws0, .grp 2 (seqL [rdig, rdig, rdig, rdig]), .wb], 1,
      fun d m => some (String.mk (capText d m 1) ++ " " ++ String.mk (capText d m 2))),
    (seqL [.grp 1 (rstr "GTX"), rws0, .grp 2 (seqL [rdig, rdig, rdig, rdig]), .wb], 1,
      fun d m => some (String.mk (capText d m 1) ++ " " ++ String.mk (capText d m 2))),
    (seqL [.grp 1 (rstr "GTX"), rws0, .grp 2 (seqL [rdig, rdig, rdig, rdig]), .wb], 1,
      fun d m => some (String.mk (capText d m 1) ++ " " ++ String.mk (capText d m 2))),
    (seqL [ropt (.grp 1 (seqL [rstr "GEFORCE", rws1])),
      .grp 2 (seqL [rdig, rdig, rdig, ropt rdig, ropt (.cls false ucC), rch 'M']), .wb], 5,
      fun d m =>
        if 1000 ≤ firstNatIn (capText d m 2) then
          some ("GTX " ++ String.mk (capText d m 2))
        else some ("GT" ++ String.mk (capText d m 2))),
    (seqL [ropt (.grp 1 (seqL [rstr "QUADRO", rws1])),
      .grp 2 (seqL [rch 'T', .cls false [('1', '6')], repC digC 2 3]), .wb], 2,
      fun d m => some ("Quadro " ++ String.mk (capText d m 2))),
    (seqL [ropt (.grp 1 (seqL [rstr "RTX", rws1])),
      .grp 2 (seqL [rch 'A', .cls false [('1', '5')], rdig, rdig, rdig]), .wb], 2,
      fun d m => some ("RTX " ++ String.mk (capText d m 2))),
    (seqL [.grp 1 (altL [rstr "RTX", rstr "GTX"]), rws0,
      .grp 2 (seqL [rdig, rdig, rdig, rdig]), rws0, .grp 3 (rstr "TI")], 2,
      fun d m => some (String.mk (capText d m 1) ++ " " ++ String.mk (capText d m 2) ++
        " Ti")),
    (.grp 1 (seqL [rstr "MX", rws0, .grp 2 (seqL [rdig, rdig, rdig])]), 3,
      fun d m => some ("MX " ++ String.mk (capText d m 2))),
    (.grp 1 (seqL [rstr "GT", rws0, rdig, rdig, rdig, ropt rdig, ropt (.cls false ucC)]), 3,
      fun d m => some (String.mk (pyReplace " ".data "".data (capText d m 1)))),
    (seqL [ropt (.grp 1 (seqL [rstr "QUADRO", rws1])),
      .grp 2 (seqL [rch 'P', .cls false [('1', '4')], rdig, rdig, rdig,
        ropt (.cls false ucC)])], 3,
      fun d m => some ("Quadro " ++ String.mk (capText d m 2))),
    (seqL [ropt (.grp 1 (seqL [rstr "QUADRO", rws1])),
      .grp 2 (seqL [rch 'M', .cls false [('1', '3')], rdig, rdig, rdig,
        ropt (.cls false ucC)])], 3,
      fun d m => some ("Quadro " ++ String.mk (capText d m 2))),
    (.grp 1 (seqL [rstr "RX", rws0, .grp 2 (seqL [rdig, rdig, rdig, rdig]), rws0,
      .grp 3 (ropt (rch 'M'))]), 3,
      fun d m => some ("Radeon RX " ++ String.mk (capText d m 2) ++
        String.mk (capText d m 3))),
    (seqL [rstr "IRIS", ropt (.cls false wsC), rstr "XE"], 1,
      fun _ _ => some "Intel Iris Xe Graphics"),
    (seqL [rstr "INTEL", rws1, rstr "ARC"], 1, fun _ _ => some "Intel Arc Graphics"),
    (seqL [rstr "INTEL", rws1, .grp 1 (altL [rstr "UHD", rstr "HD"]), rws1,
      rstr "GRAPHICS", rws1, .grp 2 rdig1], 2,
      fun d m => some ("Intel " ++ String.mk (capText d m 1) ++ " Graphics " ++
        String.mk (capText d m 2))),
    (seqL [rstr "INTEL", rws1, rstr "UHD"], 2, fun _ _ => some "Intel UHD Graphics"),
    (seqL [rstr "INTEL", rws1, rstr "HD"], 2, fun _ _ => some "Intel HD Graphics"),
    (seqL [rstr "VGA", rws1, rstr "INTEL"], 2, fun _ _ => some "Intel Graphics"),
    (seqL [rstr "QUALCOMM", rws1, rstr "ADRENO"], 2, fun _ _ => some "Adreno Graphics"),
    (seqL [rstr "VGA", rws1, altL [rstr "NVIDIA", rstr "GEFORCE"],
      .starCls true true [(',', ',')],
      .grp 1 (altL [rstr "RTX", rstr "GTX", rstr "MX", rstr "GT", rstr "QUADRO"]), rws0,
      .grp 2 (seqL [ropt (.cls false ucC), rdig, rdig, rdig, ropt rdig, ropt (.cls false ucC)])],
      3, fun d m =>
        if String.mk (capText d m 1) ≠ "QUADRO" then
          some (String.mk (capText d m 1) ++ " " ++ String.mk (capText d m 2))
        else some ("Quadro " ++ String.mk (capText d m 2))),
    (seqL [rstr "RADEON", rws1, .grp 1 (seqL [rdig, rdig, rdig, ropt rdig, rch 'M']),
      .wb], 3, fun d m => some ("Radeon " ++ String.mk (capText d m 1))),
    (seqL [ropt (seqL [rstr "ATI", .cls false wsC]), rstr "RADEON", rws1,
      .grp 1 (seqL [rstr "VEGA", ropt (.cls false wsC), rdig, ropt rdig])], 3,
      fun d m => some ("Radeon " ++ String.mk (capText d m 1))) ]

/-- `VGA\s+([A-Z][A-Z0-9\s]+?)(?=,|\(|\)|RAM|SSD|HDD|LED|WIN|WINDOWS|READY)` -/
def vgaDescRE : RE :=
  seqL [rstr "VGA", rws1,
    .grp 1 (.seq (.cls false ucC)
      (.seq (.cls false (ucC ++ digC ++ wsC)) (.starCls true false (ucC ++ digC ++ wsC)))),
    .look (altL [rch ',', rch '(', rch ')', rstr "RAM", rstr "SSD", rstr "HDD",
      rstr "LED", rstr "WIN", rstr "WINDOWS", rstr "READY"])]

/-- Highest group index a match filled (`m.lastindex`, 0 for none). -/
def maxGroupIdx (m : MRes) : Nat :=
  m.caps.foldl (fun a t => max a t.1) 0

/-- The per-pattern dispatch of the VGA NVIDIA sub-loop: the source branches
first on `'QUADRO' in group(0)`, then on static tests of the pattern text,
then on `'M' in group(0) and group(0)[0].isdigit()`, else returns group(0). -/
def nvVgaTi (vn : List Char) (m : MRes) (idxs : List Nat) : Bool :=
  idxs.any (fun i => capText vn m i = "TI".data)

def nvVgaModel (model : List Char) : String :=
  if firstNatIn model < 1000 then "GT" ++ String.mk model
  else "GTX " ++ String.mk model

def nvidiaVga (vn : List Char) : String :=
  match reSearch false (seqL [.grp 1 (altL [rstr "RTX", rstr "GTX"]), rws0,
      .grp 2 (seqL [rdig, rdig, rdig, rdig])]) vn with
  | some m =>
    if hasSub "QUADRO".data (grp0 vn m) then String.mk (grp0 vn m)
    else if nvVgaTi vn m [1, 2] then
      String.mk (capText vn m 1) ++ " " ++ String.mk (capText vn m 2) ++ " Ti"
    else String.mk (capText vn m 1) ++ " " ++ String.mk (capText vn m 2)
  | none =>
  match reSearch false (seqL [.grp 1 (altL [rstr "RTX", rstr "GTX"]), rws0,
      .grp 2 (seqL [rdig, rdig, rdig, rdig]), rws0, .grp 3 (rstr "TI")]) vn with
  | some m =>
    if hasSub "QUADRO".data (grp0 vn m) then String.mk (grp0 vn m)
    else if nvVgaTi vn m [1, 2, 3] then
      String.mk (capText vn m 1) ++ " " ++ String.mk (capText vn m 2) ++ " Ti"
    else String.mk (capText vn m 1) ++ " " ++ String.mk (capText vn m 2)
  | none =>
  match reSearch false (.grp 1 (seqL [rstr "MX", rws0,
      .grp 2 (seqL [rdig, rdig, rdig])])) vn with
  | some m =>
    if hasSub "QUADRO".data (grp0 vn m) then String.mk (grp0 vn m)
    else "MX " ++ String.mk (capText vn m 2)
  | none =>
  match reSearch false (.grp 1 (seqL [rstr "GT", rws0, rdig, rdig, rdig, ropt rdig,
      ropt (.cls false ucC)])) vn with
  | some m =>
    if hasSub "QUADRO".data (grp0 vn m) then String.mk (grp0 vn m)
    else if hasSub "M".data (grp0 vn m) &&
        (match (grp0 vn m).head? with | some c => c.isDigit | none => false) then
      nvVgaModel (grp0 vn m)
    else String.mk (grp0 vn m)
  | none =>
  match reSearch false (seqL [.grp 1 (seqL [rdig, rdig, rdig, ropt rdig,
      ropt (.cls false ucC), rch 'M']), .wb]) vn with
  | some m =>
    if hasSub "QUADRO".data (grp0 vn m) then String.mk (grp0 vn m)
    else if hasSub "M".data (grp0 vn m) &&
        (match (grp0 vn m).head? with | some c => c.isDigit | none => false) then
      nvVgaModel (grp0 vn m)
    else String.mk (grp0 vn m)
  | none =>
  match reSearch false (.grp 1 (seqL [rstr "QUADRO", rws1, rplusC wordC])) vn with
  | some m => String.mk (grp0 vn m)
  | none => "Integrated Graphics"

def intelVga (vn : List Char) : String :=
  if rsrch (seqL [rstr "IRIS", ropt (.cls false wsC), rstr "XE"]) vn then
    "Intel Iris Xe Graphics"
  else if rsrch (seqL [rstr "INTEL", rws1, rstr "ARC"]) vn then "Intel Arc Graphics"
  else
    match reSearch false (seqL [rstr "INTEL", rws1, .grp 1 (altL [rstr "UHD", rstr "HD"]),
      rws1, rstr "GRAPHICS", rws1, .grp 2 rdig1]) vn with
    | some m =>
      if 1 < maxGroupIdx m then
        "Intel " ++ String.mk (capText vn m 1) ++ " Graphics " ++
          String.mk (capText vn m 2)
      else "Intel UHD Graphics"
    | none =>
      if rsrch (seqL [rstr "INTEL", rws1, rstr "UHD"]) vn then "Intel UHD Graphics"
      else if rsrch (seqL [rstr "INTEL", rws1, rstr "HD"]) vn then "Intel HD Graphics"
      else "Intel Graphics"

def amdVga (vn : List Char) : String :=
  match reSearch false (seqL [rstr "RADEON", rws1, rstr "PRO", rws1,
      .grp 1 (seqL [rdig, rdig, rdig, ropt rdig, ropt (.cls false ucC)])]) vn with
  | some m => "Radeon Pro " ++ String.mk (capText vn m 1)
  | none =>
  match reSearch false (seqL [rstr "RADEON", rws1,
      .grp 1 (seqL [rch '8', chcls "89", rdig, rch 'M'])]) vn with
  | some m => "Radeon " ++ String.mk (capText vn m 1)
  | none =>
  match reSearch false (seqL [rstr "RADEON", rws1,
      .grp 1 (seqL [rch '7', .cls false [('4', '8')], rdig, rch 'M'])]) vn with
  | some m => "Radeon " ++ String.mk (capText vn m 1)
  | none =>
  match reSearch false (seqL [rstr "RADEON", rws1,
      .grp 1 (seqL [rch '6', .cls false [('1', '8')], rdig, rch 'M'])]) vn with
  | some m => "Radeon " ++ String.mk (capText vn m 1)
  | none =>
  match reSearch false (seqL [rstr "RADEON", rws1, .grp 1 vegaAlt]) vn with
  | some m => "Radeon " ++ String.mk (capText vn m 1)
  | none =>
  match reSearch false (seqL [rstr "RADEON", rws1,
      .grp 1 (seqL [rdig, rdig, rdig, ropt rdig, rch 'M'])]) vn with
  | some m => "Radeon " ++ String.mk (capText vn m 1)
  | none =>
  match reSearch false (seqL [rstr "RADEON", rws1,
      .grp 1 (seqL [rch 'R', .cls false [('5', '9')]]), rws1, .cls false ucC, rdig1,
      rplusC ucC, .wb]) vn with
  | some m => "Radeon " ++ String.mk (capText vn m 1)
  | none =>
  match reSearch false (seqL [rstr "RADEON", rws1,
      .grp 1 (seqL [rch 'R', .cls false [('5', '9')]]), .wb]) vn with
  | some m => "Radeon " ++ String.mk (capText vn m 1)
  | none => "AMD Radeon Graphics"

def vgaBlock (nu : List Char) : Option String :=
  if hasSub "VGA ".data nu then
    match reSearch false vgaDescRE nu with
    | some m =>
      let vn := pyStripL (capText nu m 1)
      if hasSub "NVIDIA".data vn || hasSub "GEFORCE".data vn
          || hasSub "QUADRO".data vn then some (nvidiaVga vn)
      else if hasSub "INTEL".data vn then some (intelVga vn)
      else if hasSub "AMD".data vn || hasSub "ATI".data vn
          || hasSub "RADEON".data vn then some (amdVga vn)
      else if hasSub "QUALCOMM".data vn || hasSub "ADRENO".data vn then
        some "Adreno Graphics"
      else none
    | none => none
  else none

def gpuVendors : List (String × String) :=
  [("POWERVR", "PowerVR Graphics"), ("MALI", "Mali Graphics"),
   ("ADRENO", "Adreno Graphics"), ("RADEON", "AMD Radeon Graphics"),
   ("INTEL", "Intel Graphics")]

def extract_gpu (gpu_name : String) : String :=
  let nu := (upStr gpu_name).data
  if (apple_m_patterns.any (fun r => rsrch r nu)) &&
      (appleKeywords.any (fun k => hasSub k.data nu)) then "Apple Silicon Graphics"
  else if hasSub "AMD".data nu && (hasSub "INTEGRATED AMD GRAPHICS".data nu
      || hasSub "INTEGRATED GRAPHICS".data nu) then "Integrated AMD Graphics"
  else
    match procFirst nu (insSort (fun a b => decide (a.2.1 ≤ b.2.1)) gpu_patterns) with
    | some r => r
    | none =>
      match vgaBlock nu with
      | some r => r
      | none =>
        match gpuVendors.find? (fun kv => hasSub kv.1.data nu) with
        | some kv => kv.2
        | none => "Unknown Graphics"

/-! ### `standardize_gpu` (src/etl_old.py:1284-1386) -/

def intelIgpuKws : List String :=
  ["INTEL GRAPHICS", "INTEL UHD", "INTEL HD", "INTEL IRIS", "INTEL ARC",
   "IRIS XE", "IRIS PLUS", "UHD GRAPHICS", "HD GRAPHICS", "ARC GRAPHICS"]

def amdIgpuKws : List String :=
  ["AMD RADEON GRAPHICS", "INTEGRATED AMD GRAPHICS",
   "VEGA 2", "VEGA 3", "VEGA 5", "VEGA 6", "VEGA 7", "VEGA 8", "VEGA 10",
   "RADEON 600M", "RADEON 700M", "RADEON 800M", "610M", "680M", "660M", "740M", "760M",
   "780M", "840M", "860M", "880M", "890M", "920M", "940M", "970M", "980M"]

/-- `(?:GTX?|RTX)\s*(\d{3,4})` -/
def gtModelRE : RE :=
  seqL [altL [seqL [rstr "GT", ropt (rch 'X')], rstr "RTX"], rws0,
    .grp 1 (seqL [rdig, rdig, rdig, ropt rdig])]

def standardizeGpuU (u : List Char) : String :=
  if anySubIn intelIgpuKws u then "Intel Integrated Graphics"
  else if anySubIn amdIgpuKws u then "AMD Integrated Graphics"
  else if hasSub "APPLE".data u && hasSub "GRAPHICS".data u then "Apple Silicon Graphics"
  else if subAt "RADEON R".data u && anySubIn ["R5", "R7", "R8", "R9"] u then
    "AMD Radeon Dedicated"
  else if subAt "RADEON PRO".data u || anySubIn ["PRO 555X", "PRO 5300M", "PRO 560X",
      "PRO WX", "PRO W5000", "PRO W6000", "PRO W7000"] u then
    "AMD Radeon Pro Workstation"
  else if subAt "QUADRO".data u || subAt "RTX A".data u || anySubIn ["RTX 1000",
      "RTX 2000", "RTX 3000", "RTX 4000", "RTX 5000", "RTX 3500"] u then
    "NVIDIA Quadro Workstation"
  else if subAt "MX ".data u || anySubIn ["GT920", "GT940", "GTX 920", "GTX 940"] u then
    "NVIDIA GeForce Entry-Level"
  else if anySubIn ["GTX 1050", "GTX 1060", "GTX 1070", "GTX 1080", "GTX 1650",
      "GTX 1660"] u then "NVIDIA GeForce Mainstream"
  else if anySubIn ["RTX 2050", "RTX 2060", "RTX 2070", "RTX 2080", "RTX 3050",
      "RTX 3060", "RTX 3070", "RTX 3080"] u then "NVIDIA GeForce Performance"
  else if anySubIn ["RTX 4050", "RTX 4060", "RTX 4070", "RTX 4080", "RTX 4090",
      "RTX 5050", "RTX 5060", "RTX 5070", "RTX 5080", "RTX 5090"] u then
    "NVIDIA GeForce High-End"
  else if subAt "RADEON RX".data u then "AMD Radeon Dedicated"
  else if subAt "RADEON".data u then "AMD Radeon Dedicated"
  else if anySubIn ["ADRENO", "POWERVR", "MALI"] u then "Other Mobile Graphics"
  else if subAt "GT".data u || subAt "GTX".data u || subAt "RTX".data u then
    match reSearch false gtModelRE u with
    | some m =>
      if natOfDigits (capText u m 1) < 1000 then "NVIDIA GeForce Entry-Level"
      else if natOfDigits (capText u m 1) < 2000 then "NVIDIA GeForce Mainstream"
      else if natOfDigits (capText u m 1) < 4000 then "NVIDIA GeForce Performance"
      else "NVIDIA GeForce High-End"
    | none => "Other GPU"
  else "Other GPU"

def standardize_gpu (gpu_name : Option String) : String :=
  match gpu_name with
  | none => "Integrated Graphics"
  | some g =>
    if g = "Integrated Graphics" then "Integrated Graphics"
    else standardizeGpuU (upStr g).data

/-! ### `load_raw_as_df` (src/etl.py:173-208) -/

/-- One row of the raw SQLite table; each cell may be NULL. -/
structure RawCell where
  raw_id : Option Int
  product_name : Option String
  price_raw : Option Int
  scraped_at : Option Nat
deriving Repr, DecidableEq

/-- The raw table together with which columns it actually has. -/
structure RawTable where
  hasProductName : Bool
  hasPriceRaw : Bool
  hasIdCol : Bool
  hasRawIdCol : Bool
  hasScrapedAt : Bool
  rows : List RawCell
deriving Repr, DecidableEq

/-- A fully coerced raw record as produced by `load_raw_as_df`. -/
structure RawRow where
  raw_id : Option Int
  product_name : String
  price_raw : Int
  scraped_at : Nat
deriving Repr, DecidableEq

/-- `load_raw_as_df`: raises unless both `product_name` and `price_raw`
columns exist; defaults `scraped_at` (to the load time) and coerces types
(`NaN` name stringifies to `"nan"`, non-numeric/missing price to 0). -/
def load_raw_as_df (tbl : RawTable) (now : Nat) : Except String (List RawRow) :=
  if !tbl.hasProductName || !tbl.hasPriceRaw then
    .error "Raw table must include 'product_name' and 'price_raw' columns"
  else if !tbl.hasRawIdCol && !tbl.hasIdCol then
    .error "KeyError: 'raw_id'"
  else
    .ok (tbl.rows.map (fun c =>
      { raw_id := c.raw_id,
        product_name := match c.product_name with | some s => s | none => "nan",
        price_raw := match c.price_raw with | some p => p | none => 0,
        scraped_at :=
          match (if tbl.hasScrapedAt then c.scraped_at else none) with
          | some t => t
          | none => now }))

/-! ### `prepare_snapshot` (src/etl.py:210-232) -/

/-- Banker's rounding to 3 decimals, the exact-rational model of
`(price_raw / 1_000_000).round(3)`. -/
def round3 (x : Rat) : Rat :=
  let y := x * 1000
  let f : Int := y.floor
  let r : Rat := y - (f : Rat)
  let n : Int :=
    if r < 1 / 2 then f
    else if 1 / 2 < r then f + 1
    else if f % 2 = 0 then f else f + 1
  (n : Rat) / 1000

/-- A snapshot row before feature extraction. -/
structure SnapBase where
  raw_id : Option Int
  product_name : String
  price_raw : Int
  scraped_at : Nat
  product_hash : String
  processed_at : String
  price_in_millions : Rat
deriving Repr, DecidableEq

def addHash (processed : String) (r : RawRow) : SnapBase :=
  { raw_id := r.raw_id, product_name := r.product_name, price_raw := r.price_raw,
    scraped_at := r.scraped_at,
    product_hash := compute_product_hash (some r.product_name),
    processed_at := processed,
    price_in_millions := round3 ((r.price_raw : Rat) / 1000000) }

/-- `sort_values(['product_hash', 'scraped_at'], ascending=[True, False])`. -/
def snapLe (a b : SnapBase) : Bool :=
  decide (a.product_hash < b.product_hash) ||
  (a.product_hash == b.product_hash && b.scraped_at ≤ a.scraped_at)

/-- Keys in first-occurrence order (fueled structural recursion; the fuel is
always sufficient since the filtered tail is no longer than the tail). -/
def uniqFirstF : Nat → List String → List String
  | 0, _ => []
  | _, [] => []
  | f + 1, x :: xs => x :: uniqFirstF f (xs.filter (fun y => y ≠ x))

def uniqFirst (l : List String) : List String :=
  uniqFirstF l.length l

def firstSome (l : List (Option Int)) : Option Int :=
  (l.filterMap id).head?

/-- `groupby('product_hash', as_index=False).first()`: one row per hash, in
group order; per column the first non-null value of the group (only `raw_id`
is nullable — every other column takes the group head's value). -/
def groupFirst (l : List SnapBase) : List SnapBase :=
  (uniqFirst (l.map (·.product_hash))).filterMap (fun h =>
    match l.filter (fun r => r.product_hash == h) with
    | [] => none
    | r :: rs => some { r with raw_id := firstSome (r.raw_id :: rs.map (·.raw_id)) })

def prepare_snapshot (df_raw : List RawRow) (processed : String) : List SnapBase :=
  let df := df_raw.map (addHash processed)
  let sorted := insSort snapLe df
  let collapsed := groupFirst sorted
  collapsed.filter (fun r => pyStrip r.product_name ≠ "")

/-- `prepare_snapshot` downstream of `load_raw_as_df` (the snapshot-build
prefix of `run_etl`): on a load error no snapshot is produced. -/
def snapshot_build (tbl : RawTable) (now : Nat) (processed : String) :
    Except String (List SnapBase) :=
  (load_raw_as_df tbl now).map (fun rows => prepare_snapshot rows processed)

/-! ### The SCD2 reconciler `scd2_apply` (src/etl.py:234-466)

The SQLite `products_current` table is a list of `CurRow` (with its
autoincrement primary key made explicit through `nextId`), the history table a
list of `HistRow`, and the `changes_log` a list of `ChangeRec`. -/

/-- One fully enriched snapshot row as handed to `scd2_apply` (a
`prepare_snapshot` row plus the extracted feature columns). -/
structure SnapRow where
  raw_id : Option Int
  product_hash : String
  product_name : String
  brand : Option String
  series : Option String
  processor_detail : Option String
  processor_category : Option String
  gpu : Option String
  gpu_category : Option String
  ram : Option String
  storage : Option String
  display : Option String
  price_raw : Option Int
  price_in_millions : Option Rat
  processed_at : Option String
deriving Repr, DecidableEq

/-- One row of `products_current`. -/
structure CurRow where
  product_id : Nat
  raw_id : Option Int
  product_hash : String
  product_name : Option String
  brand : Option String
  series : Option String
  processor_detail : Option String
  processor_category : Option String
  gpu : Option String
  gpu_category : Option String
  ram : Option String
  storage : Option String
  display : Option String
  price_raw : Option Int
  price_in_millions : Option Rat
  processed_at : Option String
  valid_from : String
  valid_to : Option String
  is_active : Bool
deriving Repr, DecidableEq

/-- One row of `products_history` (a current row copied without its
`product_id`). -/
structure HistRow where
  raw_id : Option Int
  product_hash : String
  product_name : Option String
  brand : Option String
  series : Option String
  processor_detail : Option String
  processor_category : Option String
  gpu : Option String
  gpu_category : Option String
  ram : Option String
  storage : Option String
  display : Option String
  price_raw : Option Int
  price_in_millions : Option Rat
  processed_at : Option String
  valid_from : String
  valid_to : Option String
  is_active : Bool
deriving Repr, DecidableEq

/-- The JSON payload of one `changes_log` row. -/
inductive ChangeDetails where
  | note (s : String)
  | newPrice (p : Option Int)
  | diff (d : List (String × Option String × Option String))
deriving Repr, DecidableEq

structure ChangeRec where
  run_id : Option Nat
  product_hash : String
  change_type : String
  details : ChangeDetails
  changed_at : String
deriving Repr, DecidableEq

structure Stats where
  new_products : Nat
  price_updates : Nat
  attribute_updates : Nat
  discontinued : Nat
  unchanged : Nat
  duplicates_in_raw : Nat
deriving Repr, DecidableEq

def stats0 : Stats := ⟨0, 0, 0, 0, 0, 0⟩

structure EtlState where
  current : List CurRow
  history : List HistRow
  changes : List ChangeRec
  nextId : Nat
deriving Repr, DecidableEq

/-- The `is_active=1 AND product_hash=h` rows, in table order. -/
def actH (rows : List CurRow) (h : String) : List CurRow :=
  rows.filter (fun r => r.is_active && r.product_hash == h)

/-- `current_map[h]` over the pass-start active rows (src/etl.py:258-270):
`set_index('product_hash').to_dict('index')`. pandas raises ValueError on a
non-unique index, so a pass can only begin when each hash has at most one
active row; there the map holds that row, which equals the last (indeed only)
element of `actH`. This embedding totalizes the lookup as that `getLast?`, so
it coincides with the program on every state a real pass accepts — theorems
about duplicate-active tables must not route a lookup through a duplicated
hash. -/
def curMapGet (rows : List CurRow) (h : String) : Option CurRow :=
  (actH rows h).getLast?

/-- `UPDATE ... SET valid_to=?, is_active=0`. -/
def closeRow (t : String) (r : CurRow) : CurRow :=
  { r with valid_to := some t, is_active := false }

/-- The archival copy inserted into history (the dict copy of the map row
with `product_id` popped, `valid_to` stamped and `is_active` zeroed). -/
def histOf (t : String) (r : CurRow) : HistRow :=
  { raw_id := r.raw_id, product_hash := r.product_hash, product_name := r.product_name,
    brand := r.brand, series := r.series, processor_detail := r.processor_detail,
    processor_category := r.processor_category, gpu := r.gpu, gpu_category := r.gpu_category,
    ram := r.ram, storage := r.storage, display := r.display, price_raw := r.price_raw,
    price_in_millions := r.price_in_millions, processed_at := r.processed_at,
    valid_from := r.valid_from, valid_to := some t, is_active := false }

/-- The row inserted into `products_current` for a snapshot row. -/
def mkCurRow (id : Nat) (t : String) (s : SnapRow) : CurRow :=
  { product_id := id, raw_id := s.raw_id, product_hash := s.product_hash,
    product_name := some s.product_name, brand := s.brand, series := s.series,
    processor_detail := s.processor_detail, processor_category := s.processor_category,
    gpu := s.gpu, gpu_category := s.gpu_category, ram := s.ram, storage := s.storage,
    display := s.display, price_raw := s.price_raw, price_in_millions := s.price_in_millions,
    processed_at := s.processed_at, valid_from := t, valid_to := none, is_active := true }

/-- `str(x).strip()` with the `pd.isna` guard, applied before comparing. -/
def normV (v : Option String) : Option String :=
  v.map pyStrip

/-- One tracked column's contribution to the per-key diff dict. -/
def diffCol (name : String) (cv sv : Option String) :
    List (String × Option String × Option String) :=
  if normV sv ≠ normV cv then [(name, cv, sv)] else []

/-- The eleven tracked columns (src/etl.py:322), as raw string accessors into
both row shapes (`price_raw` stringified the way `str()` renders the stored
integer). -/
def trackedAccessors : List (String × (SnapRow → Option String) × (CurRow → Option String)) :=
  [ ("product_name", fun s => some s.product_name, fun c => c.product_name),
    ("brand", fun s => s.brand, fun c => c.brand),
    ("series", fun s => s.series, fun c => c.series),
    ("processor_detail", fun s => s.processor_detail, fun c => c.processor_detail),
    ("processor_category", fun s => s.processor_category, fun c => c.processor_category),
    ("gpu", fun s => s.gpu, fun c => c.gpu),
    ("gpu_category", fun s => s.gpu_category, fun c => c.gpu_category),
    ("ram", fun s => s.ram, fun c => c.ram),
    ("storage", fun s => s.storage, fun c => c.storage),
    ("display", fun s => s.display, fun c => c.display),
    ("price_raw", fun s => s.price_raw.map toString, fun c => c.price_raw.map toString) ]

/-- The `changed` dict of `scd2_apply` (src/etl.py:364-372): every tracked
column whose normalized values differ, with its raw old/new pair. -/
def changedOf (s : SnapRow) (c : CurRow) : List (String × Option String × Option String) :=
  trackedAccessors.foldr (fun a acc => diffCol a.1 (a.2.2 c) (a.2.1 s) ++ acc) []

/-- `'price_update' if 'price_raw' in changed and len(changed)==1 else
'attribute_update'` (src/etl.py:427-432). -/
def classifyChange (ch : List (String × Option String × Option String)) : String :=
  if ch.any (fun e => e.1 == "price_raw") && ch.length == 1 then "price_update"
  else "attribute_update"

/-- `UPDATE ... SET valid_to=?, is_active=0 WHERE product_hash=? AND
is_active=1`. -/
def closeIfHash (t ph : String) (r : CurRow) : CurRow :=
  if r.is_active && r.product_hash == ph then closeRow t r else r

/-- Close-out of one discontinued hash (src/etl.py:287-318); `cur0` is the
table as read at the start of the pass (the basis of `current_map`). -/
def discStep (t : String) (cur0 : List CurRow) (acc : EtlState × Stats) (ph : String) :
    EtlState × Stats :=
  match curMapGet cur0 ph with
  | none => acc
  | some row =>
    ({ acc.1 with
        current := acc.1.current.map (closeIfHash t ph),
        history := acc.1.history ++ [histOf t row],
        changes := acc.1.changes ++
          [⟨none, ph, "discontinued", .note "no longer present in latest snapshot", t⟩] },
     { acc.2 with discontinued := acc.2.discontinued + 1 })

/-- Upsert of one snapshot row (src/etl.py:323-437); presence tests and the
compared old row both come from the pass-start `current_map` over `cur0`. -/
def upsertStep (t : String) (cur0 : List CurRow) (acc : EtlState × Stats) (srow : SnapRow) :
    EtlState × Stats :=
  match curMapGet cur0 srow.product_hash with
  | none =>
    ({ acc.1 with
        current := acc.1.current ++ [mkCurRow acc.1.nextId t srow],
        nextId := acc.1.nextId + 1,
        changes := acc.1.changes ++
          [⟨none, srow.product_hash, "new", .newPrice srow.price_raw, t⟩] },
     { acc.2 with new_products := acc.2.new_products + 1 })
  | some cur_row =>
    if (changedOf srow cur_row).isEmpty then
      (acc.1, { acc.2 with unchanged := acc.2.unchanged + 1 })
    else
      ({ acc.1 with
          current := (acc.1.current.map (closeIfHash t srow.product_hash)) ++
            [mkCurRow acc.1.nextId t srow],
          nextId := acc.1.nextId + 1,
          history := acc.1.history ++ [histOf t cur_row],
          changes := acc.1.changes ++ [⟨none, srow.product_hash,
            classifyChange (changedOf srow cur_row), .diff (changedOf srow cur_row), t⟩] },
       if classifyChange (changedOf srow cur_row) == "price_update" then
         { acc.2 with price_updates := acc.2.price_updates + 1 }
       else
         { acc.2 with attribute_updates := acc.2.attribute_updates + 1 })

/-- Lexicographic (bytewise, as SQLite compares TEXT) order on char lists. -/
def leListC : List Char → List Char → Bool
  | [], _ => true
  | _ :: _, [] => false
  | a :: as, b :: bs => if a < b then true else if b < a then false else leListC as bs

def strLeB (a b : String) : Bool := leListC a.data b.data

/-- `ORDER BY valid_from DESC` over the active rows of one hash. -/
def byValidFromDesc (a b : CurRow) : Bool :=
  strLeB b.valid_from a.valid_from

/-- `UPDATE ... SET is_active=0, valid_to=? WHERE product_id=?` for every id
in the close list (the ids of the non-kept sorted rows of one
duplicate-active hash, src/etl.py:449-456). -/
def guardClose (t : String) (rest : List CurRow) (r : CurRow) : CurRow :=
  if (rest.map (·.product_id)).contains r.product_id then closeRow t r else r

def guardStep (t : String) (rows : List CurRow) (ph : String) : List CurRow :=
  match insSort byValidFromDesc (actH rows ph) with
  | [] => rows
  | _keep :: rest => rows.map (guardClose t rest)

/-- The Duplicate-Active Guard (src/etl.py:439-459): every hash holding more
than one active row is repaired. -/
def guardPass (t : String) (rows : List CurRow) : List CurRow :=
  let dup := (uniqFirst ((rows.filter (·.is_active)).map (·.product_hash))).filter
    (fun h => 2 ≤ (actH rows h).length)
  dup.foldl (guardStep t) rows

/-- The discontinued hashes of a pass: active hashes of the pass-start table
that are absent from the snapshot (src/etl.py:286). -/
def discHashes (cur0 : List CurRow) (snapHashes : List String) : List String :=
  (uniqFirst ((cur0.filter (·.is_active)).map (·.product_hash))).filter
    (fun h => !snapHashes.contains h)

/-- The discontinued pass followed by the upsert pass, before the guard. -/
def scd2_preGuard (snapshot : List SnapRow) (st : EtlState) (run_at : String) :
    EtlState × Stats :=
  snapshot.foldl (upsertStep run_at st.current)
    ((discHashes st.current (snapshot.map (·.product_hash))).foldl
      (discStep run_at st.current) (st, stats0))

/-- `scd2_apply`: discontinued close-outs first, then the per-snapshot-row
upsert, then the duplicate-active guard. -/
def scd2_apply (snapshot : List SnapRow) (st : EtlState) (run_at : String) :
    EtlState × Stats :=
  ({ (scd2_preGuard snapshot st run_at).1 with
      current := guardPass run_at (scd2_preGuard snapshot st run_at).1.current },
   (scd2_preGuard snapshot st run_at).2)

/-- A concrete `products_current` row with only the identifying fields set,
used to build seeded states. -/
def exCur (id : Nat) (ph nm vf : String) (pr : Option Int) : CurRow :=
  { product_id := id, raw_id := none, product_hash := ph, product_name := some nm,
    brand := none, series := none, processor_detail := none, processor_category := none,
    gpu := none, gpu_category := none, ram := none, storage := none, display := none,
    price_raw := pr, price_in_millions := none, processed_at := none,
    valid_from := vf, valid_to := none, is_active := true }

/-- A concrete snapshot row with only the identifying fields set. -/
def exSnap (ph nm : String) (pr : Option Int) : SnapRow :=
  { raw_id := none, product_hash := ph, product_name := nm, brand := none,
    series := none, processor_detail := none, processor_category := none,
    gpu := none, gpu_category := none, ram := none, storage := none,
    display := none, price_raw := pr, price_in_millions := none, processed_at := none }

/-- A state artificially seeded with two `is_active=1` rows for the same hash
"h" (valid_from "2" and "1"), as in the duplicate-active-guard scenario. -/
def stDup : EtlState :=
  { current := [exCur 1 "h" "X" "2" none, exCur 2 "h" "Y" "1" none],
    history := [], changes := [], nextId := 3 }

/-- A snapshot row for hash "h" naming the product "Y". -/
def snapY : SnapRow := exSnap "h" "Y" none

/-- A snapshot row for the same hash "h" naming the product "X". -/
def snapX : SnapRow := exSnap "h" "X" none

/-- The empty starting state (fresh database, next product_id 1). -/
def stEmpty : EtlState := { current := [], history := [], changes := [], nextId := 1 }

/-- A healthy one-row state: a single active row for hash "h" with price
25000000 (Scenario 2's pre-state). -/
def stOne : EtlState :=
  { current := [exCur 1 "h" "A" "1" (some 25000000)], history := [], changes := [],
    nextId := 2 }

/-- Scenario 2's snapshot row: same name, price dropped to 23000000. -/
def snapA : SnapRow := exSnap "h" "A" (some 23000000)

/-! ## Helper lemmas -/

theorem toDigitsCore_ne_nil (b f n : Nat) (l : List Char) (h : l ≠ []) :
    Nat.toDigitsCore b f n l ≠ [] := by
  induction f generalizing n l with
  | zero => simpa [Nat.toDigitsCore] using h
  | succ f ih =>
    simp only [Nat.toDigitsCore]
    split
    · simp
    · exact ih _ _ (by simp)

theorem toDigits_ne_nil (b n : Nat) : Nat.toDigits b n ≠ [] := by
  simp only [Nat.toDigits, Nat.toDigitsCore]
  split
  · simp
  · exact toDigitsCore_ne_nil _ _ _ _ (by simp)

theorem natToString_ne_empty (n : Nat) : toString n ≠ "" := by
  show Nat.repr n ≠ ""
  simp only [Nat.repr, List.asString, ne_eq, String.ext_iff]
  exact toDigits_ne_nil 10 n

theorem append_right_ne_empty (s t : String) (ht : t ≠ "") : s ++ t ≠ "" := by
  intro h
  apply ht
  have hd := congrArg String.data h
  rw [String.data_append] at hd
  have h2 : t.data = [] := (List.append_eq_nil.mp hd).2
  exact congrArg String.mk h2

theorem ramCommon_range {n : Nat} (h : n ∈ ramCommon) : 1 ≤ n ∧ n ≤ 256 := by
  simp [ramCommon] at h
  rcases h with h | h | h | h | h | h | h <;> omega

theorem ramAccept_range (t n : Nat) (h : ramAccept t = some n) : 1 ≤ n ∧ n ≤ 256 := by
  unfold ramAccept at h
  split at h
  · rename_i hc
    cases h
    exact ramCommon_range (List.mem_of_elem_eq_true hc)
  · split at h
    · rename_i hr
      cases h
      simp at hr
      omega
    · cases h

theorem ramTryStrict_range (u : List Char) (pats : List (RE × Bool)) (n : Nat)
    (h : ramTryStrict u pats = some n) : 1 ≤ n ∧ n ≤ 256 := by
  induction pats with
  | nil => simp [ramTryStrict] at h
  | cons p ps ih =>
    obtain ⟨r, two⟩ := p
    rw [ramTryStrict] at h
    rcases hm : reSearch false r u with _ | m <;> rw [hm] at h <;> dsimp only at h
    · exact ih h
    · rcases ha : ramAccept (if two = true then capNat u m 1 * capNat u m 2 else capNat u m 1)
        with _ | t <;> rw [ha] at h <;> dsimp only at h
      · exact ih h
      · cases h
        exact ramAccept_range _ _ ha

/-- Shape of the fallback tier: the sentinel, or `<n>GB` with `n` a common
size. -/
theorem ramFallbackResult_shape (u : List Char) :
    ramFallbackResult u = "Unknown RAM" ∨
    ∃ n : Nat, n ∈ ramCommon ∧ ramFallbackResult u = toString n ++ "GB" := by
  unfold ramFallbackResult
  rcases hm : reSearch false ramFallbackRE u with _ | m
  · left; rfl
  · dsimp only
    split
    · left; rfl
    · split
      · rename_i hc
        exact Or.inr ⟨_, List.mem_of_elem_eq_true hc, rfl⟩
      · left; rfl

/-- Shape of `extract_ram`: the sentinel, or `<n>GB` for some `n` in 1..256. -/
theorem extract_ram_shape (s : String) :
    extract_ram s = "Unknown RAM" ∨
    ∃ n : Nat, 1 ≤ n ∧ n ≤ 256 ∧ extract_ram s = toString n ++ "GB" := by
  unfold extract_ram extractRamU
  rcases hs : ramTryStrict ((upStr s).data) ramPatterns with _ | total <;> dsimp only
  · rcases ramFallbackResult_shape ((upStr s).data) with h | ⟨n, hn, h⟩
    · left; exact h
    · right; exact ⟨n, (ramCommon_range hn).1, (ramCommon_range hn).2, h⟩
  · right
    exact ⟨total, (ramTryStrict_range _ _ _ hs).1, (ramTryStrict_range _ _ _ hs).2, rfl⟩

/-- When the strict tier found nothing, only the conventional sizes can be
returned (the dedicated fallback tier's restriction). -/
theorem extract_ram_fallback_common (s : String)
    (hs : ramTryStrict ((upStr s).data) ramPatterns = none) :
    extract_ram s = "Unknown RAM" ∨
    ∃ n : Nat, n ∈ ramCommon ∧ extract_ram s = toString n ++ "GB" := by
  unfold extract_ram extractRamU
  rw [hs]
  exact ramFallbackResult_shape _

/-- When the strict tier found nothing and a storage keyword occurs anywhere
in the uppercased name, the fallback match is vetoed. -/
theorem extract_ram_storage_veto (s : String)
    (hs : ramTryStrict ((upStr s).data) ramPatterns = none)
    (hk : (["SSD", "HDD", "STORAGE"].any fun kw => hasSub kw.data ((upStr s).data)) = true) :
    extract_ram s = "Unknown RAM" := by
  unfold extract_ram extractRamU
  rw [hs]
  unfold ramFallbackResult
  rcases hm : reSearch false ramFallbackRE ((upStr s).data) with _ | m
  · rfl
  · dsimp only
    rw [if_pos]
    simp only [List.any_eq_true] at hk ⊢
    rcases hk with ⟨kw, hkw, hsub⟩
    refine ⟨kw.data, ?_, hsub⟩
    simp only [ramFallbackKeywords]
    fin_cases hkw <;> simp

theorem pickMain_eq_or_mem (b : StSpec) (l : List StSpec) :
    pickMain b l = b ∨ pickMain b l ∈ l := by
  induction l generalizing b with
  | nil => left; rfl
  | cons x xs ih =>
    rw [pickMain]
    rcases ih (if b.capacity_gb < x.capacity_gb then x else b) with h | h
    · rw [h]
      split
      · right; simp
      · left; rfl
    · right; simp [h]

theorem pickMain_ge (b : StSpec) (l : List StSpec) :
    b.capacity_gb ≤ (pickMain b l).capacity_gb ∧
    ∀ x ∈ l, x.capacity_gb ≤ (pickMain b l).capacity_gb := by
  induction l generalizing b with
  | nil => exact ⟨Nat.le_refl _, by simp⟩
  | cons y ys ih =>
    rw [pickMain]
    have h := ih (if b.capacity_gb < y.capacity_gb then y else b)
    constructor
    · refine Nat.le_trans ?_ h.1
      split <;> omega
    · intro x hx
      rcases List.mem_cons.mp hx with rfl | hx
      · refine Nat.le_trans ?_ h.1
        split <;> omega
      · exact h.2 x hx

theorem mem_storageSpecs_shape (u : List Char) (sp : StSpec) (h : sp ∈ storageSpecs u) :
    ∃ m i ty, sp = mkStSpec u m i ty := by
  unfold storageSpecs at h
  split at h
  · unfold storageFallbackSpecs at h
    simp only [List.mem_flatMap, List.mem_filter, List.mem_map] at h
    rcases h with ⟨p, _, ⟨⟨m, _, rfl⟩, _⟩⟩
    exact ⟨m, _, _, rfl⟩
  · unfold storageExplicitSpecs at h
    simp only [List.mem_flatMap, List.mem_map] at h
    rcases h with ⟨p, _, ⟨m, _, rfl⟩⟩
    exact ⟨m, _, _, rfl⟩

/-- Shape of `extract_storage`: the sentinel when nothing matched, else the
formatted first-largest spec. -/
theorem extract_storage_shape (s : String) :
    (storageSpecs ((upStr s).data) = [] → extract_storage s = "Unknown Storage") ∧
    (storageSpecs ((upStr s).data) ≠ [] →
      ∃ sp, sp ∈ storageSpecs ((upStr s).data) ∧
        extract_storage s = toString sp.capacity ++ sp.unit ∧
        ∀ sp' ∈ storageSpecs ((upStr s).data), sp'.capacity_gb ≤ sp.capacity_gb) := by
  constructor
  · intro h
    unfold extract_storage extractStorageU
    rw [h]
  · intro h
    unfold extract_storage extractStorageU
    rcases hs : storageSpecs ((upStr s).data) with _ | ⟨x, xs⟩
    · exact absurd hs h
    · dsimp only
      refine ⟨pickMain x xs, ?_, rfl, ?_⟩
      · rcases pickMain_eq_or_mem x xs with he | he
        · rw [he]; simp
        · simp [he]
      · intro sp' hsp'
        rcases List.mem_cons.mp hsp' with rfl | hsp'
        · exact (pickMain_ge sp' xs).1
        · exact (pickMain_ge x xs).2 sp' hsp'

theorem extract_display_shape (s : String) :
    extract_display s = "Unknown" ∨ ∃ t : String, extract_display s = t ++ "\"" := by
  unfold extract_display
  rcases hc : dispCands (dispNorm s) with _ | ⟨c, cs⟩ <;> unfold dispOfCands
  · left; rfl
  · right
    exact ⟨_, rfl⟩

theorem extract_brand_shape (s : String) (brand_list : List String) :
    extract_brand s brand_list = "Lenovo" ∨ extract_brand s brand_list ∈ brand_list ∨
    extract_brand s brand_list = "Other" := by
  unfold extract_brand brandOf
  split
  · left; rfl
  · rcases hf : brand_list.find? (fun b => (reSearch true (brandRE b) (pyStrip s).data).isSome)
      with _ | b <;> dsimp only
    · right; right; rfl
    · right; left
      exact List.mem_of_find?_eq_some hf

theorem append_left_ne_empty (s t : String) (hs : s ≠ "") : s ++ t ≠ "" := by
  intro h
  apply hs
  have hd := congrArg String.data h
  rw [String.data_append] at hd
  exact congrArg String.mk (List.append_eq_nil.mp hd).1

/-! ### Sorting and key-dedup lemmas -/

theorem insertLe_perm {α : Type} (le : α → α → Bool) (x : α) (l : List α) :
    (insertLe le x l).Perm (x :: l) := by
  induction l with
  | nil => exact List.Perm.refl _
  | cons y ys ih =>
    unfold insertLe
    split
    · exact List.Perm.refl _
    · exact ((ih.cons y).trans (List.Perm.swap x y ys))

theorem insSort_perm {α : Type} (le : α → α → Bool) (l : List α) :
    (insSort le l).Perm l := by
  induction l with
  | nil => exact List.Perm.refl _
  | cons x xs ih =>
    exact (insertLe_perm le x (insSort le xs)).trans (ih.cons x)

theorem mem_insertLe {α : Type} (le : α → α → Bool) (x a : α) (l : List α) :
    a ∈ insertLe le x l ↔ a = x ∨ a ∈ l := by
  rw [(insertLe_perm le x l).mem_iff]
  simp

theorem insertLe_pairwise {α : Type} (le : α → α → Bool)
    (htot : ∀ a b, le a b = true ∨ le b a = true)
    (htr : ∀ a b c, le a b = true → le b c = true → le a c = true)
    (x : α) (l : List α) (hl : l.Pairwise (fun a b => le a b = true)) :
    (insertLe le x l).Pairwise (fun a b => le a b = true) := by
  induction l with
  | nil => simp [insertLe]
  | cons y ys ih =>
    unfold insertLe
    split
    · rename_i hxy
      refine List.Pairwise.cons ?_ hl
      intro z hz
      rcases List.mem_cons.mp hz with rfl | hz
      · exact hxy
      · exact htr x y z hxy ((List.pairwise_cons.mp hl).1 z hz)
    · rename_i hxy
      refine List.Pairwise.cons ?_ (ih (List.pairwise_cons.mp hl).2)
      intro z hz
      rcases (mem_insertLe le x z ys).mp hz with rfl | hz
      · rcases htot z y with h | h
        · exact absurd h hxy
        · exact h
      · exact (List.pairwise_cons.mp hl).1 z hz

theorem insSort_pairwise {α : Type} (le : α → α → Bool)
    (htot : ∀ a b, le a b = true ∨ le b a = true)
    (htr : ∀ a b c, le a b = true → le b c = true → le a c = true)
    (l : List α) : (insSort le l).Pairwise (fun a b => le a b = true) := by
  induction l with
  | nil => simp [insSort]
  | cons x xs ih => exact insertLe_pairwise le htot htr x _ ih

theorem uniqFirstF_sub (f : Nat) (l : List String) (a : String) (h : a ∈ uniqFirstF f l) :
    a ∈ l := by
  induction f generalizing l with
  | zero => simp [uniqFirstF] at h
  | succ f ih =>
    cases l with
    | nil => simp [uniqFirstF] at h
    | cons x xs =>
      rw [uniqFirstF] at h
      rcases List.mem_cons.mp h with rfl | h
      · exact List.mem_cons_self _ _
      · exact List.mem_cons_of_mem _ (List.mem_of_mem_filter (ih _ h))

theorem uniqFirstF_mem (f : Nat) (l : List String) (hf : l.length ≤ f) (a : String)
    (h : a ∈ l) : a ∈ uniqFirstF f l := by
  induction f generalizing l with
  | zero =>
    cases l with
    | nil => simp at h
    | cons x xs => simp at hf
  | succ f ih =>
    cases l with
    | nil => simp at h
    | cons x xs =>
      rw [uniqFirstF]
      by_cases hax : a = x
      · simp [hax]
      · rcases List.mem_cons.mp h with rfl | h
        · simp
        · refine List.mem_cons_of_mem _ (ih _ ?_ ?_)
          · calc (xs.filter (fun y => y ≠ x)).length ≤ xs.length :=
                List.length_filter_le _ _
              _ ≤ f := by simpa using hf
          · simp only [List.mem_filter]
            exact ⟨h, by simpa using hax⟩

theorem uniqFirstF_nodup (f : Nat) (l : List String) : (uniqFirstF f l).Nodup := by
  induction f generalizing l with
  | zero => simp [uniqFirstF]
  | succ f ih =>
    cases l with
    | nil => simp [uniqFirstF]
    | cons x xs =>
      rw [uniqFirstF]
      refine List.Nodup.cons ?_ (ih _)
      intro hmem
      have := uniqFirstF_sub _ _ _ hmem
      simp [List.mem_filter] at this

theorem uniqFirst_mem_iff (l : List String) (a : String) : a ∈ uniqFirst l ↔ a ∈ l :=
  ⟨uniqFirstF_sub _ _ _, uniqFirstF_mem _ _ (Nat.le_refl _) _⟩

theorem uniqFirst_nodup (l : List String) : (uniqFirst l).Nodup :=
  uniqFirstF_nodup _ _

theorem leListC_refl (x : List Char) : leListC x x = true := by
  induction x with
  | nil => rfl
  | cons a as ih => simp [leListC, lt_irrefl, ih]

theorem leListC_cons_iff (a b : Char) (as bs : List Char) :
    leListC (a :: as) (b :: bs) = true ↔ a < b ∨ (a = b ∧ leListC as bs = true) := by
  rcases lt_trichotomy a b with h | h | h
  · simp [leListC, h]
  · subst h
    simp [leListC, lt_irrefl]
  · simp [leListC, h, lt_asymm h, ne_of_gt h]

theorem leListC_trans (x y z : List Char) (h1 : leListC x y = true)
    (h2 : leListC y z = true) : leListC x z = true := by
  induction x generalizing y z with
  | nil => rfl
  | cons a as ih =>
    cases y with
    | nil => simp [leListC] at h1
    | cons b bs =>
      cases z with
      | nil => simp [leListC] at h2
      | cons c cs =>
        rw [leListC_cons_iff] at h1 h2 ⊢
        rcases h1 with h1 | ⟨rfl, h1⟩ <;> rcases h2 with h2 | ⟨rfl, h2⟩
        · exact Or.inl (lt_trans h1 h2)
        · exact Or.inl h1
        · exact Or.inl h2
        · exact Or.inr ⟨rfl, ih bs cs h1 h2⟩

theorem leListC_total (x y : List Char) : leListC x y = true ∨ leListC y x = true := by
  induction x generalizing y with
  | nil => left; rfl
  | cons a as ih =>
    cases y with
    | nil => right; rfl
    | cons b bs =>
      rcases lt_trichotomy a b with h | h | h
      · left
        rw [leListC_cons_iff]
        exact Or.inl h
      · subst h
        rcases ih bs with h2 | h2
        · left
          rw [leListC_cons_iff]
          exact Or.inr ⟨rfl, h2⟩
        · right
          rw [leListC_cons_iff]
          exact Or.inr ⟨rfl, h2⟩
      · right
        rw [leListC_cons_iff]
        exact Or.inl h

theorem leListC_antisymm (x y : List Char) (h1 : leListC x y = true)
    (h2 : leListC y x = true) : x = y := by
  induction x generalizing y with
  | nil =>
    cases y with
    | nil => rfl
    | cons b bs => simp [leListC] at h2
  | cons a as ih =>
    cases y with
    | nil => simp [leListC] at h1
    | cons b bs =>
      rw [leListC_cons_iff] at h1 h2
      rcases h1 with h1 | ⟨rfl, h1⟩
      · rcases h2 with h2 | ⟨he, _⟩
        · exact absurd h2 (lt_asymm h1)
        · exact absurd h1 (by rw [he]; exact lt_irrefl _)
      · rcases h2 with h2 | ⟨_, h2⟩
        · exact absurd h2 (lt_irrefl _)
        · rw [ih bs h1 h2]

theorem strLeB_antisymm (a b : String) (h1 : strLeB a b = true) (h2 : strLeB b a = true) :
    a = b := by
  have := leListC_antisymm a.data b.data h1 h2
  cases a with
  | mk da => exact congrArg String.mk this

theorem bvd_total (a b : CurRow) : byValidFromDesc a b = true ∨ byValidFromDesc b a = true :=
  (leListC_total b.valid_from.data a.valid_from.data).imp id id

theorem bvd_trans (a b c : CurRow) (h1 : byValidFromDesc a b = true)
    (h2 : byValidFromDesc b c = true) : byValidFromDesc a c = true :=
  leListC_trans c.valid_from.data b.valid_from.data a.valid_from.data h2 h1

theorem bvd_refl (a : CurRow) : byValidFromDesc a a = true :=
  leListC_refl _

theorem mem_actH (rs : List CurRow) (h : String) (r : CurRow) :
    r ∈ actH rs h ↔ r ∈ rs ∧ r.is_active = true ∧ r.product_hash = h := by
  unfold actH
  rw [List.mem_filter]
  simp [Bool.and_eq_true]

theorem actH_append (rs1 rs2 : List CurRow) (h : String) :
    actH (rs1 ++ rs2) h = actH rs1 h ++ actH rs2 h := by
  unfold actH
  exact List.filter_append _ _

theorem getLast?_mem {α : Type} (l : List α) (a : α) (h : l.getLast? = some a) : a ∈ l := by
  induction l with
  | nil => simp at h
  | cons x xs ih =>
    cases xs with
    | nil =>
      simp at h
      simp [h]
    | cons y ys =>
      rw [List.getLast?_cons_cons] at h
      exact List.mem_cons_of_mem _ (ih h)

theorem getLast?_none {α : Type} (l : List α) (h : l.getLast? = none) : l = [] := by
  cases l with
  | nil => rfl
  | cons x xs =>
    rw [List.getLast?_eq_getLast] at h <;> simp at h

theorem getLast?_singleton {α : Type} (l : List α) (a : α) (hlen : l.length ≤ 1)
    (h : l.getLast? = some a) : l = [a] := by
  cases l with
  | nil => simp at h
  | cons x xs =>
    cases xs with
    | nil =>
      simp at h
      simp [h]
    | cons y ys => simp at hlen

theorem nodup_all_eq_singleton {α : Type} (l : List α) (a : α) (hnd : l.Nodup)
    (hall : ∀ x ∈ l, x = a) (hmem : a ∈ l) : l = [a] := by
  cases l with
  | nil => cases hmem
  | cons x xs =>
    have hx : x = a := hall x (List.mem_cons_self _ _)
    subst hx
    cases xs with
    | nil => rfl
    | cons y ys =>
      have hy : y = x := hall y (by simp)
      rw [List.nodup_cons] at hnd
      exact absurd (by simp [hy.symm]) hnd.1

theorem nodup_all_eq_len_le {α : Type} (l : List α) (a : α) (hnd : l.Nodup)
    (hall : ∀ x ∈ l, x = a) : l.length ≤ 1 := by
  cases l with
  | nil => simp
  | cons x xs =>
    have hx : x = a := hall x (List.mem_cons_self _ _)
    subst hx
    cases xs with
    | nil => simp
    | cons y ys =>
      have hy : y = x := hall y (by simp)
      rw [List.nodup_cons] at hnd
      exact absurd (by simp [hy.symm]) hnd.1

/-- Filtering the active rows of one hash after a conditional close-out. -/
theorem actH_map_close (t : String) (cond : CurRow → Bool) (rs : List CurRow) (h : String) :
    actH (rs.map (fun r => if cond r then closeRow t r else r)) h =
      rs.filter (fun r => !cond r && (r.is_active && r.product_hash == h)) := by
  induction rs with
  | nil => rfl
  | cons r rs ih =>
    simp only [List.map_cons]
    unfold actH at ih ⊢
    rw [List.filter_cons, List.filter_cons]
    by_cases hc : cond r = true
    · simp only [hc, if_pos, Bool.not_true, Bool.false_and]
      have : (closeRow t r).is_active = false := rfl
      simp [this, ih]
    · have hc' : cond r = false := by simpa using hc
      simp only [hc', if_neg, Bool.not_false, Bool.true_and]
      simp [ih]

theorem guardClose_pid (t : String) (rest : List CurRow) (r : CurRow) :
    (guardClose t rest r).product_id = r.product_id := by
  unfold guardClose
  split <;> rfl

theorem guardClose_of_ne (t : String) (rest : List CurRow) (r : CurRow)
    (h : ((rest.map (·.product_id)).contains r.product_id) = false) :
    guardClose t rest r = r := by
  unfold guardClose
  rw [h]
  rfl

theorem guardClose_of_mem (t : String) (rest : List CurRow) (r : CurRow)
    (h : ((rest.map (·.product_id)).contains r.product_id) = true) :
    guardClose t rest r = closeRow t r := by
  unfold guardClose
  rw [h]
  rfl

theorem actH_map_guardClose (t : String) (rest rs : List CurRow) (h : String) :
    actH (rs.map (guardClose t rest)) h =
      rs.filter (fun r => !((rest.map (·.product_id)).contains r.product_id) &&
        (r.is_active && r.product_hash == h)) := by
  have := actH_map_close t
    (fun r : CurRow => (rest.map (fun x : CurRow => x.product_id)).contains r.product_id) rs h
  exact this

/-- A row whose id lands in the close list is an active row of the guarded
hash (by id uniqueness). -/
theorem close_list_hash (t : String) (rs : List CurRow) (ph : String) (rest : List CurRow)
    (hnd : (rs.map (·.product_id)).Nodup) (keep : CurRow)
    (heq : insSort byValidFromDesc (actH rs ph) = keep :: rest)
    (r : CurRow) (hr : r ∈ rs)
    (hc : ((rest.map (·.product_id)).contains r.product_id) = true) :
    r.is_active = true ∧ r.product_hash = ph := by
  have hmm : r.product_id ∈ rest.map (·.product_id) := List.mem_of_elem_eq_true hc
  rw [List.mem_map] at hmm
  rcases hmm with ⟨x, hx, hxid⟩
  have hxact : x ∈ actH rs ph := by
    have hxs : x ∈ insSort byValidFromDesc (actH rs ph) := by
      rw [heq]
      exact List.mem_cons_of_mem _ hx
    exact (insSort_perm _ _).mem_iff.mp hxs
  have hxrs : x ∈ rs := ((mem_actH _ _ _).mp hxact).1
  have hxr : x = r := List.inj_on_of_nodup_map hnd hxrs hr hxid
  rw [← hxr]
  exact ⟨((mem_actH _ _ _).mp hxact).2.1, ((mem_actH _ _ _).mp hxact).2.2⟩

theorem guardStep_ids (t : String) (rs : List CurRow) (ph : String) :
    (guardStep t rs ph).map (·.product_id) = rs.map (·.product_id) := by
  unfold guardStep
  split
  · rfl
  · rw [List.map_map]
    apply List.map_congr_left
    intro r _
    exact guardClose_pid _ _ _

theorem guardStep_preserve_inactive (t : String) (rs : List CurRow) (ph : String) (r : CurRow)
    (hnd : (rs.map (·.product_id)).Nodup) (hr : r ∈ rs) (hin : r.is_active = false) :
    r ∈ guardStep t rs ph := by
  unfold guardStep
  split
  · exact hr
  · rename_i keep rest heq
    have hcond : ((rest.map (·.product_id)).contains r.product_id) = false := by
      by_contra hcc
      have hc : ((rest.map (·.product_id)).contains r.product_id) = true := by simpa using hcc
      have := (close_list_hash t rs ph rest hnd keep heq r hr hc).1
      rw [hin] at this
      cases this
    have hm := List.mem_map_of_mem (guardClose t rest) hr
    rwa [guardClose_of_ne t rest r hcond] at hm

theorem guardStep_other (t : String) (rs : List CurRow) (ph h : String)
    (hnd : (rs.map (·.product_id)).Nodup) (hne : h ≠ ph) :
    actH (guardStep t rs ph) h = actH rs h := by
  unfold guardStep
  split
  · rfl
  · rename_i keep rest heq
    rw [actH_map_guardClose]
    unfold actH
    apply List.filter_congr
    intro r hr
    by_cases hact : (r.is_active && r.product_hash == h) = true
    · have hhash : r.product_hash = h := by
        rw [Bool.and_eq_true] at hact
        simpa using hact.2
      have hcond : ((rest.map (·.product_id)).contains r.product_id) = false := by
        by_contra hcc
        have hc : ((rest.map (·.product_id)).contains r.product_id) = true := by
          simpa using hcc
        have := (close_list_hash t rs ph rest hnd keep heq r hr hc).2
        exact hne (hhash ▸ this)
      rw [hcond, hact]
      rfl
    · have hact' : (r.is_active && r.product_hash == h) = false := by simpa using hact
      simp [hact']

theorem guardStep_own (t : String) (rs : List CurRow) (ph : String)
    (hnd : (rs.map (·.product_id)).Nodup) :
    (actH rs ph = [] ∧ guardStep t rs ph = rs) ∨
    ∃ keep rest, insSort byValidFromDesc (actH rs ph) = keep :: rest ∧
      keep ∈ actH rs ph ∧
      (∀ r ∈ actH rs ph, byValidFromDesc keep r = true) ∧
      actH (guardStep t rs ph) ph = [keep] ∧
      (∀ r ∈ actH rs ph, r ≠ keep → closeRow t r ∈ guardStep t rs ph) := by
  have hrsnd : rs.Nodup := List.Nodup.of_map _ hnd
  have hactnd : (actH rs ph).Nodup := List.Nodup.sublist (List.filter_sublist _) hrsnd
  have hperm := insSort_perm byValidFromDesc (actH rs ph)
  have hsortnd : (insSort byValidFromDesc (actH rs ph)).Nodup := hperm.nodup_iff.mpr hactnd
  have hpw := insSort_pairwise byValidFromDesc bvd_total bvd_trans (actH rs ph)
  unfold guardStep
  cases heq : insSort byValidFromDesc (actH rs ph) with
  | nil =>
    left
    have hnil : actH rs ph = [] := by
      rw [heq] at hperm
      exact (hperm.symm).eq_nil
    exact ⟨hnil, rfl⟩
  | cons keep rest =>
    right
    rw [heq] at hperm hsortnd hpw
    have hkeepact : keep ∈ actH rs ph := hperm.mem_iff.mp (List.mem_cons_self _ _)
    have hkeeprs : keep ∈ rs := ((mem_actH _ _ _).mp hkeepact).1
    have hkeepnotclose : ((rest.map (·.product_id)).contains keep.product_id) = false := by
      by_contra hcc
      have hc : ((rest.map (·.product_id)).contains keep.product_id) = true := by simpa using hcc
      have hmm : keep.product_id ∈ rest.map (·.product_id) := List.mem_of_elem_eq_true hc
      rw [List.mem_map] at hmm
      rcases hmm with ⟨x, hx, hxid⟩
      have hxact : x ∈ actH rs ph :=
        hperm.mem_iff.mp (List.mem_cons_of_mem _ hx)
      have hxrs : x ∈ rs := ((mem_actH _ _ _).mp hxact).1
      have hxr : x = keep := List.inj_on_of_nodup_map hnd hxrs hkeeprs hxid
      rw [List.nodup_cons] at hsortnd
      exact hsortnd.1 (hxr ▸ hx)
    refine ⟨keep, rest, rfl, hkeepact, ?_, ?_, ?_⟩
    · intro r hract
      have : r ∈ keep :: rest := hperm.mem_iff.mpr hract
      rcases List.mem_cons.mp this with rfl | hrest
      · exact bvd_refl _
      · exact (List.pairwise_cons.mp hpw).1 _ hrest
    · rw [actH_map_guardClose]
      apply nodup_all_eq_singleton _ keep (List.Nodup.sublist (List.filter_sublist _) hrsnd)
      · intro x hx
        rw [List.mem_filter] at hx
        obtain ⟨hxrs, hxp⟩ := hx
        rw [Bool.and_eq_true, Bool.and_eq_true] at hxp
        have hxact : x ∈ actH rs ph := (mem_actH _ _ _).mpr
          ⟨hxrs, hxp.2.1, by simpa using hxp.2.2⟩
        have hxs : x ∈ keep :: rest := hperm.mem_iff.mpr hxact
        rcases List.mem_cons.mp hxs with rfl | hxrest
        · rfl
        · exfalso
          have hidin : x.product_id ∈ rest.map (·.product_id) := List.mem_map_of_mem _ hxrest
          have hc : ((rest.map (·.product_id)).contains x.product_id) = true :=
            List.elem_eq_true_of_mem hidin
          rw [hc] at hxp
          simpa using hxp.1
      · rw [List.mem_filter]
        refine ⟨hkeeprs, ?_⟩
        rw [hkeepnotclose]
        have h1 := ((mem_actH _ _ _).mp hkeepact).2.1
        have h2 := ((mem_actH _ _ _).mp hkeepact).2.2
        simp [h1, h2]
    · intro r hract hrne
      have hrs : r ∈ keep :: rest := hperm.mem_iff.mpr hract
      rcases List.mem_cons.mp hrs with rfl | hrest
      · exact absurd rfl hrne
      · have hidin : r.product_id ∈ rest.map (·.product_id) := List.mem_map_of_mem _ hrest
        have hc : ((rest.map (·.product_id)).contains r.product_id) = true :=
          List.elem_eq_true_of_mem hidin
        have hrrs : r ∈ rs := ((mem_actH _ _ _).mp hract).1
        have hm := List.mem_map_of_mem (guardClose t rest) hrrs
        rwa [guardClose_of_mem t rest r hc] at hm

theorem guardFold_ids (t : String) (D : List String) :
    ∀ rs : List CurRow, ((D.foldl (guardStep t) rs).map (·.product_id)) = rs.map (·.product_id) := by
  induction D with
  | nil => intro rs; rfl
  | cons d D ih =>
    intro rs
    rw [List.foldl_cons, ih, guardStep_ids]

theorem guardStep_own_le (t : String) (rs : List CurRow) (ph : String)
    (hnd : (rs.map (·.product_id)).Nodup) :
    (actH (guardStep t rs ph) ph).length ≤ (actH rs ph).length ∧
    (actH (guardStep t rs ph) ph).length ≤ 1 ∨
    (actH (guardStep t rs ph) ph).length = 1 := by
  rcases guardStep_own t rs ph hnd with ⟨hnil, hid⟩ | ⟨keep, rest, _, _, _, hone, _⟩
  · left
    rw [hid, hnil]
    simp
  · right
    rw [hone]
    rfl

theorem guardFold_le (t : String) (D : List String) :
    ∀ (rs : List CurRow) (h : String), (rs.map (·.product_id)).Nodup →
      (actH rs h).length ≤ 1 → (actH (D.foldl (guardStep t) rs) h).length ≤ 1 := by
  induction D with
  | nil => intro rs h _ hle; exact hle
  | cons d D ih =>
    intro rs h hnd hle
    rw [List.foldl_cons]
    have hnd' : ((guardStep t rs d).map (·.product_id)).Nodup := by
      rw [guardStep_ids]; exact hnd
    apply ih _ _ hnd'
    by_cases hdh : h = d
    · subst hdh
      rcases guardStep_own_le t rs h hnd with ⟨_, h2⟩ | h2
      · exact h2
      · omega
    · rw [guardStep_other t rs d h hnd (fun hh => hdh hh)]
      exact hle

theorem guardFold_mem (t : String) (D : List String) :
    ∀ (rs : List CurRow) (h : String), (rs.map (·.product_id)).Nodup →
      h ∈ D → (actH (D.foldl (guardStep t) rs) h).length ≤ 1 := by
  induction D with
  | nil => intro rs h _ hmem; cases hmem
  | cons d D ih =>
    intro rs h hnd hmem
    rw [List.foldl_cons]
    have hnd' : ((guardStep t rs d).map (·.product_id)).Nodup := by
      rw [guardStep_ids]; exact hnd
    rcases List.mem_cons.mp hmem with rfl | hmem
    · apply guardFold_le t D _ _ hnd'
      rcases guardStep_own_le t rs h hnd with ⟨_, h2⟩ | h2
      · exact h2
      · omega
    · exact ih _ _ hnd' hmem

theorem guardFold_other (t : String) (D : List String) :
    ∀ (rs : List CurRow) (h : String), (rs.map (·.product_id)).Nodup →
      h ∉ D → actH (D.foldl (guardStep t) rs) h = actH rs h := by
  induction D with
  | nil => intro rs h _ _; rfl
  | cons d D ih =>
    intro rs h hnd hmem
    rw [List.foldl_cons]
    have hnd' : ((guardStep t rs d).map (·.product_id)).Nodup := by
      rw [guardStep_ids]; exact hnd
    rw [ih _ _ hnd' (fun hh => hmem (List.mem_cons_of_mem _ hh))]
    exact guardStep_other t rs d h hnd (fun hh => hmem (hh ▸ List.mem_cons_self _ _))

theorem guardFold_preserve_inactive (t : String) (D : List String) :
    ∀ (rs : List CurRow) (r : CurRow), (rs.map (·.product_id)).Nodup →
      r ∈ rs → r.is_active = false → r ∈ D.foldl (guardStep t) rs := by
  induction D with
  | nil => intro rs r _ hr _; exact hr
  | cons d D ih =>
    intro rs r hnd hr hin
    rw [List.foldl_cons]
    have hnd' : ((guardStep t rs d).map (·.product_id)).Nodup := by
      rw [guardStep_ids]; exact hnd
    exact ih _ _ hnd' (guardStep_preserve_inactive t rs d r hnd hr hin) hin

theorem guardFold_repair (t : String) (D : List String) :
    ∀ (rs : List CurRow) (ph : String), (rs.map (·.product_id)).Nodup → D.Nodup →
      ph ∈ D → actH rs ph ≠ [] →
      ∃ keep, keep ∈ actH rs ph ∧
        (∀ r ∈ actH rs ph, byValidFromDesc keep r = true) ∧
        actH (D.foldl (guardStep t) rs) ph = [keep] ∧
        (∀ r ∈ actH rs ph, r ≠ keep → closeRow t r ∈ D.foldl (guardStep t) rs) := by
  induction D with
  | nil => intro rs ph _ _ hmem _; cases hmem
  | cons d D ih =>
    intro rs ph hnd hDnd hmem hne
    rw [List.foldl_cons]
    have hnd' : ((guardStep t rs d).map (·.product_id)).Nodup := by
      rw [guardStep_ids]; exact hnd
    rw [List.nodup_cons] at hDnd
    rcases List.mem_cons.mp hmem with rfl | hmem
    · rcases guardStep_own t rs ph hnd with ⟨hnil, _⟩ | ⟨keep, rest, _, hkact, hkmax, hone, hclose⟩
      · exact absurd hnil hne
      · refine ⟨keep, hkact, hkmax, ?_, ?_⟩
        · rw [guardFold_other t D _ _ hnd' hDnd.1, hone]
        · intro r hr hrne
          have hcl := hclose r hr hrne
          exact guardFold_preserve_inactive t D _ _ hnd' hcl rfl
    · have hdne : ph ≠ d := fun hh => hDnd.1 (hh ▸ hmem)
      have hstep : actH (guardStep t rs d) ph = actH rs ph :=
        guardStep_other t rs d ph hnd hdne
      have hne' : actH (guardStep t rs d) ph ≠ [] := by rw [hstep]; exact hne
      rcases ih _ ph hnd' hDnd.2 hmem hne' with ⟨keep, hk1, hk2, hk3, hk4⟩
      rw [hstep] at hk1 hk2 hk4
      exact ⟨keep, hk1, hk2, hk3, hk4⟩

theorem actH_nonempty_mem_dup (rows : List CurRow) (h : String)
    (hlen : 1 ≤ (actH rows h).length) :
    h ∈ uniqFirst ((rows.filter (·.is_active)).map (·.product_hash)) := by
  rcases hact : actH rows h with _ | ⟨r, rest⟩
  · rw [hact] at hlen; simp at hlen
  · have hr : r ∈ actH rows h := by rw [hact]; exact List.mem_cons_self _ _
    obtain ⟨hrs, hactv, hhash⟩ := (mem_actH _ _ _).mp hr
    rw [uniqFirst_mem_iff, List.mem_map]
    refine ⟨r, ?_, hhash⟩
    rw [List.mem_filter]
    exact ⟨hrs, hactv⟩

theorem guardPass_le_one (t : String) (rows : List CurRow)
    (hnd : (rows.map (·.product_id)).Nodup) (h : String) :
    (actH (guardPass t rows) h).length ≤ 1 := by
  unfold guardPass
  by_cases hle : (actH rows h).length ≤ 1
  · exact guardFold_le t _ rows h hnd hle
  · have h2 : 2 ≤ (actH rows h).length := by omega
    apply guardFold_mem t _ rows h hnd
    rw [List.mem_filter]
    refine ⟨actH_nonempty_mem_dup rows h (by omega), ?_⟩
    simpa using h2

theorem guardPass_repair (t : String) (rows : List CurRow) (ph : String)
    (hnd : (rows.map (·.product_id)).Nodup) (h2 : 2 ≤ (actH rows ph).length)
    (hdist : (actH rows ph).Pairwise fun a b => a.valid_from ≠ b.valid_from) :
    ∃ keep, keep ∈ actH rows ph ∧
      (∀ r ∈ actH rows ph, strLeB r.valid_from keep.valid_from = true) ∧
      (∀ r ∈ actH rows ph,
        (∀ r' ∈ actH rows ph, strLeB r'.valid_from r.valid_from = true) → r = keep) ∧
      actH (guardPass t rows) ph = [keep] ∧
      ∀ r ∈ actH rows ph, r ≠ keep → closeRow t r ∈ guardPass t rows := by
  unfold guardPass
  have hDnd : ((uniqFirst ((rows.filter (·.is_active)).map (·.product_hash))).filter
      (fun h => 2 ≤ (actH rows h).length)).Nodup :=
    List.Nodup.filter _ (uniqFirst_nodup _)
  have hmem : ph ∈ (uniqFirst ((rows.filter (·.is_active)).map (·.product_hash))).filter
      (fun h => 2 ≤ (actH rows h).length) := by
    rw [List.mem_filter]
    refine ⟨actH_nonempty_mem_dup rows ph (by omega), by simpa using h2⟩
  have hne : actH rows ph ≠ [] := by
    intro hh
    rw [hh] at h2
    simp at h2
  rcases guardFold_repair t _ rows ph hnd hDnd hmem hne with ⟨keep, hk1, hk2, hk3, hk4⟩
  refine ⟨keep, hk1, ?_, ?_, hk3, hk4⟩
  · intro r hr
    exact hk2 r hr
  · intro r hr hrmax
    have h1 : strLeB r.valid_from keep.valid_from = true := hk2 r hr
    have h2' : strLeB keep.valid_from r.valid_from = true := hrmax keep hk1
    have heq : r.valid_from = keep.valid_from := strLeB_antisymm _ _ h1 h2'
    by_contra hne'
    have hsym : Symmetric fun a b : CurRow => a.valid_from ≠ b.valid_from := by
      intro a b hab
      exact hab.symm
    exact List.Pairwise.forall hsym hdist hr hk1 hne' heq

theorem guardPass_identity (t : String) (rows : List CurRow)
    (hle : ∀ h, (actH rows h).length ≤ 1) : guardPass t rows = rows := by
  unfold guardPass
  have : (uniqFirst ((rows.filter (·.is_active)).map (·.product_hash))).filter
      (fun h => 2 ≤ (actH rows h).length) = [] := by
    rw [List.filter_eq_nil_iff]
    intro h _
    have := hle h
    simp only [decide_eq_true_eq]
    omega
  rw [this]
  rfl

theorem closeIfHash_pid (t ph : String) (r : CurRow) :
    (closeIfHash t ph r).product_id = r.product_id := by
  unfold closeIfHash
  split <;> rfl

theorem actH_map_closeIfHash_own (t ph : String) (rs : List CurRow) :
    actH (rs.map (closeIfHash t ph)) ph = [] := by
  have hmc := actH_map_close t
    (fun r : CurRow => r.is_active && r.product_hash == ph) rs ph
  have : actH (rs.map (closeIfHash t ph)) ph =
      rs.filter (fun r => !(r.is_active && r.product_hash == ph) &&
        (r.is_active && r.product_hash == ph)) := hmc
  rw [this, List.filter_eq_nil_iff]
  intro r _
  by_cases hb : (r.is_active && r.product_hash == ph) = true <;> simp [hb]

theorem actH_map_closeIfHash_other (t ph h : String) (rs : List CurRow) (hne : h ≠ ph) :
    actH (rs.map (closeIfHash t ph)) h = actH rs h := by
  have hmc := actH_map_close t
    (fun r : CurRow => r.is_active && r.product_hash == ph) rs h
  have h1 : actH (rs.map (closeIfHash t ph)) h =
      rs.filter (fun r => !(r.is_active && r.product_hash == ph) &&
        (r.is_active && r.product_hash == h)) := hmc
  rw [h1]
  unfold actH
  apply List.filter_congr
  intro r _
  by_cases hb : (r.is_active && r.product_hash == h) = true
  · rw [Bool.and_eq_true] at hb
    have hrh : r.product_hash = h := by simpa using hb.2
    have : (r.product_hash == ph) = false := by
      rw [hrh]
      simpa using hne
    simp only [hb.1, this, hrh, Bool.and_false, Bool.not_false, Bool.true_and,
      Bool.and_self, beq_self_eq_true]
    simp [hne]
  · have hb' : (r.is_active && r.product_hash == h) = false := by simpa using hb
    simp [hb']

theorem map_pid_closeIfHash (t ph : String) (rs : List CurRow) :
    (rs.map (closeIfHash t ph)).map (·.product_id) = rs.map (·.product_id) := by
  rw [List.map_map]
  apply List.map_congr_left
  intro r _
  exact closeIfHash_pid t ph r

theorem closeMap_inv (t ph : String) (cur : List CurRow) (n : Nat)
    (h1 : (cur.map (·.product_id)).Nodup) (h2 : ∀ r ∈ cur, r.product_id < n) :
    ((cur.map (closeIfHash t ph)).map (·.product_id)).Nodup ∧
      ∀ r ∈ cur.map (closeIfHash t ph), r.product_id < n := by
  refine ⟨by rw [map_pid_closeIfHash]; exact h1, ?_⟩
  intro r hr
  obtain ⟨r0, hr0, rfl⟩ := List.mem_map.mp hr
  rw [closeIfHash_pid]
  exact h2 r0 hr0

theorem snoc_new_inv (cur : List CurRow) (n : Nat) (t : String) (s : SnapRow)
    (h1 : (cur.map (·.product_id)).Nodup) (h2 : ∀ r ∈ cur, r.product_id < n) :
    ((cur ++ [mkCurRow n t s]).map (·.product_id)).Nodup ∧
      ∀ r ∈ cur ++ [mkCurRow n t s], r.product_id < n + 1 := by
  constructor
  · rw [List.map_append]
    apply List.Nodup.append h1 (List.nodup_singleton _)
    intro x hx hx'
    obtain ⟨r0, hr0, rfl⟩ := List.mem_map.mp hx
    have hlt := h2 r0 hr0
    have : r0.product_id = n := by simpa using hx'
    omega
  · intro r hr
    rcases List.mem_append.mp hr with hl | hrr
    · have := h2 r hl
      omega
    · have : r = mkCurRow n t s := by simpa using hrr
      rw [this]
      exact Nat.lt_succ_self n

theorem discStep_inv (t : String) (cur0 : List CurRow) (acc : EtlState × Stats) (ph : String)
    (h1 : (acc.1.current.map (·.product_id)).Nodup)
    (h2 : ∀ r ∈ acc.1.current, r.product_id < acc.1.nextId) :
    ((discStep t cur0 acc ph).1.current.map (·.product_id)).Nodup ∧
      ∀ r ∈ (discStep t cur0 acc ph).1.current,
        r.product_id < (discStep t cur0 acc ph).1.nextId := by
  unfold discStep
  cases hc : curMapGet cur0 ph with
  | none => exact ⟨h1, h2⟩
  | some row => exact closeMap_inv t ph acc.1.current acc.1.nextId h1 h2

theorem discFold_inv (t : String) (cur0 : List CurRow) (D : List String) :
    ∀ acc : EtlState × Stats, (acc.1.current.map (·.product_id)).Nodup →
      (∀ r ∈ acc.1.current, r.product_id < acc.1.nextId) →
      ((D.foldl (discStep t cur0) acc).1.current.map (·.product_id)).Nodup ∧
        ∀ r ∈ (D.foldl (discStep t cur0) acc).1.current,
          r.product_id < (D.foldl (discStep t cur0) acc).1.nextId := by
  induction D with
  | nil => intro acc h1 h2; exact ⟨h1, h2⟩
  | cons d D ih =>
    intro acc h1 h2
    rw [List.foldl_cons]
    obtain ⟨h1', h2'⟩ := discStep_inv t cur0 acc d h1 h2
    exact ih _ h1' h2'

theorem upsertStep_inv (t : String) (cur0 : List CurRow) (acc : EtlState × Stats) (s : SnapRow)
    (h1 : (acc.1.current.map (·.product_id)).Nodup)
    (h2 : ∀ r ∈ acc.1.current, r.product_id < acc.1.nextId) :
    ((upsertStep t cur0 acc s).1.current.map (·.product_id)).Nodup ∧
      ∀ r ∈ (upsertStep t cur0 acc s).1.current,
        r.product_id < (upsertStep t cur0 acc s).1.nextId := by
  unfold upsertStep
  split
  · exact snoc_new_inv acc.1.current acc.1.nextId t s h1 h2
  · split
    · exact ⟨h1, h2⟩
    · obtain ⟨c1, c2⟩ := closeMap_inv t s.product_hash acc.1.current acc.1.nextId h1 h2
      exact snoc_new_inv (acc.1.current.map (closeIfHash t s.product_hash))
        acc.1.nextId t s c1 c2

theorem upsertFold_inv (t : String) (cur0 : List CurRow) (S : List SnapRow) :
    ∀ acc : EtlState × Stats, (acc.1.current.map (·.product_id)).Nodup →
      (∀ r ∈ acc.1.current, r.product_id < acc.1.nextId) →
      ((S.foldl (upsertStep t cur0) acc).1.current.map (·.product_id)).Nodup ∧
        ∀ r ∈ (S.foldl (upsertStep t cur0) acc).1.current,
          r.product_id < (S.foldl (upsertStep t cur0) acc).1.nextId := by
  induction S with
  | nil => intro acc h1 h2; exact ⟨h1, h2⟩
  | cons s S ih =>
    intro acc h1 h2
    rw [List.foldl_cons]
    obtain ⟨h1', h2'⟩ := upsertStep_inv t cur0 acc s h1 h2
    exact ih _ h1' h2'

theorem scd2_preGuard_nodup (snapshot : List SnapRow) (st : EtlState) (t : String)
    (h1 : (st.current.map (·.product_id)).Nodup)
    (h2 : ∀ r ∈ st.current, r.product_id < st.nextId) :
    ((scd2_preGuard snapshot st t).1.current.map (·.product_id)).Nodup := by
  unfold scd2_preGuard
  obtain ⟨d1, d2⟩ := discFold_inv t st.current _ (st, stats0) h1 h2
  exact (upsertFold_inv t st.current snapshot _ d1 d2).1

theorem getLast?_isSome_of_ne_nil {α : Type} (l : List α) (h : l ≠ []) :
    l.getLast?.isSome = true := by
  cases hg : l.getLast? with
  | none => exact absurd (getLast?_none l hg) h
  | some a => rfl

theorem mem_uniqFirst_active (rows : List CurRow) (h : String) :
    h ∈ uniqFirst ((rows.filter (·.is_active)).map (·.product_hash)) ↔
      actH rows h ≠ [] := by
  constructor
  · intro hm
    rw [uniqFirst_mem_iff, List.mem_map] at hm
    obtain ⟨r, hr, hh⟩ := hm
    rw [List.mem_filter] at hr
    intro hnil
    have : r ∈ actH rows h := (mem_actH rows h r).mpr ⟨hr.1, by simpa using hr.2, hh⟩
    rw [hnil] at this
    cases this
  · intro hne
    rcases hact : actH rows h with _ | ⟨r, rest⟩
    · exact absurd hact hne
    · exact actH_nonempty_mem_dup rows h (by rw [hact]; simp)

theorem discHashes_mem_iff (cur0 : List CurRow) (snaps : List String) (h : String) :
    h ∈ discHashes cur0 snaps ↔ actH cur0 h ≠ [] ∧ h ∉ snaps := by
  unfold discHashes
  rw [List.mem_filter, mem_uniqFirst_active]
  constructor
  · rintro ⟨h1, h2⟩
    refine ⟨h1, ?_⟩
    intro hmem
    have hc : snaps.contains h = true := List.elem_eq_true_of_mem hmem
    rw [hc] at h2
    cases h2
  · rintro ⟨h1, h2⟩
    refine ⟨h1, ?_⟩
    cases hc : snaps.contains h
    · rfl
    · exact absurd (List.mem_of_elem_eq_true hc) h2

theorem discHashes_nodup (cur0 : List CurRow) (snaps : List String) :
    (discHashes cur0 snaps).Nodup :=
  List.Nodup.filter _ (uniqFirst_nodup _)

theorem discHashes_isSome (cur0 : List CurRow) (snaps : List String) (h : String)
    (hm : h ∈ discHashes cur0 snaps) : (curMapGet cur0 h).isSome = true := by
  have hne := ((discHashes_mem_iff cur0 snaps h).mp hm).1
  unfold curMapGet
  exact getLast?_isSome_of_ne_nil _ hne

theorem discStep_some (t : String) (cur0 : List CurRow) (acc : EtlState × Stats)
    (ph : String) (row : CurRow) (hc : curMapGet cur0 ph = some row) :
    (discStep t cur0 acc ph).1.current = acc.1.current.map (closeIfHash t ph) ∧
    (discStep t cur0 acc ph).1.changes = acc.1.changes ++
      [⟨none, ph, "discontinued", .note "no longer present in latest snapshot", t⟩] ∧
    (discStep t cur0 acc ph).1.history = acc.1.history ++ [histOf t row] := by
  unfold discStep
  rw [hc]
  exact ⟨rfl, rfl, rfl⟩

theorem closeIfHash_preserves_empty (t ph h : String) (rs : List CurRow)
    (he : actH rs h = []) : actH (rs.map (closeIfHash t ph)) h = [] := by
  by_cases hph : h = ph
  · subst hph
    exact actH_map_closeIfHash_own t h rs
  · rw [actH_map_closeIfHash_other t ph h rs hph]
    exact he

theorem discStep_actH_empty (t : String) (cur0 : List CurRow) (acc : EtlState × Stats)
    (ph h : String) (he : actH acc.1.current h = []) :
    actH (discStep t cur0 acc ph).1.current h = [] := by
  unfold discStep
  cases hc : curMapGet cur0 ph with
  | none => exact he
  | some row => exact closeIfHash_preserves_empty t ph h acc.1.current he

theorem discStep_actH_other (t : String) (cur0 : List CurRow) (acc : EtlState × Stats)
    (ph h : String) (hne : h ≠ ph) :
    actH (discStep t cur0 acc ph).1.current h = actH acc.1.current h := by
  unfold discStep
  cases hc : curMapGet cur0 ph with
  | none => rfl
  | some row => exact actH_map_closeIfHash_other t ph h acc.1.current hne

theorem discFold_actH_empty (t : String) (cur0 : List CurRow) (D : List String) :
    ∀ (acc : EtlState × Stats) (h : String), actH acc.1.current h = [] →
      actH (D.foldl (discStep t cur0) acc).1.current h = [] := by
  induction D with
  | nil => intro acc h he; exact he
  | cons d D ih =>
    intro acc h he
    rw [List.foldl_cons]
    exact ih _ h (discStep_actH_empty t cur0 acc d h he)

theorem discFold_actH_other (t : String) (cur0 : List CurRow) (D : List String) :
    ∀ (acc : EtlState × Stats) (h : String), h ∉ D →
      actH (D.foldl (discStep t cur0) acc).1.current h = actH acc.1.current h := by
  induction D with
  | nil => intro acc h _; rfl
  | cons d D ih =>
    intro acc h hm
    rw [List.foldl_cons, ih _ h (fun hh => hm (List.mem_cons_of_mem _ hh))]
    exact discStep_actH_other t cur0 acc d h (fun hh => hm (hh ▸ List.mem_cons_self _ _))

theorem discFold_closes (t : String) (cur0 : List CurRow) (D : List String) :
    ∀ (acc : EtlState × Stats) (h : String),
      (∀ h' ∈ D, (curMapGet cur0 h').isSome = true) → h ∈ D →
      actH (D.foldl (discStep t cur0) acc).1.current h = [] := by
  induction D with
  | nil => intro acc h _ hm; cases hm
  | cons d D ih =>
    intro acc h hsome hm
    rw [List.foldl_cons]
    rcases List.mem_cons.mp hm with rfl | hm
    · apply discFold_actH_empty t cur0 D
      obtain ⟨row, hrow⟩ := Option.isSome_iff_exists.mp (hsome h (List.mem_cons_self _ _))
      rw [(discStep_some t cur0 acc h row hrow).1]
      exact actH_map_closeIfHash_own t h acc.1.current
    · exact ih _ h (fun h' hh => hsome h' (List.mem_cons_of_mem _ hh)) hm

theorem discFold_changes (t : String) (cur0 : List CurRow) (D : List String) :
    ∀ acc : EtlState × Stats, (∀ h ∈ D, (curMapGet cur0 h).isSome = true) →
      (D.foldl (discStep t cur0) acc).1.changes = acc.1.changes ++
        D.map (fun h =>
          (⟨none, h, "discontinued", .note "no longer present in latest snapshot", t⟩ :
            ChangeRec)) := by
  induction D with
  | nil => intro acc _; simp
  | cons d D ih =>
    intro acc hsome
    rw [List.foldl_cons, ih _ (fun h hh => hsome h (List.mem_cons_of_mem _ hh))]
    obtain ⟨row, hrow⟩ := Option.isSome_iff_exists.mp (hsome d (List.mem_cons_self _ _))
    rw [(discStep_some t cur0 acc d row hrow).2.1]
    simp

theorem discStep_hist_mono (t : String) (cur0 : List CurRow) (acc : EtlState × Stats)
    (ph : String) (e : HistRow) (he : e ∈ acc.1.history) :
    e ∈ (discStep t cur0 acc ph).1.history := by
  unfold discStep
  cases hc : curMapGet cur0 ph with
  | none => exact he
  | some row => exact List.mem_append_left _ he

theorem discFold_hist_mono (t : String) (cur0 : List CurRow) (D : List String) :
    ∀ (acc : EtlState × Stats) (e : HistRow), e ∈ acc.1.history →
      e ∈ (D.foldl (discStep t cur0) acc).1.history := by
  induction D with
  | nil => intro acc e he; exact he
  | cons d D ih =>
    intro acc e he
    rw [List.foldl_cons]
    exact ih _ e (discStep_hist_mono t cur0 acc d e he)

theorem upsertStep_hist_mono (t : String) (cur0 : List CurRow) (acc : EtlState × Stats)
    (s : SnapRow) (e : HistRow) (he : e ∈ acc.1.history) :
    e ∈ (upsertStep t cur0 acc s).1.history := by
  unfold upsertStep
  split
  · exact he
  · split
    · exact he
    · exact List.mem_append_left _ he

theorem upsertFold_hist_mono (t : String) (cur0 : List CurRow) (S : List SnapRow) :
    ∀ (acc : EtlState × Stats) (e : HistRow), e ∈ acc.1.history →
      e ∈ (S.foldl (upsertStep t cur0) acc).1.history := by
  induction S with
  | nil => intro acc e he; exact he
  | cons s S ih =>
    intro acc e he
    rw [List.foldl_cons]
    exact ih _ e (upsertStep_hist_mono t cur0 acc s e he)

theorem discFold_hist (t : String) (cur0 : List CurRow) (D : List String) :
    ∀ acc : EtlState × Stats, ∀ h ∈ D, (∀ h' ∈ D, (curMapGet cur0 h').isSome = true) →
      ∃ row, curMapGet cur0 h = some row ∧
        histOf t row ∈ (D.foldl (discStep t cur0) acc).1.history := by
  induction D with
  | nil => intro acc h hm _; cases hm
  | cons d D ih =>
    intro acc h hm hsome
    rw [List.foldl_cons]
    rcases List.mem_cons.mp hm with rfl | hm
    · obtain ⟨row, hrow⟩ := Option.isSome_iff_exists.mp (hsome h (List.mem_cons_self _ _))
      refine ⟨row, hrow, ?_⟩
      apply discFold_hist_mono
      rw [(discStep_some t cur0 acc h row hrow).2.2]
      exact List.mem_append_right _ (List.mem_singleton.mpr rfl)
    · exact ih _ h hm (fun h' hh => hsome h' (List.mem_cons_of_mem _ hh))

theorem classifyChange_cases (ch : List (String × Option String × Option String)) :
    classifyChange ch = "price_update" ∨ classifyChange ch = "attribute_update" := by
  unfold classifyChange
  split
  · exact Or.inl rfl
  · exact Or.inr rfl

theorem upsertStep_changes (t : String) (cur0 : List CurRow) (acc : EtlState × Stats)
    (s : SnapRow) :
    ∃ l, (upsertStep t cur0 acc s).1.changes = acc.1.changes ++ l ∧
      ∀ e ∈ l, e.change_type = "new" ∨ e.change_type = "price_update" ∨
        e.change_type = "attribute_update" := by
  unfold upsertStep
  split
  · refine ⟨[⟨none, s.product_hash, "new", .newPrice s.price_raw, t⟩], rfl, ?_⟩
    intro e he
    rw [List.mem_singleton] at he
    subst he
    exact Or.inl rfl
  · rename_i cur_row heq
    split
    · exact ⟨[], (List.append_nil _).symm, by intro e he; cases he⟩
    · refine ⟨[⟨none, s.product_hash, classifyChange (changedOf s cur_row),
        .diff (changedOf s cur_row), t⟩], rfl, ?_⟩
      intro e he
      rw [List.mem_singleton] at he
      subst he
      rcases classifyChange_cases (changedOf s cur_row) with hc | hc
      · exact Or.inr (Or.inl hc)
      · exact Or.inr (Or.inr hc)

theorem upsertFold_changes (t : String) (cur0 : List CurRow) (S : List SnapRow) :
    ∀ acc : EtlState × Stats, ∃ l, (S.foldl (upsertStep t cur0) acc).1.changes =
        acc.1.changes ++ l ∧
      ∀ e ∈ l, e.change_type = "new" ∨ e.change_type = "price_update" ∨
        e.change_type = "attribute_update" := by
  induction S with
  | nil => intro acc; exact ⟨[], (List.append_nil _).symm, by intro e he; cases he⟩
  | cons s S ih =>
    intro acc
    rw [List.foldl_cons]
    obtain ⟨l1, hl1, hp1⟩ := upsertStep_changes t cur0 acc s
    obtain ⟨l2, hl2, hp2⟩ := ih (upsertStep t cur0 acc s)
    refine ⟨l1 ++ l2, ?_, ?_⟩
    · rw [hl2, hl1, List.append_assoc]
    · intro e he
      rcases List.mem_append.mp he with hin | hin
      · exact hp1 e hin
      · exact hp2 e hin

theorem mem_fold_diff (l : List (String × (SnapRow → Option String) × (CurRow → Option String)))
    (s : SnapRow) (c : CurRow) (e : String × Option String × Option String) :
    e ∈ l.foldr (fun a acc => diffCol a.1 (a.2.2 c) (a.2.1 s) ++ acc) [] ↔
      ∃ a ∈ l, normV (a.2.1 s) ≠ normV (a.2.2 c) ∧ e = (a.1, a.2.2 c, a.2.1 s) := by
  induction l with
  | nil => simp
  | cons a l ih =>
    rw [List.foldr_cons, List.mem_append, ih]
    constructor
    · rintro (hd | ⟨b, hb, hne, rfl⟩)
      · unfold diffCol at hd
        split at hd
        · rename_i hcond
          rw [List.mem_singleton] at hd
          exact ⟨a, List.mem_cons_self _ _, hcond, hd⟩
        · cases hd
      · exact ⟨b, List.mem_cons_of_mem _ hb, hne, rfl⟩
    · rintro ⟨b, hb, hne, rfl⟩
      rcases List.mem_cons.mp hb with rfl | hb
      · left
        unfold diffCol
        rw [if_pos hne]
        exact List.mem_singleton.mpr rfl
      · right
        exact ⟨b, hb, hne, rfl⟩

theorem mem_changedOf (s : SnapRow) (c : CurRow) (e : String × Option String × Option String) :
    e ∈ changedOf s c ↔ ∃ a ∈ trackedAccessors,
      normV (a.2.1 s) ≠ normV (a.2.2 c) ∧ e = (a.1, a.2.2 c, a.2.1 s) := by
  unfold changedOf
  exact mem_fold_diff trackedAccessors s c e

theorem changedOf_eq (s : SnapRow) (c : CurRow) :
    changedOf s c =
      diffCol "product_name" c.product_name (some s.product_name) ++
      (diffCol "brand" c.brand s.brand ++
      (diffCol "series" c.series s.series ++
      (diffCol "processor_detail" c.processor_detail s.processor_detail ++
      (diffCol "processor_category" c.processor_category s.processor_category ++
      (diffCol "gpu" c.gpu s.gpu ++
      (diffCol "gpu_category" c.gpu_category s.gpu_category ++
      (diffCol "ram" c.ram s.ram ++
      (diffCol "storage" c.storage s.storage ++
      (diffCol "display" c.display s.display ++
      (diffCol "price_raw" (c.price_raw.map toString) (s.price_raw.map toString) ++
        [])))))))))) := rfl

theorem diffCol_eq_nil_iff (n : String) (cv sv : Option String) :
    diffCol n cv sv = [] ↔ normV sv = normV cv := by
  unfold diffCol
  split
  · rename_i hne
    constructor
    · intro h; cases h
    · intro h; exact absurd h hne
  · rename_i hnn
    rw [not_not] at hnn
    exact ⟨fun _ => hnn, fun _ => rfl⟩

theorem diffCol_len_zero (n : String) (cv sv : Option String)
    (h : (diffCol n cv sv).length = 0) : normV sv = normV cv :=
  (diffCol_eq_nil_iff n cv sv).mp (List.length_eq_zero.mp h)

theorem diffCol_any_name (n m : String) (cv sv : Option String)
    (h : (diffCol n cv sv).any (fun e => e.1 == m) = true) :
    n = m ∧ normV sv ≠ normV cv := by
  unfold diffCol at h
  split at h
  · rename_i hne
    simp at h
    exact ⟨h, hne⟩
  · simp at h

theorem classify_price_iff (s : SnapRow) (c : CurRow) :
    classifyChange (changedOf s c) = "price_update" ↔
      (normV (s.price_raw.map toString) ≠ normV (c.price_raw.map toString) ∧
       normV (some s.product_name) = normV c.product_name ∧
       normV s.brand = normV c.brand ∧
       normV s.series = normV c.series ∧
       normV s.processor_detail = normV c.processor_detail ∧
       normV s.processor_category = normV c.processor_category ∧
       normV s.gpu = normV c.gpu ∧
       normV s.gpu_category = normV c.gpu_category ∧
       normV s.ram = normV c.ram ∧
       normV s.storage = normV c.storage ∧
       normV s.display = normV c.display) := by
  constructor
  · intro hcl
    by_cases hcond : ((changedOf s c).any (fun e => e.1 == "price_raw") &&
        (changedOf s c).length == 1) = true
    swap
    · exfalso
      unfold classifyChange at hcl
      rw [if_neg hcond] at hcl
      exact absurd hcl (by decide)
    rw [Bool.and_eq_true] at hcond
    obtain ⟨hany, hlen⟩ := hcond
    have hlen1 : (changedOf s c).length = 1 := by simpa using hlen
    rw [changedOf_eq] at hany hlen1
    simp only [List.any_append, Bool.or_eq_true, List.any_nil] at hany
    have hp : normV (s.price_raw.map toString) ≠ normV (c.price_raw.map toString) := by
      rcases hany with h | h | h | h | h | h | h | h | h | h | h | h
      · exact absurd (diffCol_any_name _ _ _ _ h).1 (by decide)
      · exact absurd (diffCol_any_name _ _ _ _ h).1 (by decide)
      · exact absurd (diffCol_any_name _ _ _ _ h).1 (by decide)
      · exact absurd (diffCol_any_name _ _ _ _ h).1 (by decide)
      · exact absurd (diffCol_any_name _ _ _ _ h).1 (by decide)
      · exact absurd (diffCol_any_name _ _ _ _ h).1 (by decide)
      · exact absurd (diffCol_any_name _ _ _ _ h).1 (by decide)
      · exact absurd (diffCol_any_name _ _ _ _ h).1 (by decide)
      · exact absurd (diffCol_any_name _ _ _ _ h).1 (by decide)
      · exact absurd (diffCol_any_name _ _ _ _ h).1 (by decide)
      · exact (diffCol_any_name _ _ _ _ h).2
      · cases h
    have h11 : (diffCol "price_raw" (c.price_raw.map toString)
        (s.price_raw.map toString)).length = 1 := by
      unfold diffCol
      rw [if_pos hp]
      rfl
    simp only [List.length_append, List.length_nil] at hlen1
    exact ⟨hp, diffCol_len_zero "product_name" _ _ (by omega),
      diffCol_len_zero "brand" _ _ (by omega),
      diffCol_len_zero "series" _ _ (by omega),
      diffCol_len_zero "processor_detail" _ _ (by omega),
      diffCol_len_zero "processor_category" _ _ (by omega),
      diffCol_len_zero "gpu" _ _ (by omega),
      diffCol_len_zero "gpu_category" _ _ (by omega),
      diffCol_len_zero "ram" _ _ (by omega),
      diffCol_len_zero "storage" _ _ (by omega),
      diffCol_len_zero "display" _ _ (by omega)⟩
  · rintro ⟨hp, h1, h2, h3, h4, h5, h6, h7, h8, h9, h10⟩
    have hch : changedOf s c =
        [("price_raw", c.price_raw.map toString, s.price_raw.map toString)] := by
      rw [changedOf_eq, (diffCol_eq_nil_iff _ _ _).mpr h1, (diffCol_eq_nil_iff _ _ _).mpr h2,
        (diffCol_eq_nil_iff _ _ _).mpr h3, (diffCol_eq_nil_iff _ _ _).mpr h4,
        (diffCol_eq_nil_iff _ _ _).mpr h5, (diffCol_eq_nil_iff _ _ _).mpr h6,
        (diffCol_eq_nil_iff _ _ _).mpr h7, (diffCol_eq_nil_iff _ _ _).mpr h8,
        (diffCol_eq_nil_iff _ _ _).mpr h9, (diffCol_eq_nil_iff _ _ _).mpr h10]
      unfold diffCol
      rw [if_pos hp]
      simp
    rw [hch]
    rfl

theorem pairwise_hash_le_one (rows : List CurRow)
    (hp : (rows.filter (·.is_active)).Pairwise fun a b => a.product_hash ≠ b.product_hash)
    (h : String) : (actH rows h).length ≤ 1 := by
  have hsub : actH rows h =
      (rows.filter (·.is_active)).filter (fun r => r.product_hash == h) := by
    unfold actH
    rw [List.filter_filter]
    apply List.filter_congr
    intro r _
    exact Bool.and_comm _ _
  have hpf : ((rows.filter (·.is_active)).filter
      (fun r => r.product_hash == h)).Pairwise
        (fun a b => a.product_hash ≠ b.product_hash) := hp.filter _
  rw [hsub]
  cases hlf : (rows.filter (·.is_active)).filter (fun r => r.product_hash == h) with
  | nil => simp
  | cons a tl =>
    cases tl with
    | nil => simp
    | cons b tl2 =>
      exfalso
      rw [hlf] at hpf
      have hab : a.product_hash ≠ b.product_hash :=
        (List.pairwise_cons.mp hpf).1 b (List.mem_cons_self _ _)
      have ha : a ∈ (rows.filter (·.is_active)).filter (fun r => r.product_hash == h) := by
        rw [hlf]; exact List.mem_cons_self _ _
      have hb : b ∈ (rows.filter (·.is_active)).filter (fun r => r.product_hash == h) := by
        rw [hlf]; exact List.mem_cons_of_mem _ (List.mem_cons_self _ _)
      have ha' : a.product_hash = h := by simpa using List.of_mem_filter ha
      have hb' : b.product_hash = h := by simpa using List.of_mem_filter hb
      rw [ha', hb'] at hab
      exact hab rfl

theorem actH_mk_self (id : Nat) (t : String) (s : SnapRow) :
    actH [mkCurRow id t s] s.product_hash = [mkCurRow id t s] := by
  unfold actH
  rw [List.filter_singleton]
  have hcond : ((mkCurRow id t s).is_active &&
      (mkCurRow id t s).product_hash == s.product_hash) = true := by
    show (true && s.product_hash == s.product_hash) = true
    simp
  rw [hcond]
  rfl

theorem actH_mk_other (id : Nat) (t : String) (s : SnapRow) (h : String)
    (hne : h ≠ s.product_hash) : actH [mkCurRow id t s] h = [] := by
  unfold actH
  rw [List.filter_singleton]
  have hcond : ((mkCurRow id t s).is_active &&
      (mkCurRow id t s).product_hash == h) = false := by
    show (true && s.product_hash == h) = false
    simp
    exact fun hh => hne hh.symm
  rw [hcond]
  rfl

theorem changedOf_mkCurRow (id : Nat) (t : String) (s : SnapRow) :
    changedOf s (mkCurRow id t s) = [] := by
  rw [changedOf_eq,
    (diffCol_eq_nil_iff "product_name" (mkCurRow id t s).product_name
      (some s.product_name)).mpr rfl,
    (diffCol_eq_nil_iff "brand" (mkCurRow id t s).brand s.brand).mpr rfl,
    (diffCol_eq_nil_iff "series" (mkCurRow id t s).series s.series).mpr rfl,
    (diffCol_eq_nil_iff "processor_detail" (mkCurRow id t s).processor_detail
      s.processor_detail).mpr rfl,
    (diffCol_eq_nil_iff "processor_category" (mkCurRow id t s).processor_category
      s.processor_category).mpr rfl,
    (diffCol_eq_nil_iff "gpu" (mkCurRow id t s).gpu s.gpu).mpr rfl,
    (diffCol_eq_nil_iff "gpu_category" (mkCurRow id t s).gpu_category
      s.gpu_category).mpr rfl,
    (diffCol_eq_nil_iff "ram" (mkCurRow id t s).ram s.ram).mpr rfl,
    (diffCol_eq_nil_iff "storage" (mkCurRow id t s).storage s.storage).mpr rfl,
    (diffCol_eq_nil_iff "display" (mkCurRow id t s).display s.display).mpr rfl,
    (diffCol_eq_nil_iff "price_raw" ((mkCurRow id t s).price_raw.map toString)
      (s.price_raw.map toString)).mpr rfl]
  rfl

theorem curMapGet_none_actH (rows : List CurRow) (h : String)
    (hc : curMapGet rows h = none) : actH rows h = [] := by
  unfold curMapGet at hc
  exact getLast?_none _ hc

theorem curMapGet_some_actH (rows : List CurRow) (h : String) (c : CurRow)
    (hle : (actH rows h).length ≤ 1) (hc : curMapGet rows h = some c) :
    actH rows h = [c] := by
  unfold curMapGet at hc
  exact getLast?_singleton _ c hle hc

theorem upsertStep_actH_own (t : String) (cur0 : List CurRow) (acc : EtlState × Stats)
    (s : SnapRow) (hacc : actH acc.1.current s.product_hash = actH cur0 s.product_hash)
    (hle : (actH cur0 s.product_hash).length ≤ 1) :
    ∃ c, actH (upsertStep t cur0 acc s).1.current s.product_hash = [c] ∧
      changedOf s c = [] := by
  unfold upsertStep
  cases hc : curMapGet cur0 s.product_hash with
  | none =>
    have hnil : actH cur0 s.product_hash = [] := curMapGet_none_actH cur0 _ hc
    refine ⟨mkCurRow acc.1.nextId t s, ?_, changedOf_mkCurRow _ _ _⟩
    show actH (acc.1.current ++ [mkCurRow acc.1.nextId t s]) s.product_hash = _
    rw [actH_append, hacc, hnil, actH_mk_self, List.nil_append]
  | some c0 =>
    dsimp only
    by_cases hch : (changedOf s c0).isEmpty = true
    · rw [if_pos hch]
      refine ⟨c0, ?_, List.isEmpty_iff.mp hch⟩
      show actH acc.1.current s.product_hash = [c0]
      rw [hacc]
      exact curMapGet_some_actH cur0 _ c0 hle hc
    · rw [if_neg hch]
      refine ⟨mkCurRow acc.1.nextId t s, ?_, changedOf_mkCurRow _ _ _⟩
      show actH ((acc.1.current.map (closeIfHash t s.product_hash)) ++
        [mkCurRow acc.1.nextId t s]) s.product_hash = _
      rw [actH_append, actH_map_closeIfHash_own, actH_mk_self, List.nil_append]

theorem upsertStep_actH_other (t : String) (cur0 : List CurRow) (acc : EtlState × Stats)
    (s : SnapRow) (h : String) (hne : h ≠ s.product_hash) :
    actH (upsertStep t cur0 acc s).1.current h = actH acc.1.current h := by
  unfold upsertStep
  split
  · show actH (acc.1.current ++ [mkCurRow acc.1.nextId t s]) h = _
    rw [actH_append, actH_mk_other _ _ _ _ hne, List.append_nil]
  · split
    · rfl
    · show actH ((acc.1.current.map (closeIfHash t s.product_hash)) ++
        [mkCurRow acc.1.nextId t s]) h = _
      rw [actH_append, actH_mk_other _ _ _ _ hne, List.append_nil,
        actH_map_closeIfHash_other t s.product_hash h _ hne]

theorem upsertFold_post (t : String) (cur0 : List CurRow)
    (hle : ∀ h, (actH cur0 h).length ≤ 1) :
    ∀ (S : List SnapRow) (acc : EtlState × Stats),
      (S.map (·.product_hash)).Nodup →
      (∀ s ∈ S, actH acc.1.current s.product_hash = actH cur0 s.product_hash) →
      (∀ s ∈ S, ∃ c,
        actH (S.foldl (upsertStep t cur0) acc).1.current s.product_hash = [c] ∧
        changedOf s c = []) ∧
      (∀ h, h ∉ S.map (·.product_hash) →
        actH (S.foldl (upsertStep t cur0) acc).1.current h = actH acc.1.current h) := by
  intro S
  induction S with
  | nil =>
    intro acc _ _
    refine ⟨?_, ?_⟩
    · intro s hs; cases hs
    · intro h _; rfl
  | cons s S ih =>
    intro acc hnd hacc
    rw [List.map_cons, List.nodup_cons] at hnd
    obtain ⟨hs_not, hnd'⟩ := hnd
    rw [List.foldl_cons]
    have hothers : ∀ s' ∈ S,
        actH (upsertStep t cur0 acc s).1.current s'.product_hash =
          actH cur0 s'.product_hash := by
      intro s' hs'
      have hneq : s'.product_hash ≠ s.product_hash := by
        intro hh
        exact hs_not (hh ▸ List.mem_map_of_mem _ hs')
      rw [upsertStep_actH_other t cur0 acc s _ hneq]
      exact hacc s' (List.mem_cons_of_mem _ hs')
    obtain ⟨ihA, ihB⟩ := ih (upsertStep t cur0 acc s) hnd' hothers
    constructor
    · intro s0 hs0
      rcases List.mem_cons.mp hs0 with rfl | hs0
      · obtain ⟨c, hc1, hc2⟩ := upsertStep_actH_own t cur0 acc s0
          (hacc s0 (List.mem_cons_self _ _)) (hle _)
        refine ⟨c, ?_, hc2⟩
        rw [ihB s0.product_hash hs_not]
        exact hc1
      · exact ihA s0 hs0
    · intro h hh
      have h1 : h ∉ S.map (·.product_hash) := fun hx => hh (List.mem_cons_of_mem _ hx)
      have h2 : h ≠ s.product_hash := fun hx => hh (hx ▸ List.mem_cons_self _ _)
      rw [ihB h h1, upsertStep_actH_other t cur0 acc s h h2]

theorem upsertStep_unchanged (t : String) (cur0 : List CurRow) (acc : EtlState × Stats)
    (s : SnapRow) (c : CurRow) (hc : curMapGet cur0 s.product_hash = some c)
    (hch : changedOf s c = []) :
    upsertStep t cur0 acc s = (acc.1, { acc.2 with unchanged := acc.2.unchanged + 1 }) := by
  unfold upsertStep
  rw [hc]
  dsimp only
  rw [if_pos (by rw [hch]; rfl)]

theorem upsertFold_unchanged (t : String) (cur0 : List CurRow) :
    ∀ (S : List SnapRow) (acc : EtlState × Stats),
      (∀ s ∈ S, ∃ c, curMapGet cur0 s.product_hash = some c ∧ changedOf s c = []) →
      S.foldl (upsertStep t cur0) acc =
        (acc.1, { acc.2 with unchanged := acc.2.unchanged + S.length }) := by
  intro S
  induction S with
  | nil =>
    intro acc _
    rw [List.foldl_nil]
    show (acc.1, acc.2) = _
    simp
  | cons s S ih =>
    intro acc hall
    obtain ⟨c, hc, hch⟩ := hall s (List.mem_cons_self _ _)
    rw [List.foldl_cons, upsertStep_unchanged t cur0 acc s c hc hch,
      ih _ (fun s' hs' => hall s' (List.mem_cons_of_mem _ hs'))]
    show (acc.1, { acc.2 with unchanged := acc.2.unchanged + 1 + S.length }) =
      (acc.1, { acc.2 with unchanged := acc.2.unchanged + (S.length + 1) })
    have harith : acc.2.unchanged + 1 + S.length = acc.2.unchanged + (S.length + 1) := by
      omega
    rw [harith]

theorem scd2_second_pass (snapshot : List SnapRow) (st1 : EtlState) (t : String)
    (hA : ∀ s ∈ snapshot, ∃ c, actH st1.current s.product_hash = [c] ∧ changedOf s c = [])
    (hB : ∀ h, h ∉ snapshot.map (·.product_hash) → actH st1.current h = []) :
    scd2_apply snapshot st1 t = (st1, { stats0 with unchanged := snapshot.length }) := by
  have hD : discHashes st1.current (snapshot.map (·.product_hash)) = [] := by
    rw [List.eq_nil_iff_forall_not_mem]
    intro h hm
    obtain ⟨hne, hnot⟩ := (discHashes_mem_iff _ _ h).mp hm
    exact hne (hB h hnot)
  have hAm : ∀ s ∈ snapshot, ∃ c,
      curMapGet st1.current s.product_hash = some c ∧ changedOf s c = [] := by
    intro s hs
    obtain ⟨c, hc1, hc2⟩ := hA s hs
    refine ⟨c, ?_, hc2⟩
    unfold curMapGet
    rw [hc1]
    rfl
  have hpre : scd2_preGuard snapshot st1 t =
      (st1, { stats0 with unchanged := stats0.unchanged + snapshot.length }) := by
    unfold scd2_preGuard
    rw [hD, List.foldl_nil]
    exact upsertFold_unchanged t st1.current snapshot (st1, stats0) hAm
  have hle : ∀ h, (actH st1.current h).length ≤ 1 := by
    intro h
    by_cases hm : h ∈ snapshot.map (·.product_hash)
    · obtain ⟨s, hs, rfl⟩ := List.mem_map.mp hm
      obtain ⟨c, hc1, _⟩ := hA s hs
      rw [hc1]
      simp
    · rw [hB h hm]
      simp
  unfold scd2_apply
  rw [hpre]
  show ({ st1 with current := guardPass t st1.current },
    { stats0 with unchanged := stats0.unchanged + snapshot.length }) = _
  rw [guardPass_identity t st1.current hle]
  show (st1, { stats0 with unchanged := 0 + snapshot.length }) =
    (st1, { stats0 with unchanged := snapshot.length })
  rw [Nat.zero_add]

theorem scd2_pass1_post (snapshot : List SnapRow) (st : EtlState) (t : String)
    (hle : ∀ h, (actH st.current h).length ≤ 1)
    (hsnd : (snapshot.map (·.product_hash)).Nodup) :
    (∀ s ∈ snapshot, ∃ c,
      actH (scd2_apply snapshot st t).1.current s.product_hash = [c] ∧
      changedOf s c = []) ∧
    (∀ h, h ∉ snapshot.map (·.product_hash) →
      actH (scd2_apply snapshot st t).1.current h = []) := by
  have hsome : ∀ h ∈ discHashes st.current (snapshot.map (·.product_hash)),
      (curMapGet st.current h).isSome = true :=
    fun h hh => discHashes_isSome st.current _ h hh
  have hd_snap : ∀ s ∈ snapshot,
      actH ((discHashes st.current (snapshot.map (·.product_hash))).foldl
        (discStep t st.current) (st, stats0)).1.current s.product_hash =
      actH st.current s.product_hash := by
    intro s hs
    apply discFold_actH_other
    intro hmem
    exact ((discHashes_mem_iff _ _ _).mp hmem).2 (List.mem_map_of_mem _ hs)
  have hd_non : ∀ h, h ∉ snapshot.map (·.product_hash) →
      actH ((discHashes st.current (snapshot.map (·.product_hash))).foldl
        (discStep t st.current) (st, stats0)).1.current h = [] := by
    intro h hnot
    by_cases hmem : h ∈ discHashes st.current (snapshot.map (·.product_hash))
    · exact discFold_closes t st.current _ (st, stats0) h hsome hmem
    · have hnil : actH st.current h = [] := by
        by_contra hne
        exact hmem ((discHashes_mem_iff _ _ h).mpr ⟨hne, hnot⟩)
      exact discFold_actH_empty t st.current _ (st, stats0) h hnil
  obtain ⟨pA, pB⟩ := upsertFold_post t st.current hle snapshot
    ((discHashes st.current (snapshot.map (·.product_hash))).foldl
      (discStep t st.current) (st, stats0)) hsnd hd_snap
  have hle_pre : ∀ h, (actH (scd2_preGuard snapshot st t).1.current h).length ≤ 1 := by
    intro h
    by_cases hm : h ∈ snapshot.map (·.product_hash)
    · obtain ⟨s, hs, rfl⟩ := List.mem_map.mp hm
      obtain ⟨c, hc1, _⟩ := pA s hs
      show (actH (snapshot.foldl (upsertStep t st.current) _).1.current _).length ≤ 1
      rw [hc1]
      simp
    · show (actH (snapshot.foldl (upsertStep t st.current) _).1.current _).length ≤ 1
      rw [pB h hm, hd_non h hm]
      simp
  have hcur : (scd2_apply snapshot st t).1.current =
      (scd2_preGuard snapshot st t).1.current := by
    show guardPass t (scd2_preGuard snapshot st t).1.current = _
    exact guardPass_identity t _ hle_pre
  constructor
  · intro s hs
    obtain ⟨c, hc1, hc2⟩ := pA s hs
    refine ⟨c, ?_, hc2⟩
    rw [hcur]
    exact hc1
  · intro h hm
    rw [hcur]
    show actH (snapshot.foldl (upsertStep t st.current) _).1.current _ = []
    rw [pB h hm]
    exact hd_non h hm

theorem snapLe_total (a b : SnapBase) : snapLe a b = true ∨ snapLe b a = true := by
  unfold snapLe
  rcases lt_trichotomy a.product_hash b.product_hash with h | h | h
  · left; simp [h]
  · rcases Nat.le_total b.scraped_at a.scraped_at with hs | hs
    · left; simp [h, hs]
    · right; simp [h.symm, hs]
  · right; simp [h]

theorem snapLe_trans (a b c : SnapBase) (hab : snapLe a b = true)
    (hbc : snapLe b c = true) : snapLe a c = true := by
  unfold snapLe at *
  simp only [Bool.or_eq_true, decide_eq_true_eq, Bool.and_eq_true, beq_iff_eq,
    decide_eq_true_eq] at *
  rcases hab with h1 | ⟨h1, h1'⟩ <;> rcases hbc with h2 | ⟨h2, h2'⟩
  · left; exact lt_trans h1 h2
  · left; rw [← h2]; exact h1
  · left; rw [h1]; exact h2
  · right; exact ⟨h1.trans h2, le_trans h2' h1'⟩

theorem groupFirst_shape (l : List SnapBase) (o : SnapBase) (h : o ∈ groupFirst l) :
    ∃ hk base rest, l.filter (fun r => r.product_hash == hk) = base :: rest ∧
      o = { base with raw_id := firstSome (base.raw_id :: rest.map (·.raw_id)) } := by
  unfold groupFirst at h
  rw [List.mem_filterMap] at h
  rcases h with ⟨hk, _, hf⟩
  rcases hl : l.filter (fun r => r.product_hash == hk) with _ | ⟨base, rest⟩ <;> rw [hl] at hf
  · cases hf
  · cases hf
    exact ⟨hk, base, rest, hl, rfl⟩

theorem groupFirst_hashes (l : List SnapBase) :
    (groupFirst l).map (·.product_hash) = uniqFirst (l.map (·.product_hash)) := by
  unfold groupFirst
  have hsub : ∀ hk ∈ uniqFirst (l.map (·.product_hash)), hk ∈ l.map (·.product_hash) :=
    fun hk hh => (uniqFirst_mem_iff _ _).mp hh
  generalize uniqFirst (l.map (·.product_hash)) = K at hsub ⊢
  induction K with
  | nil => rfl
  | cons hk K ih =>
    have hh := hsub hk (List.mem_cons_self _ _)
    rw [List.mem_map] at hh
    rcases hh with ⟨r, hr, hrh⟩
    have hrf : r ∈ l.filter (fun r => r.product_hash == hk) := by
      rw [List.mem_filter]
      exact ⟨hr, by simp [hrh]⟩
    rcases hl : l.filter (fun r => r.product_hash == hk) with _ | ⟨base, rest⟩
    · rw [hl] at hrf
      cases hrf
    · have hbase : base.product_hash = hk := by
        have : base ∈ l.filter (fun r => r.product_hash == hk) := by
          rw [hl]; exact List.mem_cons_self _ _
        rw [List.mem_filter] at this
        simpa using this.2
      rw [List.filterMap_cons, hl]
      simp only [List.map_cons]
      rw [ih (fun x hx => hsub x (List.mem_cons_of_mem _ hx))]
      exact congrArg (· :: K) hbase

/-- **C6** (confirmed).  The snapshot builder emits at most one row per
business key; each surviving row carries the shared `processed_at` stamp, a
non-blank name, and the name/price/timestamp of a most-recently-scraped input
record for its key. -/
theorem snapshot_builder_spec (rows : List RawRow) (pa : String) :
    ((prepare_snapshot rows pa).map (·.product_hash)).Nodup ∧
    ∀ o ∈ prepare_snapshot rows pa,
      o.processed_at = pa ∧
      pyStrip o.product_name ≠ "" ∧
      ∃ r ∈ rows,
        o.product_hash = compute_product_hash (some r.product_name) ∧
        o.product_name = r.product_name ∧
        o.price_raw = r.price_raw ∧
        o.scraped_at = r.scraped_at ∧
        ∀ r' ∈ rows, compute_product_hash (some r'.product_name) = o.product_hash →
          r'.scraped_at ≤ r.scraped_at := by
  have hsorted := insSort_pairwise snapLe snapLe_total snapLe_trans
    (rows.map (addHash pa))
  have hperm := insSort_perm snapLe (rows.map (addHash pa))
  constructor
  · have hsub : List.Sublist (prepare_snapshot rows pa)
        (groupFirst (insSort snapLe (rows.map (addHash pa)))) := by
      unfold prepare_snapshot
      exact List.filter_sublist _
    refine List.Nodup.sublist (hsub.map (·.product_hash)) ?_
    rw [groupFirst_hashes]
    exact uniqFirst_nodup _
  · intro o ho
    unfold prepare_snapshot at ho
    rw [List.mem_filter] at ho
    have hname : pyStrip o.product_name ≠ "" := by
      have := ho.2
      simpa using this
    obtain ⟨hk, base, rest, hfil, hoeq⟩ := groupFirst_shape _ _ ho.1
    have hbasemem : base ∈ insSort snapLe (rows.map (addHash pa)) := by
      have : base ∈ (insSort snapLe (rows.map (addHash pa))).filter
          (fun r => r.product_hash == hk) := by
        rw [hfil]; exact List.mem_cons_self _ _
      exact List.mem_of_mem_filter this
    have hbasehk : base.product_hash = hk := by
      have : base ∈ (insSort snapLe (rows.map (addHash pa))).filter
          (fun r => r.product_hash == hk) := by
        rw [hfil]; exact List.mem_cons_self _ _
      rw [List.mem_filter] at this
      simpa using this.2
    have hbdf : base ∈ rows.map (addHash pa) := hperm.mem_iff.mp hbasemem
    rw [List.mem_map] at hbdf
    rcases hbdf with ⟨raw, hraw, hbeq⟩
    have hofields : o.product_name = base.product_name ∧ o.price_raw = base.price_raw ∧
        o.scraped_at = base.scraped_at ∧ o.product_hash = base.product_hash ∧
        o.processed_at = base.processed_at := by
      rw [hoeq]
      exact ⟨rfl, rfl, rfl, rfl, rfl⟩
    refine ⟨?_, hname, raw, hraw, ?_, ?_, ?_, ?_, ?_⟩
    · rw [hofields.2.2.2.2, ← hbeq]; rfl
    · rw [hofields.2.2.2.1, ← hbeq]; rfl
    · rw [hofields.1, ← hbeq]; rfl
    · rw [hofields.2.1, ← hbeq]; rfl
    · rw [hofields.2.2.1, ← hbeq]; rfl
    · intro r' hr' hh'
      have hb' : addHash pa r' ∈ insSort snapLe (rows.map (addHash pa)) :=
        hperm.mem_iff.mpr (List.mem_map_of_mem _ hr')
      have hb'h : (addHash pa r').product_hash = hk := by
        show compute_product_hash (some r'.product_name) = hk
        rw [hh', hofields.2.2.2.1, hbasehk]
      have hb'fil : addHash pa r' ∈ (insSort snapLe (rows.map (addHash pa))).filter
          (fun r => r.product_hash == hk) := by
        rw [List.mem_filter]
        exact ⟨hb', by simp [hb'h]⟩
      rw [hfil] at hb'fil
      have hpw : (base :: rest).Pairwise (fun a b => snapLe a b = true) := by
        rw [← hfil]
        exact hsorted.sublist (List.filter_sublist _)
      have hbs : base.scraped_at = raw.scraped_at := by rw [← hbeq]; rfl
      rcases List.mem_cons.mp hb'fil with heq | hmem
      · have h1 : (addHash pa r').scraped_at = base.scraped_at := by rw [heq]
        exact le_of_eq (h1.trans hbs)
      · have hle := (List.pairwise_cons.mp hpw).1 _ hmem
        unfold snapLe at hle
        simp only [Bool.or_eq_true, decide_eq_true_eq, Bool.and_eq_true, beq_iff_eq,
          decide_eq_true_eq] at hle
        rcases hle with hlt | ⟨_, hsle⟩
        · exfalso
          rw [hbasehk, hb'h] at hlt
          exact lt_irrefl _ hlt
        · rw [← hbs]
          exact hsle

/-! ## Claim theorems -/

/-- **C5** (confirmed).  The business key is total: a missing name hashes as
the empty string, the key is the full SHA-256 hex digest of the UTF-8 bytes of
the normalized (lowercased, stripped, whitespace-collapsed,
punctuation-removed) name, and names with equal normalized forms always
receive equal keys — in particular the two scenario spellings of
"Lenovo IdeaPad Slim 3" normalize identically. -/
theorem business_key_hash_spec :
    (∀ n₁ n₂ : Option String, normalizeName (n₁.getD "") = normalizeName (n₂.getD "") →
      compute_product_hash n₁ = compute_product_hash n₂) ∧
    (∀ n : Option String,
      compute_product_hash n = sha256Hex (utf8Bytes (normalizeName (n.getD "")))) ∧
    compute_product_hash none = compute_product_hash (some "") ∧
    normalizeName "Lenovo IdeaPad Slim 3" = normalizeName "  lenovo   ideapad slim 3  " := by
  have he : ∀ n : Option String,
      compute_product_hash n = sha256Hex (utf8Bytes (normalizeName (n.getD ""))) := by
    intro n
    cases n <;> rfl
  refine ⟨?_, he, rfl, by rfl⟩
  intro n₁ n₂ h
  rw [he n₁, he n₂, h]

theorem business_key_hash_spec_witness :
    compute_product_hash (some "Lenovo IdeaPad Slim 3") =
    compute_product_hash (some "  lenovo   ideapad slim 3  ") :=
  business_key_hash_spec.1 (some "Lenovo IdeaPad Slim 3")
    (some "  lenovo   ideapad slim 3  ") (by rfl)

/-- **C7** counterexample.  The strict tier accepts the unconventional total
12: `extract_ram "RAM 12GB" = "12GB"`, which is neither the sentinel nor
`<n>GB` for any `n` in the conventional progression 2/4/8/16/32/64/128. -/
theorem ram_strict_tier_overbroad :
    extract_ram "RAM 12GB" = "12GB" ∧
    (∀ n ∈ ramCommon, ("12GB" : String) ≠ toString n ++ "GB") ∧
    ("12GB" : String) ≠ "Unknown RAM" := by
  refine ⟨by decide, by decide, by decide⟩

/-- **C7** (amended).  Every non-sentinel result of `extract_ram` is `<n>GB`
with `1 ≤ n ≤ 256` (the strict tier accepts the conventional progression and,
failing that, any total in 1..256); when the strict tier finds nothing, the
dedicated fallback tier accepts only the conventional progression
2/4/8/16/32/64/128, and its bare-number match is vetoed whenever a storage
keyword (SSD/HDD/STORAGE) occurs in the name. -/
theorem ram_accepted_totals (s : String) :
    (extract_ram s = "Unknown RAM" ∨
      ∃ n : Nat, 1 ≤ n ∧ n ≤ 256 ∧ extract_ram s = toString n ++ "GB") ∧
    (ramTryStrict ((upStr s).data) ramPatterns = none →
      extract_ram s = "Unknown RAM" ∨
      ∃ n : Nat, n ∈ ramCommon ∧ extract_ram s = toString n ++ "GB") ∧
    (ramTryStrict ((upStr s).data) ramPatterns = none →
      (["SSD", "HDD", "STORAGE"].any fun kw => hasSub kw.data ((upStr s).data)) = true →
      extract_ram s = "Unknown RAM") :=
  ⟨extract_ram_shape s, extract_ram_fallback_common s, extract_ram_storage_veto s⟩

theorem ram_accepted_totals_witness :
    (extract_ram "XYZ 16GB" = "Unknown RAM" ∨
      ∃ n : Nat, n ∈ ramCommon ∧ extract_ram "XYZ 16GB" = toString n ++ "GB") ∧
    extract_ram "ASUS ROG Strix G513QY 16GB 512GB SSD" = "Unknown RAM" :=
  ⟨(ram_accepted_totals "XYZ 16GB").2.1 (by decide),
   (ram_accepted_totals "ASUS ROG Strix G513QY 16GB 512GB SSD").2.2 (by decide) (by decide)⟩

/-- **C8** (confirmed).  Whenever the storage extractor collects at least one
capacity match, it returns exactly one `<capacity><unit>` value: that of a
collected match whose TB-to-GB-converted capacity (1 TB = 1024 GB) is maximal,
with that match's original unit; with no matches it returns the
`Unknown Storage` sentinel. -/
theorem storage_single_largest (s : String) :
    (storageSpecs ((upStr s).data) = [] → extract_storage s = "Unknown Storage") ∧
    (storageSpecs ((upStr s).data) ≠ [] →
      ∃ sp, sp ∈ storageSpecs ((upStr s).data) ∧
        extract_storage s = toString sp.capacity ++ sp.unit ∧
        ∀ sp' ∈ storageSpecs ((upStr s).data), sp'.capacity_gb ≤ sp.capacity_gb) ∧
    (∀ sp ∈ storageSpecs ((upStr s).data),
      sp.capacity_gb = if sp.unit = "TB" then sp.capacity * 1024 else sp.capacity) := by
  refine ⟨(extract_storage_shape s).1, (extract_storage_shape s).2, ?_⟩
  intro sp h
  obtain ⟨m, i, ty, rfl⟩ := mem_storageSpecs_shape _ _ h
  rfl

theorem storage_single_largest_witness :
    ∃ sp, sp ∈ storageSpecs ((upStr "SSD 512GB 1TB HDD").data) ∧
      extract_storage "SSD 512GB 1TB HDD" = toString sp.capacity ++ sp.unit ∧
      ∀ sp' ∈ storageSpecs ((upStr "SSD 512GB 1TB HDD").data),
        sp'.capacity_gb ≤ sp.capacity_gb :=
  (storage_single_largest "SSD 512GB 1TB HDD").2.1 (by decide)

/-- **C9** (confirmed).  If the raw input lacks the `product_name` or the
`price_raw` column, loading raises (`ValueError`) and the snapshot build
yields that error instead of any snapshot, so no record missing those
attributes proceeds to feature extraction or reconciliation. -/
theorem raw_contract_violation (tbl : RawTable) (now : Nat) (processed : String)
    (h : tbl.hasProductName = false ∨ tbl.hasPriceRaw = false) :
    load_raw_as_df tbl now =
      .error "Raw table must include 'product_name' and 'price_raw' columns" ∧
    snapshot_build tbl now processed =
      .error "Raw table must include 'product_name' and 'price_raw' columns" := by
  have hl : load_raw_as_df tbl now =
      .error "Raw table must include 'product_name' and 'price_raw' columns" := by
    unfold load_raw_as_df
    rcases h with h | h <;> rw [h] <;> simp
  refine ⟨hl, ?_⟩
  unfold snapshot_build
  rw [hl]
  rfl

theorem raw_contract_violation_witness :
    load_raw_as_df ⟨true, false, true, false, false, []⟩ 0 =
      .error "Raw table must include 'product_name' and 'price_raw' columns" ∧
    snapshot_build ⟨true, false, true, false, false, []⟩ 0 "P" =
      .error "Raw table must include 'product_name' and 'price_raw' columns" :=
  raw_contract_violation ⟨true, false, true, false, false, []⟩ 0 "P" (Or.inr rfl)

theorem hasSub_ne_nil (p l : List Char) (hp : p ≠ []) (h : hasSub p l = true) :
    l ≠ [] := by
  intro hl
  subst hl
  cases p with
  | nil => exact hp rfl
  | cons c cs => simp [hasSub, subAt] at h

theorem mkStr_ne_empty (l : List Char) (h : l ≠ []) : String.mk l ≠ "" := by
  intro he
  apply h
  have h2 : (String.mk l).data = String.data "" := congrArg String.data he
  simpa using h2

theorem ite_ne_empty {c : Prop} [Decidable c] {a b : String} (ha : a ≠ "") (hb : b ≠ "") :
    (if c then a else b) ≠ "" := by
  by_cases h : c
  · rw [if_pos h]; exact ha
  · rw [if_neg h]; exact hb

theorem mtch_bounds (ci : Bool) : ∀ (fuel : Nat) (r : RE) (st : MSt)
    (k : MSt → Option MSt) (res : MSt), mtch ci fuel r st k = some res →
    ∃ st', k st' = some res ∧ st.pos ≤ st'.pos ∧
      st'.pos + st'.rest.length = st.pos + st.rest.length ∧
      (consumes r = true → st.pos < st'.pos) := by
  intro fuel
  induction fuel with
  | zero => intro r st k res h; simp [mtch] at h
  | succ fuel ih =>
    intro r st k res h
    cases r with
    | eps =>
      simp only [mtch] at h
      exact ⟨st, h, Nat.le_refl _, rfl, fun hc => by simp [consumes] at hc⟩
    | cls neg rs =>
      simp only [mtch] at h
      split at h
      next => exact absurd h (by simp)
      next c cs hrest =>
        split_ifs at h with hcl
        refine ⟨⟨cs, st.pos + 1, some c, st.caps⟩, h, Nat.le_succ _, ?_,
          fun _ => Nat.lt_succ_self _⟩
        show st.pos + 1 + cs.length = st.pos + st.rest.length
        have hlen : st.rest.length = cs.length + 1 := by simp [hrest]
        omega
    | seq a b =>
      simp only [mtch] at h
      obtain ⟨st1, h1, hle1, hinv1, hst1⟩ := ih a st _ res h
      obtain ⟨st2, h2, hle2, hinv2, hst2⟩ := ih b st1 k res h1
      refine ⟨st2, h2, Nat.le_trans hle1 hle2, by omega, ?_⟩
      intro hc
      simp only [consumes, Bool.or_eq_true] at hc
      rcases hc with hca | hcb
      · exact Nat.lt_of_lt_of_le (hst1 hca) hle2
      · exact Nat.lt_of_le_of_lt hle1 (hst2 hcb)
    | alt a b =>
      simp only [mtch] at h
      split at h
      next res2 hm =>
        cases h
        obtain ⟨st', hk, hle, hinv, hst⟩ := ih a st k _ hm
        refine ⟨st', hk, hle, hinv, ?_⟩
        intro hc
        simp only [consumes, Bool.and_eq_true] at hc
        exact hst hc.1
      next hm =>
        obtain ⟨st', hk, hle, hinv, hst⟩ := ih b st k res h
        refine ⟨st', hk, hle, hinv, ?_⟩
        intro hc
        simp only [consumes, Bool.and_eq_true] at hc
        exact hst hc.2
    | starCls lz neg rs =>
      simp only [mtch] at h
      have hmore : ∀ res2 : MSt,
          (match st.rest with
           | [] => none
           | c :: cs =>
             if clsHit ci neg rs c then
               mtch ci fuel (.starCls lz neg rs) ⟨cs, st.pos + 1, some c, st.caps⟩ k
             else none) = some res2 →
          ∃ st', k st' = some res2 ∧ st.pos ≤ st'.pos ∧
            st'.pos + st'.rest.length = st.pos + st.rest.length := by
        intro res2 h2
        split at h2
        next => exact absurd h2 (by simp)
        next c cs hrest =>
          split_ifs at h2 with hcl
          obtain ⟨st', hk, hle, hinv, _⟩ := ih (.starCls lz neg rs)
            ⟨cs, st.pos + 1, some c, st.caps⟩ k res2 h2
          refine ⟨st', hk, Nat.le_trans (Nat.le_succ _) hle, ?_⟩
          have hinv2 : st'.pos + st'.rest.length = st.pos + 1 + cs.length := hinv
          have hlen : st.rest.length = cs.length + 1 := by simp [hrest]
          omega
      split at h
      · split at h
        next res2 hk0 =>
          cases h
          exact ⟨st, hk0, Nat.le_refl _, rfl, fun hc => by simp [consumes] at hc⟩
        next hk0 =>
          obtain ⟨st', hk, hle, hinv⟩ := hmore _ h
          exact ⟨st', hk, hle, hinv, fun hc => by simp [consumes] at hc⟩
      · split at h
        next res2 hm0 =>
          cases h
          obtain ⟨st', hk, hle, hinv⟩ := hmore _ hm0
          exact ⟨st', hk, hle, hinv, fun hc => by simp [consumes] at hc⟩
        next hm0 =>
          exact ⟨st, h, Nat.le_refl _, rfl, fun hc => by simp [consumes] at hc⟩
    | grp i a =>
      simp only [mtch] at h
      obtain ⟨st1, h1, hle, hinv, hst⟩ := ih a st _ res h
      refine ⟨{ st1 with caps := (i, st.pos, st1.pos) :: st1.caps }, h1, hle, hinv, ?_⟩
      intro hc
      simp only [consumes] at hc
      exact hst hc
    | look a =>
      simp only [mtch] at h
      split at h
      next st0 hm =>
        exact ⟨st, h, Nat.le_refl _, rfl, fun hc => by simp [consumes] at hc⟩
      next hm => exact absurd h (by simp)
    | wb =>
      simp only [mtch] at h
      split at h
      · exact ⟨st, h, Nat.le_refl _, rfl, fun hc => by simp [consumes] at hc⟩
      · exact absurd h (by simp)
    | eos =>
      simp only [mtch] at h
      split at h
      next hrest =>
        exact ⟨st, h, Nat.le_refl _, rfl, fun hc => by simp [consumes] at hc⟩
      next x hrest => exact absurd h (by simp)

theorem searchFromAux_bounds (ci : Bool) (r : RE) (hc : consumes r = true) :
    ∀ (rest : List Char) (pos : Nat) (prev : Option Char) (m : MRes),
    searchFromAux ci r pos prev rest = some m →
    m.mstart < m.mend ∧ m.mend ≤ pos + rest.length := by
  intro rest
  induction rest with
  | nil =>
    intro pos prev m h
    rw [searchFromAux] at h
    split at h
    next x stf hm =>
      obtain ⟨st', hk, hle, hinv, hst⟩ := mtch_bounds ci _ r _ some stf hm
      obtain rfl : st' = stf := Option.some.inj hk
      obtain rfl : m = ⟨pos, st'.pos, st'.caps⟩ := (Option.some.inj h).symm
      refine ⟨hst hc, ?_⟩
      show st'.pos ≤ pos + ([] : List Char).length
      have hinv2 : st'.pos + st'.rest.length = pos + ([] : List Char).length := hinv
      omega
    next x hm =>
      try dsimp only at h
      exact absurd h (by simp)
  | cons c cs ih =>
    intro pos prev m h
    rw [searchFromAux] at h
    split at h
    next x stf hm =>
      obtain ⟨st', hk, hle, hinv, hst⟩ := mtch_bounds ci _ r _ some stf hm
      obtain rfl : st' = stf := Option.some.inj hk
      obtain rfl : m = ⟨pos, st'.pos, st'.caps⟩ := (Option.some.inj h).symm
      refine ⟨hst hc, ?_⟩
      show st'.pos ≤ pos + (c :: cs).length
      have hinv2 : st'.pos + st'.rest.length = pos + (c :: cs).length := hinv
      omega
    next x hm =>
      try dsimp only at h
      obtain ⟨h1, h2⟩ := ih (pos + 1) (some c) m h
      refine ⟨h1, ?_⟩
      simp only [List.length_cons]
      omega

theorem reSearch_bounds (ci : Bool) (r : RE) (s : List Char) (m : MRes)
    (h : reSearch ci r s = some m) (hc : consumes r = true) :
    m.mstart < m.mend ∧ m.mend ≤ s.length := by
  have h2 := searchFromAux_bounds ci r hc s 0 none m h
  simpa using h2

theorem grp0_ne_nil (s : List Char) (m : MRes) (h1 : m.mstart < m.mend)
    (h2 : m.mend ≤ s.length) : grp0 s m ≠ [] := by
  intro hnil
  have hlen := congrArg List.length hnil
  simp only [grp0, List.length_take, List.length_drop, List.length_nil] at hlen
  omega

theorem grp0_mk_ne (ci : Bool) (r : RE) (s : List Char) (m : MRes)
    (h : reSearch ci r s = some m) (hc : consumes r = true) :
    String.mk (grp0 s m) ≠ "" := by
  obtain ⟨h1, h2⟩ := reSearch_bounds ci r s m h hc
  exact mkStr_ne_empty _ (grp0_ne_nil s m h1 h2)

theorem find_snd_ne {α : Type} (l : List (α × String)) (kv : α × String)
    (hm : kv ∈ l) (hall : (l.map (fun p => p.2)).all (fun x => x != "") = true) :
    kv.2 ≠ "" := by
  simp only [List.all_eq_true] at hall
  have h2 := hall _ (List.mem_map_of_mem (fun p => p.2) hm)
  simpa using h2

theorem procFirst_ne (d : List Char) (l : List (RE × Nat × PFmt)) (r : String)
    (h : procFirst d l = some r) : r ≠ "" := by
  induction l with
  | nil => simp [procFirst] at h
  | cons p rest ih =>
    obtain ⟨re, pr, f⟩ := p
    unfold procFirst at h
    split at h
    · exact ih h
    · split at h
      · split_ifs at h with hne
        · exact ih h
        · cases h; exact hne
      · exact ih h

theorem procFinalFirst_ne (d : List Char) (l : List (RE × PFmt)) (r : String)
    (h : procFinalFirst d l = some r) : r ≠ "" := by
  induction l with
  | nil => simp [procFinalFirst] at h
  | cons p rest ih =>
    obtain ⟨re, f⟩ := p
    unfold procFinalFirst at h
    split at h
    · exact ih h
    · split at h
      · split_ifs at h with hg
        · cases h
          simp only [Bool.and_eq_true, decide_eq_true_eq] at hg
          exact hg.1
        · exact ih h
      · exact ih h

theorem asusSeries_ne (nl : List Char) : asusSeries nl ≠ "" := by
  unfold asusSeries
  repeat' apply ite_ne_empty
  all_goals decide

theorem acerSeries_ne (nl : List Char) : acerSeries nl ≠ "" := by
  unfold acerSeries
  repeat' apply ite_ne_empty
  all_goals decide

theorem lenovoSeries_ne (s : String) : lenovoSeries s ≠ "" := by
  unfold lenovoSeries
  split
  next p hp => exact find_snd_ne _ _ (List.mem_of_find?_eq_some hp) (by decide)
  next => decide

theorem hpSeries_ne (nl : List Char) : hpSeries nl ≠ "" := by
  unfold hpSeries
  repeat' apply ite_ne_empty
  all_goals decide

theorem msiSeries_ne (nl : List Char) : msiSeries nl ≠ "" := by
  unfold msiSeries
  repeat' apply ite_ne_empty
  all_goals decide

theorem axiooSeries_ne (nl : List Char) : axiooSeries nl ≠ "" := by
  unfold axiooSeries
  repeat' apply ite_ne_empty
  all_goals decide

theorem advanSeries_ne (nl : List Char) : advanSeries nl ≠ "" := by
  unfold advanSeries
  repeat' apply ite_ne_empty
  all_goals decide

theorem avitaSeries_ne (nl : List Char) : avitaSeries nl ≠ "" := by
  unfold avitaSeries
  repeat' apply ite_ne_empty
  all_goals decide

theorem zyrexSeries_ne (nl : List Char) : zyrexSeries nl ≠ "" := by
  unfold zyrexSeries
  repeat' apply ite_ne_empty
  all_goals decide

theorem dellSeries_ne (nl : List Char) : dellSeries nl ≠ "" := by
  unfold dellSeries
  repeat' apply ite_ne_empty
  all_goals decide

theorem appleSeries_ne (nl : List Char) : appleSeries nl ≠ "" := by
  unfold appleSeries
  repeat' apply ite_ne_empty
  all_goals decide

theorem extract_series_ne (s : String) : extract_series s ≠ "" := by
  simp only [extract_series]
  apply ite_ne_empty
  · decide
  · split
    next => decide
    next b hb =>
      repeat' apply ite_ne_empty
      all_goals
        first
          | decide
          | exact asusSeries_ne _
          | exact acerSeries_ne _
          | exact lenovoSeries_ne _
          | exact hpSeries_ne _
          | exact msiSeries_ne _
          | exact axiooSeries_ne _
          | exact advanSeries_ne _
          | exact avitaSeries_ne _
          | exact zyrexSeries_ne _
          | exact dellSeries_ne _
          | exact appleSeries_ne _

theorem extract_processor_ne (s : String) : extract_processor s ≠ "" := by
  simp only [extract_processor]
  split
  next r hp => exact procFirst_ne _ _ _ hp
  next =>
    split
    next kv hkv => exact find_snd_ne _ _ (List.mem_of_find?_eq_some hkv) (by decide)
    next =>
      split
      next r hf => exact procFinalFirst_ne _ _ _ hf
      next => decide

theorem standardizeProcU_ne (u : List Char) : standardizeProcU u ≠ "" := by
  unfold standardizeProcU
  repeat' apply ite_ne_empty
  all_goals try decide
  split
  next mm hmm =>
    repeat' apply ite_ne_empty
    all_goals decide
  next hmm =>
    repeat' apply ite_ne_empty
    all_goals decide

theorem standardize_processor_ne (p : Option String) : standardize_processor p ≠ "" := by
  cases p with
  | none => decide
  | some v =>
    simp only [standardize_processor]
    apply ite_ne_empty
    · decide
    · exact standardizeProcU_ne _

theorem nvidiaVga_ne (vn : List Char) : nvidiaVga vn ≠ "" := by
  unfold nvidiaVga
  split
  next m heq =>
    apply ite_ne_empty
    · exact grp0_mk_ne false _ vn m heq (by decide)
    apply ite_ne_empty
    · exact append_right_ne_empty _ _ (by decide)
    · exact append_left_ne_empty _ _ (append_right_ne_empty _ _ (by decide))
  next =>
    split
    next m heq =>
      apply ite_ne_empty
      · exact grp0_mk_ne false _ vn m heq (by decide)
      apply ite_ne_empty
      · exact append_right_ne_empty _ _ (by decide)
      · exact append_left_ne_empty _ _ (append_right_ne_empty _ _ (by decide))
    next =>
      split
      next m heq =>
        apply ite_ne_empty
        · exact grp0_mk_ne false _ vn m heq (by decide)
        · exact append_left_ne_empty _ _ (by decide)
      next =>
        split
        next m heq =>
          apply ite_ne_empty
          · exact grp0_mk_ne false _ vn m heq (by decide)
          apply ite_ne_empty
          · unfold nvVgaModel
            apply ite_ne_empty
            · exact append_left_ne_empty _ _ (by decide)
            · exact append_left_ne_empty _ _ (by decide)
          · exact grp0_mk_ne false _ vn m heq (by decide)
        next =>
          split
          next m heq =>
            apply ite_ne_empty
            · exact grp0_mk_ne false _ vn m heq (by decide)
            apply ite_ne_empty
            · unfold nvVgaModel
              apply ite_ne_empty
              · exact append_left_ne_empty _ _ (by decide)
              · exact append_left_ne_empty _ _ (by decide)
            · exact grp0_mk_ne false _ vn m heq (by decide)
          next =>
            split
            next m heq => exact grp0_mk_ne false _ vn m heq (by decide)
            next => decide

theorem intelVga_ne (vn : List Char) : intelVga vn ≠ "" := by
  unfold intelVga
  apply ite_ne_empty
  · decide
  apply ite_ne_empty
  · decide
  · split
    next m heq =>
      apply ite_ne_empty
      · exact append_left_ne_empty _ _ (append_left_ne_empty _ _
          (append_left_ne_empty _ _ (by decide)))
      · decide
    next =>
      repeat' apply ite_ne_empty
      all_goals decide

theorem amdVga_ne (vn : List Char) : amdVga vn ≠ "" := by
  unfold amdVga
  repeat' split
  all_goals
    first
      | decide
      | exact append_left_ne_empty _ _ (by decide)

theorem vgaBlock_ne (nu : List Char) (r : String) (h : vgaBlock nu = some r) :
    r ≠ "" := by
  unfold vgaBlock at h
  split_ifs at h
  split at h
  next x m heq =>
    dsimp only at h
    split_ifs at h
    · cases h; exact nvidiaVga_ne _
    · cases h; exact intelVga_ne _
    · cases h; exact amdVga_ne _
    · cases h; decide
  next x heq => exact absurd h (by simp)

theorem extract_gpu_ne (s : String) : extract_gpu s ≠ "" := by
  simp only [extract_gpu]
  apply ite_ne_empty
  · decide
  apply ite_ne_empty
  · decide
  · split
    next r hp => exact procFirst_ne _ _ _ hp
    next =>
      split
      next r hv => exact vgaBlock_ne _ _ hv
      next =>
        split
        next kv hkv => exact find_snd_ne _ _ (List.mem_of_find?_eq_some hkv) (by decide)
        next => decide

theorem standardizeGpuU_ne (u : List Char) : standardizeGpuU u ≠ "" := by
  unfold standardizeGpuU
  repeat' apply ite_ne_empty
  all_goals try decide
  split
  · repeat' apply ite_ne_empty
    all_goals decide
  · decide

theorem standardize_gpu_ne (g : Option String) : standardize_gpu g ≠ "" := by
  cases g with
  | none => decide
  | some v =>
    simp only [standardize_gpu]
    apply ite_ne_empty
    · decide
    · exact standardizeGpuU_ne _

/-- **C10** (confirmed).  Every embedded feature extractor is total and
returns a non-empty string — a real value or its category-specific sentinel:
the display extractor yields `Unknown` or `<size>"`, the RAM and storage
extractors their sentinel or a formatted value, the brand extractor always
yields `Lenovo`, a listed brand, or `Other`, and the series, processor,
processor-category, GPU and GPU-category extractors of `etl_old.py` likewise
never return an empty string on any input; the scenario name
`"Generic Brand Laptop"` yields display `Unknown`. -/
theorem extractors_total_nonempty :
    (∀ s : String, extract_display s ≠ "") ∧
    (∀ s : String, extract_ram s ≠ "") ∧
    (∀ s : String, extract_storage s ≠ "") ∧
    (∀ s : String, ∀ bl : List String,
      extract_brand s bl = "Lenovo" ∨ extract_brand s bl ∈ bl ∨ extract_brand s bl = "Other") ∧
    (∀ s : String, extract_brand s get_brands ≠ "") ∧
    (∀ s : String, extract_series s ≠ "") ∧
    (∀ s : String, extract_processor s ≠ "") ∧
    (∀ p : Option String, standardize_processor p ≠ "") ∧
    (∀ s : String, extract_gpu s ≠ "") ∧
    (∀ g : Option String, standardize_gpu g ≠ "") ∧
    extract_display "Generic Brand Laptop" = "Unknown" := by
  refine ⟨?_, ?_, ?_, extract_brand_shape, ?_, extract_series_ne,
    extract_processor_ne, standardize_processor_ne, extract_gpu_ne,
    standardize_gpu_ne, by decide⟩
  · intro s
    rcases extract_display_shape s with h | ⟨t, h⟩ <;> rw [h]
    · decide
    · exact append_right_ne_empty _ _ (by decide)
  · intro s
    rcases extract_ram_shape s with h | ⟨n, _, _, h⟩ <;> rw [h]
    · decide
    · exact append_right_ne_empty _ _ (by decide)
  · intro s
    rcases hsp : storageSpecs ((upStr s).data) with _ | ⟨x, xs⟩
    · rw [(extract_storage_shape s).1 hsp]
      decide
    · obtain ⟨sp, _, he, _⟩ := (extract_storage_shape s).2 (by rw [hsp]; simp)
      rw [he]
      exact append_left_ne_empty _ _ (natToString_ne_empty _)
  · intro s
    have hb : ∀ b ∈ get_brands, b ≠ "" := by decide
    rcases extract_brand_shape s get_brands with h | h | h
    · rw [h]; decide
    · exact hb _ h
    · rw [h]; decide

/-- C1: after a completed reconciliation pass (discontinued close-outs, then
the per-snapshot-row upsert) followed by the Duplicate-Active Guard, every
business key has at most one `is_active` row in the current table; and whenever
the guard scans a table in which some key has two or more active rows with
pairwise distinct `valid_from` values, it keeps exactly the row with the most
recent (lexicographically greatest) `valid_from` and closes — `is_active=false`,
`valid_to=` run timestamp — every other active row of that key. -/
theorem duplicate_active_guard_spec (snapshot : List SnapRow) (st : EtlState)
    (t : String) (rows : List CurRow) (ph : String)
    (hnd : (st.current.map (·.product_id)).Nodup)
    (hbd : ∀ r ∈ st.current, r.product_id < st.nextId)
    (hrnd : (rows.map (·.product_id)).Nodup)
    (h2 : 2 ≤ (actH rows ph).length)
    (hdist : (actH rows ph).Pairwise fun a b => a.valid_from ≠ b.valid_from) :
    (∀ h, (actH (scd2_apply snapshot st t).1.current h).length ≤ 1) ∧
      ∃ keep, keep ∈ actH rows ph ∧
        (∀ r ∈ actH rows ph, strLeB r.valid_from keep.valid_from = true) ∧
        actH (guardPass t rows) ph = [keep] ∧
        ∀ r ∈ actH rows ph, r ≠ keep → closeRow t r ∈ guardPass t rows := by
  constructor
  · intro h
    have hnd' := scd2_preGuard_nodup snapshot st t hnd hbd
    show (actH (guardPass t (scd2_preGuard snapshot st t).1.current) h).length ≤ 1
    exact guardPass_le_one t _ hnd' h
  · obtain ⟨keep, hk1, hk2, _, hk4, hk5⟩ := guardPass_repair t rows ph hrnd h2 hdist
    exact ⟨keep, hk1, hk2, hk4, hk5⟩

/-- C1 witness: the seeded duplicate-active state of Scenario 6 — two active
rows for hash "h" with valid_from "2" and "1" — run against a snapshot still
holding "h". -/
theorem duplicate_active_guard_spec_witness :
    (∀ h, (actH (scd2_apply [snapY] stDup "3").1.current h).length ≤ 1) ∧
      ∃ keep, keep ∈ actH stDup.current "h" ∧
        (∀ r ∈ actH stDup.current "h", strLeB r.valid_from keep.valid_from = true) ∧
        actH (guardPass "3" stDup.current) "h" = [keep] ∧
        ∀ r ∈ actH stDup.current "h", r ≠ keep →
          closeRow "3" r ∈ guardPass "3" stDup.current :=
  duplicate_active_guard_spec [snapY] stDup "3" stDup.current "h"
    (by decide) (by decide) (by decide) (by decide) (by decide)

/-- C3: in every reconciliation pass the set of discontinued keys is exactly
the pre-run current-active keys minus the snapshot keys; every such key is
fully closed by the discontinued fold — no active row left, archival copy in
history — and that fold's output is the state the upsert fold starts from, so
the change log is the old log, then the discontinued entries, then only
non-discontinued entries; consequently a key present in the snapshot is never
classified as discontinued in the run. -/
theorem discontinued_pass_spec (snapshot : List SnapRow) (st : EtlState) (t : String) :
    (∀ h, h ∈ discHashes st.current (snapshot.map (·.product_hash)) ↔
      (actH st.current h ≠ [] ∧ h ∉ snapshot.map (·.product_hash))) ∧
    (discHashes st.current (snapshot.map (·.product_hash))).Nodup ∧
    (∀ h ∈ discHashes st.current (snapshot.map (·.product_hash)),
      actH ((discHashes st.current (snapshot.map (·.product_hash))).foldl
        (discStep t st.current) (st, stats0)).1.current h = []) ∧
    (∀ h ∈ discHashes st.current (snapshot.map (·.product_hash)),
      ∃ row, curMapGet st.current h = some row ∧
        histOf t row ∈ (scd2_apply snapshot st t).1.history) ∧
    (∃ uE, (scd2_apply snapshot st t).1.changes =
        st.changes ++ (discHashes st.current (snapshot.map (·.product_hash))).map
          (fun h => (⟨none, h, "discontinued",
            .note "no longer present in latest snapshot", t⟩ : ChangeRec)) ++ uE ∧
      ∀ e ∈ uE, e.change_type ≠ "discontinued") ∧
    ∀ e ∈ (scd2_apply snapshot st t).1.changes, e ∉ st.changes →
      e.change_type = "discontinued" →
        e.product_hash ∉ snapshot.map (·.product_hash) := by
  have hsome : ∀ h ∈ discHashes st.current (snapshot.map (·.product_hash)),
      (curMapGet st.current h).isSome = true :=
    fun h hh => discHashes_isSome st.current _ h hh
  have hdecomp : ∃ uE, (scd2_apply snapshot st t).1.changes =
      st.changes ++ (discHashes st.current (snapshot.map (·.product_hash))).map
        (fun h => (⟨none, h, "discontinued",
          .note "no longer present in latest snapshot", t⟩ : ChangeRec)) ++ uE ∧
      ∀ e ∈ uE, e.change_type ≠ "discontinued" := by
    have hdisc := discFold_changes t st.current _ (st, stats0) hsome
    obtain ⟨uE, huE, hp⟩ := upsertFold_changes t st.current snapshot
      ((discHashes st.current (snapshot.map (·.product_hash))).foldl
        (discStep t st.current) (st, stats0))
    refine ⟨uE, ?_, ?_⟩
    · show (scd2_preGuard snapshot st t).1.changes = _
      unfold scd2_preGuard
      rw [huE, hdisc]
    · intro e he
      rcases hp e he with hc | hc | hc <;> rw [hc] <;> decide
  refine ⟨fun h => discHashes_mem_iff st.current _ h, discHashes_nodup _ _, ?_, ?_,
    hdecomp, ?_⟩
  · intro h hm
    exact discFold_closes t st.current _ (st, stats0) h hsome hm
  · intro h hm
    obtain ⟨row, hrow, hmem⟩ := discFold_hist t st.current _ (st, stats0) h hm hsome
    refine ⟨row, hrow, ?_⟩
    show histOf t row ∈ (scd2_preGuard snapshot st t).1.history
    unfold scd2_preGuard
    exact upsertFold_hist_mono t st.current snapshot _ _ hmem
  · obtain ⟨uE, heq, hne⟩ := hdecomp
    intro e he hnotin htype
    rw [heq] at he
    rcases List.mem_append.mp he with he1 | he2
    · rcases List.mem_append.mp he1 with he0 | heD
      · exact absurd he0 hnotin
      · obtain ⟨h, hhD, rfl⟩ := List.mem_map.mp heD
        exact ((discHashes_mem_iff st.current _ h).mp hhD).2
    · exact absurd htype (hne e he2)

/-- C4: for a key active in both the current table and the snapshot whose
tracked attributes differ, the upsert emits exactly one ChangeLogEntry whose
details are the diff map — one (column, old, new) entry per tracked column
whose string-normalized values differ, none for columns comparing equal — and
whose change_type is "price_update" iff price_raw is the only differing column
out of the eleven tracked ones, "attribute_update" otherwise. -/
theorem change_classification_spec (t : String) (cur0 : List CurRow)
    (acc : EtlState × Stats) (s : SnapRow) (c : CurRow)
    (hmap : curMapGet cur0 s.product_hash = some c)
    (hch : changedOf s c ≠ []) :
    (upsertStep t cur0 acc s).1.changes = acc.1.changes ++
      [⟨none, s.product_hash, classifyChange (changedOf s c),
        .diff (changedOf s c), t⟩] ∧
    (classifyChange (changedOf s c) = "price_update" ↔
      (normV (s.price_raw.map toString) ≠ normV (c.price_raw.map toString) ∧
       normV (some s.product_name) = normV c.product_name ∧
       normV s.brand = normV c.brand ∧
       normV s.series = normV c.series ∧
       normV s.processor_detail = normV c.processor_detail ∧
       normV s.processor_category = normV c.processor_category ∧
       normV s.gpu = normV c.gpu ∧
       normV s.gpu_category = normV c.gpu_category ∧
       normV s.ram = normV c.ram ∧
       normV s.storage = normV c.storage ∧
       normV s.display = normV c.display)) ∧
    (classifyChange (changedOf s c) = "price_update" ∨
      classifyChange (changedOf s c) = "attribute_update") ∧
    ∀ e, e ∈ changedOf s c ↔ ∃ a ∈ trackedAccessors,
      normV (a.2.1 s) ≠ normV (a.2.2 c) ∧ e = (a.1, a.2.2 c, a.2.1 s) := by
  refine ⟨?_, classify_price_iff s c, classifyChange_cases _, fun e => mem_changedOf s c e⟩
  unfold upsertStep
  rw [hmap]
  dsimp only
  have hne : ¬((changedOf s c).isEmpty = true) := by
    intro hh
    exact hch (List.isEmpty_iff.mp hh)
  rw [if_neg hne]

/-- C4 witness: Scenario 2 — one active row for hash "h" at price 25000000,
snapshot reports 23000000 with every other attribute equal; the emitted entry
is a lone price_update with details price_raw: old 25000000, new 23000000. -/
theorem change_classification_spec_witness :
    (upsertStep "2" stOne.current (stOne, stats0) snapA).1.changes =
      [⟨none, "h", "price_update",
        .diff [("price_raw", some "25000000", some "23000000")], "2"⟩] := by
  have h := change_classification_spec "2" stOne.current (stOne, stats0) snapA
    (exCur 1 "h" "A" "1" (some 25000000)) (by decide) (by decide)
  rw [h.1]
  decide

/-- C2 counterexample: a snapshot holding two rows for one hash, run against
the empty current table. Both passes complete in the real program — the
pass-start current_map is built from no rows the first time and from a single
active row the second, so the non-unique-index ValueError of
set_index().to_dict never arises — yet idempotence fails: presence is tested
against the pass-start map, so pass 1 inserts both duplicates as new and the
guard closes one of them; pass 2 then finds the surviving row differing from
the discarded duplicate and emits an attribute_update instead of classifying
everything unchanged. -/
theorem reconciliation_not_idempotent :
    stEmpty.current = [] ∧
    (scd2_apply [snapX, snapY] stEmpty "3").2.new_products = 2 ∧
    ((scd2_apply [snapX, snapY] stEmpty "3").1.current.filter (·.is_active)).Pairwise
      (fun a b => a.product_hash ≠ b.product_hash) ∧
    (scd2_apply [snapX, snapY]
      (scd2_apply [snapX, snapY] stEmpty "3").1 "4").2.attribute_updates = 1 := by
  decide

/-- C2 (amended): when the pre-pass current table has at most one active row
per business key (its active rows bear pairwise distinct hashes) and the
snapshot keys are duplicate-free, reconciliation is idempotent — the second
pass over the identical snapshot returns the state unchanged and classifies
every snapshot key as unchanged, with zero new, price_update,
attribute_update and discontinued counts. -/
theorem reconciliation_idempotent (snapshot : List SnapRow) (st : EtlState) (t t' : String)
    (hone : (st.current.filter (·.is_active)).Pairwise
      fun a b => a.product_hash ≠ b.product_hash)
    (hsnd : (snapshot.map (·.product_hash)).Nodup) :
    scd2_apply snapshot (scd2_apply snapshot st t).1 t' =
      ((scd2_apply snapshot st t).1, { stats0 with unchanged := snapshot.length }) := by
  have hle := fun h => pairwise_hash_le_one st.current hone h
  obtain ⟨hA, hB⟩ := scd2_pass1_post snapshot st t hle hsnd
  exact scd2_second_pass snapshot _ t' hA hB

/-- C2 witness: the healthy one-row state of Scenario 2 with its price-drop
snapshot — the first pass applies the price update, the second identical pass
is the identity with one `unchanged`. -/
theorem reconciliation_idempotent_witness :
    scd2_apply [snapA] (scd2_apply [snapA] stOne "2").1 "3" =
      ((scd2_apply [snapA] stOne "2").1, { stats0 with unchanged := 1 }) :=
  reconciliation_idempotent [snapA] stOne "2" "3" (by decide) (by decide)

end WS
